import Mathlib

/-!
# UBX M8 driver: frame codec, request correlator and record cache

A shallow embedding of `src/src/ubx_m8.c` (generic request/response driver) and of the
parts of `src/src/ublox_m8u_hnr.c` (legacy buffer-scan driver) that the verified
properties refer to.

Conventions of the embedding

* A byte buffer is a `List Nat`; a cell holds a value below 256. A read outside the list
  yields 0 (`rd`). The code reads outside the span it was given only when `8 + output_size`
  wraps around in `ubx_parse_message`, and the result does not depend on the value read
  there (the 16-bit length field can never equal such an `output_size`).
* `uint8_t` / `uint16_t` / `uint32_t` arithmetic is `Nat` arithmetic with an explicit
  `% 256`, `% 65536`, `% 4294967296` where the C code truncates.
* Multi-byte objects are laid out little-endian (the targets of the driver; the wire
  format of the protocol is little-endian as well and the code copies `uint16_t`
  objects with `memcpy`).
* `calloc` is taken to succeed: the allocation-failure branches are not part of the model.
* The transport (`send`, `recv`, `delay_ms`) is an arbitrary state machine over a state
  type `σ`; every hook call made by the driver is also recorded in a trace of `Event`s.
-/

set_option maxRecDepth 100000

namespace UbxM8

/-! ## Constants (`ubx_m8_msg.h`, `ubx_m8.h`, `ubx_m8.c`) -/

def UBX_HEADER_0 : Nat := 0xB5
def UBX_HEADER_1 : Nat := 0x62
def UBX_HNR_CLASS : Nat := 0x28
def UBX_HNR_PVT : Nat := 0x00
def UBX_NAV_CLASS : Nat := 0x01
def UBX_NAV_PVT : Nat := 0x07
def UBX_CFG_CLASS : Nat := 0x06
def UBX_CFG_PRT : Nat := 0x00
def UBX_CFG_HNR : Nat := 0x5C
def UBX_ACK_CLASS : Nat := 0x05
def UBX_ACK_ACK : Nat := 0x01
def UBX_M8_BUFFER_SIZE : Nat := 1024
def DEFAULT_TIMEOUT : Nat := 1000
def TIME_ONLY_FIX : Nat := 5

/-! ## Memory primitives -/

/-- Read of `b[i]`; 0 outside the list. -/
def rd (b : List Nat) (i : Nat) : Nat := b.getD i 0

/-- The C call `memcpy(dst + off, src, n)` (also `memmove`): the `n` first bytes of `src`
replace the cells `off .. off + n` of `dst`. -/
def memcpy (dst : List Nat) (off : Nat) (src : List Nat) (n : Nat) : List Nat :=
  dst.take off ++ src.take n ++ dst.drop (off + n)

/-- Memory image of a `uint16_t` object (little-endian). -/
def u16_bytes (x : Nat) : List Nat := [x % 256, x / 256 % 256]

/-- Value of the `uint16_t` object stored at `b[i], b[i+1]` (little-endian). -/
def u16_load (b : List Nat) (i : Nat) : Nat := rd b i + 256 * rd b (i + 1)

/-- The macro `htons(x)`: `(uint16_t)((x << 8) | (x >> 8))`. -/
def htons (x : Nat) : Nat := ((x <<< 8) ||| (x >>> 8)) % 65536

/-! ## Checksum (`calculate_checksum`, identical in both drivers) -/

/-- One iteration of the `for` loop of `calculate_checksum`: indices 0 and 1 are skipped,
otherwise `ck_a += data[i]; ck_b += ck_a;` on `uint8_t` accumulators. -/
def checksum_step (data : List Nat) (ck : Nat × Nat) (i : Nat) : Nat × Nat :=
  if i > 1 then
    let ck_a := (ck.1 + rd data i) % 256
    let ck_b := (ck.2 + ck_a) % 256
    (ck_a, ck_b)
  else ck

/-- The accumulator pair `(ck_a, ck_b)` after the loop `for (i = 0; i < data_size; i++)`. -/
def checksum_loop (data : List Nat) (data_size : Nat) : Nat × Nat :=
  (List.range data_size).foldl (checksum_step data) (0, 0)

/-- The function `calculate_checksum`: returns `(ck_a << 8) | ck_b` as a `uint16_t`. -/
def calculate_checksum (data : List Nat) (data_size : Nat) : Nat :=
  let ck := checksum_loop data data_size
  ((ck.1 <<< 8) ||| ck.2) % 65536

/-! ## Frame codec (`ubx_send_message`, `ubx_parse_message`) -/

/-- The buffer `buf` that `ubx_send_message` builds and hands to `send`, of
`2 + 2 + 2 + payload_size + 2` bytes. `payload = none` is the `NULL` pointer. -/
def ubx_send_message_buf (class_id msg_id : Nat) (payload : Option (List Nat))
    (payload_size : Nat) : List Nat :=
  let buf := List.replicate (2 + 2 + 2 + payload_size + 2) 0
  let buf := memcpy buf 0 [UBX_HEADER_0, UBX_HEADER_1] 2
  let buf := buf.set 2 class_id
  let buf := buf.set 3 msg_id
  let buf := memcpy buf 4 (u16_bytes payload_size) 2
  let buf :=
    match payload with
    | some p => if payload_size > 0 then memcpy buf 6 p payload_size else buf
    | none => buf
  let crc := htons (calculate_checksum buf (6 + payload_size))
  memcpy buf (6 + payload_size) (u16_bytes crc) 2

/-- The function `ubx_parse_message`. `len` is the C `int`, compared as `uint32_t` with
`8 + output_size`; `output = none` is the `NULL` pointer. Returns the return code and the
output object after the call. -/
def ubx_parse_message (buffer : List Nat) (len : Int) (expected_class expected_id : Nat)
    (output : Option (List Nat)) (output_size : Nat) : Int × Option (List Nat) :=
  if len % 4294967296 < (((8 + output_size) % 4294967296 : Nat) : Int) then (-1, output)
  else if [rd buffer 0, rd buffer 1] ≠ [UBX_HEADER_0, UBX_HEADER_1] then (-1, output)
  else if expected_class ≠ 0xFF ∧ rd buffer 2 ≠ expected_class then (-1, output)
  else if expected_id ≠ 0xFF ∧ rd buffer 3 ≠ expected_id then (-1, output)
  else
    let payload_len := u16_load buffer 4
    if payload_len ≠ output_size then (-1, output)
    else
      let crc := htons (calculate_checksum buffer (6 + payload_len))
      if [rd buffer (6 + payload_len), rd buffer (6 + payload_len + 1)] ≠ u16_bytes crc then
        (-1, output)
      else
        (0, output.map (fun o => memcpy o 0 (buffer.drop 6) payload_len))

/-- The legacy `send_request_message` (`ublox_m8u_hnr.c`): the bytes handed to `send`. -/
def send_request_message_buf : List Nat :=
  let request := [0xB5, 0x62, 0x28, 0x00, 0x00, 0x00]
  let crc := calculate_checksum request request.length
  let request_with_crc := List.replicate (request.length + 2) 0
  let request_with_crc := memcpy request_with_crc 0 request request.length
  let request_with_crc := request_with_crc.set request.length ((crc >>> 8) &&& 0xFF)
  request_with_crc.set (request.length + 1) (crc &&& 0xFF)

/-! ## Transport interface (`ubx_if_t`) and hook trace -/

/-- A call made by the driver to one of the caller-supplied hooks. -/
inductive Event where
  | send (data : List Nat) (data_length : Nat)
  | recv (data_length : Nat)
  | delay (ms : Nat)
  | lock
  | unlock
  deriving DecidableEq, Repr

/-- The struct `ubx_if_t`: the three transport hooks, as transitions of an environment of
type `σ`. `send s data data_length` returns the C return value; `recv s data data_length`
receives the content of the supplied buffer and returns the C return value together with
the content of that buffer after the call. -/
structure ubx_if_t (σ : Type) where
  send : σ → List Nat → Nat → Int × σ
  recv : σ → List Nat → Nat → Int × List Nat × σ
  delay_ms : σ → Nat → σ

/-- Why an embedded function has no result: the recursion budget of the model ran out, the
C code would dereference a `NULL` pointer, or it would access an array outside its
bounds. -/
inductive Fault where
  | out_of_fuel
  | null_deref
  | out_of_bounds
  deriving DecidableEq, Repr

/-- The function `ubx_send_message`: return code, environment afterwards, hook calls. -/
def ubx_send_message {σ : Type} (ifc : ubx_if_t σ) (s : σ) (class_id msg_id : Nat)
    (payload : Option (List Nat)) (payload_size : Nat) : Int × σ × List Event :=
  let buf := ubx_send_message_buf class_id msg_id payload payload_size
  let r := ifc.send s buf (8 + payload_size)
  (if r.1 < 0 then -1 else 0, r.2, [Event.send buf (8 + payload_size)])

/-! ## Request correlator (`ubx_send_and_receive`) -/

/-- The C call `memchr(b, c, n)`, as the offset of the match from `b`. -/
def memchr : List Nat → Nat → Nat → Option Nat
  | _, _, 0 => none
  | [], _, _ + 1 => none
  | x :: xs, c, n + 1 => if x = c then some 0 else (memchr xs c n).map (· + 1)

/-- The `uint8_t buffer_size` of one poll:
`(UBX_M8_BUFFER_SIZE - total_bytes) > 128 ? 128 : (UBX_M8_BUFFER_SIZE - total_bytes)`. -/
def recv_buffer_size (total_bytes : Nat) : Nat :=
  ((if (UBX_M8_BUFFER_SIZE : Int) - total_bytes > 128 then 128
    else (UBX_M8_BUFFER_SIZE : Int) - total_bytes) % 256).toNat

/-- The local variables and the memory the polling loop of `ubx_send_and_receive`
works on. -/
structure PollState (σ : Type) where
  env : σ
  response : Option (List Nat)
  sp_buffer : List Nat
  total_bytes : Nat
  time_elapsed : Nat
  trace : List Event

/-- Outcome of `ubx_send_and_receive`. -/
structure RxResult (σ : Type) where
  ret : Int
  response : Option (List Nat)
  sp_buffer : Option (List Nat)
  env : σ
  trace : List Event

/-- First half of the loop body ("Check for available data"): one `recv` into a zeroed
temporary buffer of `buffer_size` bytes, appended to the working buffer when
`bytes_read > 0 && buffer_size != 0`. -/
def poll_receive {σ : Type} (ifc : ubx_if_t σ) (st : PollState σ) : PollState σ :=
  let buffer_size := recv_buffer_size st.total_bytes
  let temp_buffer := List.replicate buffer_size 0
  let r := ifc.recv st.env temp_buffer buffer_size
  let bytes_read := r.1
  let temp_buffer := r.2.1
  if bytes_read > 0 ∧ buffer_size ≠ 0 then
    { st with env := r.2.2,
              sp_buffer := memcpy st.sp_buffer st.total_bytes temp_buffer bytes_read.toNat,
              total_bytes := st.total_bytes + bytes_read.toNat,
              trace := st.trace ++ [Event.recv buffer_size] }
  else
    { st with env := r.2.2, trace := st.trace ++ [Event.recv buffer_size] }

/-- Second half of the loop body: search for the header byte, validate a complete
candidate, otherwise shift the buffer, add the polling interval and delay. `true` when
the body executes `return 0`. -/
def poll_scan {σ : Type} (ifc : ubx_if_t σ) (expected_resp_class expected_resp_id : Nat)
    (response_size : Nat) (st : PollState σ) : Bool × PollState σ :=
  match memchr st.sp_buffer UBX_HEADER_0 st.total_bytes with
  | some k =>
    let len := st.total_bytes - k
    let parsed :=
      if len ≥ 8 + response_size then
        ubx_parse_message (st.sp_buffer.drop k) len expected_resp_class expected_resp_id
          st.response response_size
      else (-1, st.response)
    if len ≥ 8 + response_size ∧ parsed.1 = 0 then
      (true, { st with response := parsed.2 })
    else
      let total_bytes := st.total_bytes - k
      (false, { st with env := ifc.delay_ms st.env 10, response := parsed.2,
                        sp_buffer := memcpy st.sp_buffer 0 (st.sp_buffer.drop k) total_bytes,
                        total_bytes := total_bytes, time_elapsed := st.time_elapsed + 10,
                        trace := st.trace ++ [Event.delay 10] })
  | none =>
    (false, { st with env := ifc.delay_ms st.env 10, total_bytes := 0,
                      time_elapsed := st.time_elapsed + 10,
                      trace := st.trace ++ [Event.delay 10] })

/-- One pass through the body of `while (time_elapsed < DEFAULT_TIMEOUT)`: `true` when
the body executes `return 0`, otherwise the state at the end of the body. -/
def poll_body {σ : Type} (ifc : ubx_if_t σ) (expected_resp_class expected_resp_id : Nat)
    (response_size : Nat) (st : PollState σ) : Bool × PollState σ :=
  poll_scan ifc expected_resp_class expected_resp_id response_size (poll_receive ifc st)

/-- The loop `while (time_elapsed < DEFAULT_TIMEOUT) { ... }` followed by `return -1`,
with a recursion budget. -/
def poll_loop {σ : Type} (ifc : ubx_if_t σ) (expected_resp_class expected_resp_id : Nat)
    (response_size : Nat) : Nat → PollState σ → Except Fault (RxResult σ)
  | 0, _ => .error Fault.out_of_fuel
  | fuel + 1, st =>
    if st.time_elapsed < DEFAULT_TIMEOUT then
      let b := poll_body ifc expected_resp_class expected_resp_id response_size st
      if b.1 then
        .ok { ret := 0, response := b.2.response, sp_buffer := some b.2.sp_buffer,
              env := b.2.env, trace := b.2.trace }
      else poll_loop ifc expected_resp_class expected_resp_id response_size fuel b.2
    else
      .ok { ret := -1, response := st.response, sp_buffer := some st.sp_buffer,
            env := st.env, trace := st.trace }

/-- The function `ubx_send_and_receive`. `sp_buffer` is the global working buffer
(`none` is `NULL`: the polling loop would hand it to `memchr` / `memcpy`). -/
def ubx_send_and_receive {σ : Type} (ifc : ubx_if_t σ) (s : σ) (sp_buffer : Option (List Nat))
    (class_id msg_id : Nat) (payload : Option (List Nat)) (payload_size : Nat)
    (expected_resp_class expected_resp_id : Nat)
    (response : Option (List Nat)) (response_size : Nat) : Except Fault (RxResult σ) :=
  let sent := ubx_send_message ifc s class_id msg_id payload payload_size
  if sent.1 ≠ 0 then
    .ok { ret := -1, response := response, sp_buffer := sp_buffer, env := sent.2.1,
          trace := sent.2.2 }
  else
    match sp_buffer with
    | none => .error Fault.null_deref
    | some buf =>
      poll_loop ifc expected_resp_class expected_resp_id response_size (DEFAULT_TIMEOUT + 1)
        { env := sent.2.1, response := response, sp_buffer := buf, total_bytes := 0,
          time_elapsed := 0, trace := sent.2.2 }

/-- The state in which `ubx_send_and_receive` enters its polling loop, after the request
was handed to `send`: `total_bytes = 0`, `time_elapsed = 0`. -/
def poll_entry {σ : Type} (ifc : ubx_if_t σ) (s : σ) (sp_buffer : List Nat)
    (class_id msg_id : Nat) (payload : Option (List Nat)) (payload_size : Nat)
    (response : Option (List Nat)) : PollState σ :=
  let sent := ubx_send_message ifc s class_id msg_id payload payload_size
  { env := sent.2.1, response := response, sp_buffer := sp_buffer, total_bytes := 0,
    time_elapsed := 0, trace := sent.2.2 }

/-- The loop state after `k` passes through the body that did not return. -/
def poll_iterate {σ : Type} (ifc : ubx_if_t σ) (expected_resp_class expected_resp_id : Nat)
    (response_size : Nat) : Nat → PollState σ → PollState σ
  | 0, st => st
  | k + 1, st =>
    poll_iterate ifc expected_resp_class expected_resp_id response_size k
      (poll_body ifc expected_resp_class expected_resp_id response_size st).2

/-- Number of `recv` calls in a trace. -/
def count_recv (tr : List Event) : Nat :=
  (tr.filter (fun e => match e with | Event.recv _ => true | _ => false)).length

/-- Number of `send` calls in a trace. -/
def count_send (tr : List Event) : Nat :=
  (tr.filter (fun e => match e with | Event.send _ _ => true | _ => false)).length

/-- The delays requested in a trace, in order. -/
def delays (tr : List Event) : List Nat :=
  tr.filterMap (fun e => match e with | Event.delay ms => some ms | _ => none)

/-- A scripted transport for examples: the environment is the list of chunks still to be
delivered, one per `recv` call (a negative entry is a failing call); `send` accepts
everything. -/
def script_if : ubx_if_t (List (Int × List Nat)) where
  send := fun s _ n => ((n : Int), s)
  recv := fun s buf _ =>
    match s with
    | [] => (0, buf, [])
    | c :: rest => (c.1, memcpy buf 0 c.2 c.2.length, rest)
  delay_ms := fun s _ => s

/-- A transport whose `send` always fails, for examples. -/
def failing_send_if : ubx_if_t Unit where
  send := fun s _ _ => (-1, s)
  recv := fun s buf _ => (0, buf, s)
  delay_ms := fun s _ => s

/-- A transport on which nothing ever arrives, for examples: `send` accepts everything,
`recv` returns 0 bytes. -/
def silent_if : ubx_if_t Unit where
  send := fun s _ n => ((n : Int), s)
  recv := fun s buf _ => (0, buf, s)
  delay_ms := fun s _ => s

/-- A transport that delivers only noise, for examples: `send` accepts everything, `recv`
fills the whole buffer with the byte 0x42. -/
def noise_if : ubx_if_t Unit where
  send := fun s _ n => ((n : Int), s)
  recv := fun s _ n => ((n : Int), List.replicate n 0x42, s)
  delay_ms := fun s _ => s

/-- A transport that delivers a byte stream: the environment is the list of bytes still
to come, each `recv` hands over at most `data_length` of them; `send` accepts
everything. -/
def stream_if : ubx_if_t (List Nat) where
  send := fun s _ n => ((n : Int), s)
  recv := fun s buf n =>
    (((s.take n).length : Int), memcpy buf 0 (s.take n) (s.take n).length, s.drop n)
  delay_ms := fun s _ => s

/-- A loop start on `stream_if`: an empty 1024-byte working buffer, and a stream that
opens with a lone header byte followed by 2000 bytes of other traffic. -/
def example_stream_state : PollState (List Nat) :=
  { env := 0xB5 :: List.replicate 2000 0x42, response := some [0, 0],
    sp_buffer := List.replicate UBX_M8_BUFFER_SIZE 0, total_bytes := 0,
    time_elapsed := 0, trace := [] }

/-- The transport `ifc` with every negative return value of `recv` replaced by 0. -/
def recv_errors_as_empty {σ : Type} (ifc : ubx_if_t σ) : ubx_if_t σ where
  send := ifc.send
  recv := fun s buf n =>
    let r := ifc.recv s buf n
    (if r.1 < 0 then 0 else r.1, r.2)
  delay_ms := ifc.delay_ms

/-! ## Record cache and polled decoder (`ubx_get_hnr_pvt`, `ubx_m8_get_gnss_data`) -/

/-- The struct `ubx_m8_gnss_t`. -/
structure ubx_m8_gnss_t where
  longitude : Int
  latitude : Int
  fix_quality : Nat
  num_satellites : Nat
  altitude : Int
  speed : Int
  heading : Nat
  timestamp : Nat
  deriving DecidableEq, Repr

/-- The fields of `struct tm` that `to_timestamp` sets. -/
structure tm where
  tm_year : Int
  tm_mon : Int
  tm_mday : Int
  tm_hour : Int
  tm_min : Int
  tm_sec : Int
  deriving DecidableEq, Repr

/-- The function `to_timestamp`; the C library's `mktime` (time-zone dependent) is a
parameter, its `time_t` result is converted to `uint64_t`. -/
def to_timestamp (mktime : tm → Int) (year month day hour min sec : Nat) : Nat :=
  (mktime { tm_year := (year : Int) - 1900, tm_mon := (month : Int) - 1, tm_mday := day,
            tm_hour := hour, tm_min := min, tm_sec := sec } % 18446744073709551616).toNat

/-- Value of the `uint32_t` object stored at `b[i .. i+3]` (little-endian). -/
def u32_load (b : List Nat) (i : Nat) : Nat :=
  rd b i + 256 * rd b (i + 1) + 65536 * rd b (i + 2) + 16777216 * rd b (i + 3)

/-- Value of the `int32_t` object stored at `b[i .. i+3]` (two's complement). -/
def i32_load (b : List Nat) (i : Nat) : Int :=
  if u32_load b i < 2147483648 then (u32_load b i : Int)
  else (u32_load b i : Int) - 4294967296

/-- Size of the packed struct `ubx_hnr_pvt_t`. -/
def sizeof_ubx_hnr_pvt_t : Nat := 72

/-! Fields of the packed struct `ubx_hnr_pvt_t` read from its memory image: `iTOW` at 0,
`year` at 4, `month` 6, `day` 7, `hour` 8, `min` 9, `sec` 10, `valid` 11, `nano` 12,
`gnssFix` 16, `flags` 17, `reserved1` 18, `lon` 20, `lat` 24, `height` 28, `hMSL` 32,
`gspeed` 36, `speed` 40, `headMot` 44, `headVeh` 48, `hAcc` 52, `vAcc` 56, `sAcc` 60,
`headAcc` 64, `reserved2` 68. -/

def hnr_pvt_year (m : List Nat) : Nat := u16_load m 4
def hnr_pvt_month (m : List Nat) : Nat := rd m 6
def hnr_pvt_day (m : List Nat) : Nat := rd m 7
def hnr_pvt_hour (m : List Nat) : Nat := rd m 8
def hnr_pvt_min (m : List Nat) : Nat := rd m 9
def hnr_pvt_sec (m : List Nat) : Nat := rd m 10
def hnr_pvt_gnssFix (m : List Nat) : Nat := rd m 16
def hnr_pvt_lon (m : List Nat) : Int := i32_load m 20
def hnr_pvt_lat (m : List Nat) : Int := i32_load m 24
def hnr_pvt_hMSL (m : List Nat) : Int := i32_load m 32
def hnr_pvt_gspeed (m : List Nat) : Int := i32_load m 36
def hnr_pvt_headVeh (m : List Nat) : Int := i32_load m 48

/-- The assignment `heading = headVeh / 1e4` into a `uint16_t`: the `double` quotient of
an `int32_t` by 10000, truncated toward zero by the conversion (the quotient of a 32-bit
integer by 10000 is never rounded across an integer by the division), reduced to 16
bits. -/
def heading_of_headVeh (headVeh : Int) : Nat := ((headVeh.tdiv 10000) % 65536).toNat

/-- The global variables of `ubx_m8.c`. A pointer is an `Option` (`none` is `NULL`); a
message struct is kept as its memory image; a mutex hook is identified by a number. -/
structure Driver (σ : Type) where
  s_is_initialized : Bool
  sp_buffer : Option (List Nat)
  sp_ubx_gnss : Option ubx_m8_gnss_t
  sp_ubx_if : Option (ubx_if_t σ)
  s_mutex_lock : Option Nat
  s_mutex_unlock : Option Nat
  s_ubx_m8_port : Nat
  sp_ubx_cfg_prt : Option (List Nat)
  sp_ubx_hnr_pvt : Option (List Nat)
  sp_ubx_nav_pvt : Option (List Nat)
  sp_ubx_ack_ack : Option (List Nat)
  sp_ubx_cfg_hnr : Option (List Nat)

/-- The macro `UBX_LOCK_MUTEX()`: the hook is called when installed. -/
def UBX_LOCK_MUTEX {σ : Type} (d : Driver σ) : List Event :=
  if d.s_mutex_lock.isSome then [Event.lock] else []

/-- The macro `UBX_UNLOCK_MUTEX()`: the hook is called when installed. -/
def UBX_UNLOCK_MUTEX {σ : Type} (d : Driver σ) : List Event :=
  if d.s_mutex_unlock.isSome then [Event.unlock] else []

/-- The function `ubx_ensure_allocated`: the object is allocated if needed and zeroed. -/
def ubx_ensure_allocated (_ptr : Option (List Nat)) (size : Nat) : Option (List Nat) :=
  some (List.replicate size 0)

/-- The function `ubx_get_hnr_pvt`: return code, globals, environment and hook calls. -/
def ubx_get_hnr_pvt {σ : Type} (mktime : tm → Int) (d : Driver σ) (env : σ) :
    Except Fault (Int × Driver σ × σ × List Event) :=
  let tr_lock := UBX_LOCK_MUTEX d
  let d := { d with sp_ubx_hnr_pvt := ubx_ensure_allocated d.sp_ubx_hnr_pvt sizeof_ubx_hnr_pvt_t }
  match d.sp_ubx_if with
  | none => .error Fault.null_deref
  | some ifc =>
    match ubx_send_and_receive ifc env d.sp_buffer UBX_HNR_CLASS UBX_HNR_PVT none 0
        UBX_HNR_CLASS UBX_HNR_PVT d.sp_ubx_hnr_pvt sizeof_ubx_hnr_pvt_t with
    | .error f => .error f
    | .ok r =>
      let d := { d with sp_buffer := r.sp_buffer, sp_ubx_hnr_pvt := r.response }
      if r.ret = 0 then
        match d.sp_ubx_gnss, d.sp_ubx_hnr_pvt with
        | some g, some m =>
          let g := { g with fix_quality := hnr_pvt_gnssFix m }
          let g := { g with longitude := hnr_pvt_lon m }
          let g := { g with latitude := hnr_pvt_lat m }
          let g := { g with altitude := hnr_pvt_hMSL m }
          let g := { g with speed := (hnr_pvt_gspeed m).tdiv 1000 }
          let g := { g with heading := heading_of_headVeh (hnr_pvt_headVeh m) }
          let g := { g with timestamp := to_timestamp mktime (hnr_pvt_year m) (hnr_pvt_month m)
                                           (hnr_pvt_day m) (hnr_pvt_hour m) (hnr_pvt_min m)
                                           (hnr_pvt_sec m) }
          .ok (r.ret, { d with sp_ubx_gnss := some g }, r.env,
               tr_lock ++ r.trace ++ UBX_UNLOCK_MUTEX d)
        | _, _ => .error Fault.null_deref
      else
        .ok (r.ret, d, r.env, tr_lock ++ r.trace ++ UBX_UNLOCK_MUTEX d)

/-- The function `ubx_m8_get_gnss_data`: the returned pointer is `none` for `NULL`,
otherwise the record `sp_ubx_gnss` points to after the call. -/
def ubx_m8_get_gnss_data {σ : Type} (mktime : tm → Int) (d : Driver σ) (env : σ) :
    Except Fault (Option ubx_m8_gnss_t × Driver σ × σ × List Event) :=
  if ¬ d.s_is_initialized then .ok (none, d, env, [])
  else
    match ubx_get_hnr_pvt mktime d env with
    | .error f => .error f
    | .ok (_, d1, env1, tr) => .ok (d1.sp_ubx_gnss, d1, env1, tr)

/-! ## Device facade (`ubx_m8_init_with_mutex`, `ubx_m8_deinit`, configuration calls) -/

/-- Size of the packed struct `ubx_cfg_prt_t`: `portID` at 0, `reserved1` 1, `txReady` 2,
`mode` 4, `baudRate` 8, `inProtoMask` 12, `outProtoMask` 14, `flags` 16, `reserved2` 18. -/
def sizeof_ubx_cfg_prt_t : Nat := 20

/-- Size of the struct `ubx_ack_ack_t`: `class_id` at 0, `msg_id` at 1. -/
def sizeof_ubx_ack_ack_t : Nat := 2

/-- Size of the struct `ubx_cfg_hnr_t`: `highNavRate` at 0, `reserved1` 1 .. 3. -/
def sizeof_ubx_cfg_hnr_t : Nat := 4

/-- The enumerator `UBX_M8_PORT_UART1`. -/
def UBX_M8_PORT_UART1 : Nat := 1

def cfg_prt_outProtoMask (m : List Nat) : Nat := u16_load m 14
def ack_ack_class_id (m : List Nat) : Nat := rd m 0
def ack_ack_msg_id (m : List Nat) : Nat := rd m 1
def cfg_hnr_highNavRate (m : List Nat) : Nat := rd m 0

/-- A zeroed `ubx_m8_gnss_t`, as `ubx_ensure_allocated` leaves it. -/
def gnss_zero : ubx_m8_gnss_t :=
  { longitude := 0, latitude := 0, fix_quality := 0, num_satellites := 0, altitude := 0,
    speed := 0, heading := 0, timestamp := 0 }

/-- The function `ubx_set_cfg_prt`; `cfg_prt` is the pointer argument. -/
def ubx_set_cfg_prt {σ : Type} (d : Driver σ) (env : σ) (cfg_prt : Option (List Nat)) :
    Except Fault (Int × Driver σ × σ × List Event) :=
  match cfg_prt with
  | none => .ok (-1, d, env, [])
  | some _ =>
    let tr_lock := UBX_LOCK_MUTEX d
    let d := { d with sp_ubx_ack_ack := ubx_ensure_allocated d.sp_ubx_ack_ack sizeof_ubx_ack_ack_t }
    match d.sp_ubx_if with
    | none => .error Fault.null_deref
    | some ifc =>
      match ubx_send_and_receive ifc env d.sp_buffer UBX_CFG_CLASS UBX_CFG_PRT
          cfg_prt sizeof_ubx_cfg_prt_t UBX_ACK_CLASS UBX_ACK_ACK
          d.sp_ubx_ack_ack sizeof_ubx_ack_ack_t with
      | .error f => .error f
      | .ok r =>
        let d := { d with sp_buffer := r.sp_buffer, sp_ubx_ack_ack := r.response }
        if r.ret = 0 then
          match d.sp_ubx_ack_ack with
          | none => .error Fault.null_deref
          | some ack =>
            let result : Int :=
              if ack_ack_class_id ack ≠ UBX_CFG_CLASS ∨ ack_ack_msg_id ack ≠ UBX_CFG_PRT then -1
              else r.ret
            .ok (result, d, r.env, tr_lock ++ r.trace ++ UBX_UNLOCK_MUTEX d)
        else
          .ok (r.ret, d, r.env, tr_lock ++ r.trace ++ UBX_UNLOCK_MUTEX d)

/-- The function `ubx_get_cfg_hnr`. -/
def ubx_get_cfg_hnr {σ : Type} (d : Driver σ) (env : σ) :
    Except Fault (Int × Driver σ × σ × List Event) :=
  let tr_lock := UBX_LOCK_MUTEX d
  let d := { d with sp_ubx_cfg_hnr := ubx_ensure_allocated d.sp_ubx_cfg_hnr sizeof_ubx_cfg_hnr_t }
  match d.sp_ubx_if with
  | none => .error Fault.null_deref
  | some ifc =>
    match ubx_send_and_receive ifc env d.sp_buffer UBX_CFG_CLASS UBX_CFG_HNR none 0
        UBX_CFG_CLASS UBX_CFG_HNR d.sp_ubx_cfg_hnr sizeof_ubx_cfg_hnr_t with
    | .error f => .error f
    | .ok r =>
      let d := { d with sp_buffer := r.sp_buffer, sp_ubx_cfg_hnr := r.response }
      .ok (r.ret, d, r.env, tr_lock ++ r.trace ++ UBX_UNLOCK_MUTEX d)

/-- The function `ubx_get_cfg_prt`. -/
def ubx_get_cfg_prt {σ : Type} (d : Driver σ) (env : σ) :
    Except Fault (Int × Driver σ × σ × List Event) :=
  let tr_lock := UBX_LOCK_MUTEX d
  let d := { d with sp_ubx_cfg_prt := ubx_ensure_allocated d.sp_ubx_cfg_prt sizeof_ubx_cfg_prt_t }
  match d.sp_ubx_if with
  | none => .error Fault.null_deref
  | some ifc =>
    match ubx_send_and_receive ifc env d.sp_buffer UBX_CFG_CLASS UBX_CFG_PRT none 0
        UBX_CFG_CLASS UBX_CFG_PRT d.sp_ubx_cfg_prt sizeof_ubx_cfg_prt_t with
    | .error f => .error f
    | .ok r =>
      let d := { d with sp_buffer := r.sp_buffer, sp_ubx_cfg_prt := r.response }
      .ok (r.ret, d, r.env, tr_lock ++ r.trace ++ UBX_UNLOCK_MUTEX d)

/-- The function `ubx_m8_deinit`: return code, globals and hook calls (it does not touch
the transport). -/
def ubx_m8_deinit {σ : Type} (d : Driver σ) : Int × Driver σ × List Event :=
  if ¬ d.s_is_initialized then (-1, d, [])
  else
    let tr_lock := UBX_LOCK_MUTEX d
    let d := { d with sp_buffer := none }
    let d := { d with sp_ubx_gnss := none }
    let d := { d with sp_ubx_if := none }
    let d := { d with s_mutex_lock := none }
    let d := { d with sp_ubx_cfg_prt := none }
    let d := { d with sp_ubx_hnr_pvt := none }
    let d := { d with sp_ubx_nav_pvt := none }
    let d := { d with s_ubx_m8_port := UBX_M8_PORT_UART1 }
    let tr_unlock := UBX_UNLOCK_MUTEX d
    let d := { d with s_mutex_unlock := none }
    let d := { d with s_is_initialized := false }
    (0, d, tr_lock ++ tr_unlock)

/-- The function `ubx_m8_init_with_mutex`. `lock` / `unlock` are the hook pointers
(`none` is `NULL`), `ubx_if` the interface struct passed by value. -/
def ubx_m8_init_with_mutex {σ : Type} (d : Driver σ) (env : σ) (ubx_m8_port : Nat)
    (ubx_if : ubx_if_t σ) (lock unlock : Option Nat) :
    Except Fault (Int × Driver σ × σ × List Event) :=
  if d.s_mutex_lock ≠ none ∧ d.s_mutex_unlock ≠ none ∧
      (d.s_mutex_lock ≠ lock ∨ d.s_mutex_unlock ≠ unlock) then .ok (-1, d, env, [])
  else if lock.isSome ≠ unlock.isSome then .ok (-1, d, env, [])
  else
    let d := if lock ≠ none ∧ unlock ≠ none then
        { d with s_mutex_lock := lock, s_mutex_unlock := unlock } else d
    let tr := UBX_LOCK_MUTEX d
    if d.s_is_initialized then .ok (0, d, env, tr ++ UBX_UNLOCK_MUTEX d)
    else
      let d := { d with s_ubx_m8_port := ubx_m8_port }
      let d := { d with sp_buffer := ubx_ensure_allocated d.sp_buffer UBX_M8_BUFFER_SIZE }
      let d := { d with sp_ubx_gnss := some gnss_zero }
      let d := { d with sp_ubx_if := some ubx_if }
      match ubx_get_cfg_prt d env with
      | .error f => .error f
      | .ok (r1, d1, env1, tr1) =>
        if r1 ≠ 0 then
          let tr := tr ++ tr1 ++ UBX_UNLOCK_MUTEX d1
          let x := ubx_m8_deinit d1
          .ok (-1, x.2.1, env1, tr ++ x.2.2)
        else
          match ubx_get_cfg_hnr d1 env1 with
          | .error f => .error f
          | .ok (r2, d2, env2, tr2) =>
            if r2 ≠ 0 then
              let tr := tr ++ tr1 ++ tr2 ++ UBX_UNLOCK_MUTEX d2
              let x := ubx_m8_deinit d2
              .ok (-1, x.2.1, env2, tr ++ x.2.2)
            else
              let d3 := { d2 with s_is_initialized := true }
              .ok (0, d3, env2, tr ++ tr1 ++ tr2 ++ UBX_UNLOCK_MUTEX d3)

/-- The function `ubx_m8_init`. -/
def ubx_m8_init {σ : Type} (d : Driver σ) (env : σ) (ubx_m8_port : Nat) (ubx_if : ubx_if_t σ) :
    Except Fault (Int × Driver σ × σ × List Event) :=
  ubx_m8_init_with_mutex d env ubx_m8_port ubx_if none none

/-- The function `ubx_m8_disable_nmea_output`. -/
def ubx_m8_disable_nmea_output {σ : Type} (d : Driver σ) (env : σ) :
    Except Fault (Int × Driver σ × σ × List Event) :=
  if ¬ d.s_is_initialized then .ok (-1, d, env, [])
  else
    match d.sp_ubx_cfg_prt with
    | none => .error Fault.null_deref
    | some c =>
      let d := { d with sp_ubx_cfg_prt := some (memcpy c 14 (u16_bytes 0x01) 2) }
      ubx_set_cfg_prt d env d.sp_ubx_cfg_prt

/-- The function `ubx_m8_set_hnr_rate`; `rate` is the `uint8_t` argument. -/
def ubx_m8_set_hnr_rate {σ : Type} (d : Driver σ) (env : σ) (rate : Nat) :
    Except Fault (Int × Driver σ × σ × List Event) :=
  if ¬ d.s_is_initialized then .ok (-1, d, env, [])
  else if rate < 1 ∨ rate > 30 then .ok (-1, d, env, [])
  else
    let tr_lock := UBX_LOCK_MUTEX d
    match d.sp_ubx_cfg_hnr with
    | none => .error Fault.null_deref
    | some c =>
      let d := { d with sp_ubx_cfg_hnr := some (c.set 0 rate) }
      match d.sp_ubx_if with
      | none => .error Fault.null_deref
      | some ifc =>
        match ubx_send_and_receive ifc env d.sp_buffer UBX_CFG_CLASS UBX_CFG_HNR
            d.sp_ubx_cfg_hnr sizeof_ubx_cfg_hnr_t UBX_ACK_CLASS UBX_ACK_ACK
            d.sp_ubx_ack_ack sizeof_ubx_ack_ack_t with
        | .error f => .error f
        | .ok r =>
          let d := { d with sp_buffer := r.sp_buffer, sp_ubx_ack_ack := r.response }
          .ok (r.ret, d, r.env, tr_lock ++ r.trace ++ UBX_UNLOCK_MUTEX d)

/-! ## Legacy buffer-scan driver (`ublox_m8u_hnr.c`): passive decoder -/

def RING_BUFFER_SIZE : Nat := 800
def UBLOX_RECEIVE_BUFFER_SIZE : Nat := 256

/-- Modulus of `size_t` arithmetic (a 32-bit target). -/
def SIZE_MODULUS : Nat := 4294967296

/-- The struct `ublox_m8u_gnss` (`inc/ublox_m8u_hnr.h`). -/
structure ublox_m8u_gnss where
  longitude : Int
  latitude : Int
  fix_quality : Nat
  num_satellites : Nat
  hdop : Nat
  altitude : Int
  speed : Int
  heading : Nat
  timestamp : Nat
  deriving DecidableEq, Repr

/-- Size of the local struct `ubx_hnr_pvt` of `ublox_m8u_hnr.c`. It is not packed and has
no reserved members; with 4-byte alignment of its `int32_t` members two padding bytes
follow `flags`, so every member up to `headAcc` sits at the offset it has in
`ubx_hnr_pvt_t` (`longitude` at 20, `latitude` at 24, `hMSL` at 32, `gspeed` at 36,
`headVeh` at 48) and the size is 68. -/
def sizeof_ubx_hnr_pvt : Nat := 68

/-- The struct `uart_interface`: transport hooks over an environment `σ` and the optional
mutex hooks (`none` is `NULL`). -/
structure uart_interface (σ : Type) where
  send : Option (σ → List Nat → Nat → Int × σ)
  recv : Option (σ → List Nat → Nat → Int × List Nat × σ)
  delay_ms : Option (σ → Nat → σ)
  lock : Option Nat
  unlock : Option Nat

/-- The global variables of `ublox_m8u_hnr.c`. -/
structure HnrDriver (σ : Type) where
  ugnss_s : Option ublox_m8u_gnss
  uart_interface_s : uart_interface σ
  ring_buffer : List Nat
  ring_buffer_len : Nat
  is_initialized : Bool

/-- A chain `b[i] == e0 && b[i+1] == e1 && ...` on an array: the cells are read in order
until one differs; a read outside the array is a fault. -/
def match_bytes (b : List Nat) : Nat → List Nat → Except Fault Bool
  | _, [] => .ok true
  | i, e :: es =>
    if i < b.length then
      if rd b i = e then match_bytes b (i + 1) es else .ok false
    else .error Fault.out_of_bounds

/-- The update of the GNSS record in `parse_ubx_hnr_pvt` (between `lock` and `unlock`)
from the decoded struct `pvt_data`. -/
def hnr_pvt_update (mktime : tm → Int) (g : ublox_m8u_gnss) (pvt_data : List Nat) :
    ublox_m8u_gnss :=
  let g := { g with fix_quality := hnr_pvt_gnssFix pvt_data }
  if g.fix_quality = TIME_ONLY_FIX then
    { g with timestamp := to_timestamp mktime (hnr_pvt_year pvt_data) (hnr_pvt_month pvt_data)
                            (hnr_pvt_day pvt_data) (hnr_pvt_hour pvt_data)
                            (hnr_pvt_min pvt_data) (hnr_pvt_sec pvt_data) }
  else if g.fix_quality ≥ 1 then
    let g := { g with longitude := hnr_pvt_lon pvt_data }
    let g := { g with latitude := hnr_pvt_lat pvt_data }
    let g := { g with altitude := hnr_pvt_hMSL pvt_data }
    let g := { g with speed := (hnr_pvt_gspeed pvt_data).tdiv 1000 }
    let g := { g with heading := heading_of_headVeh (hnr_pvt_headVeh pvt_data) }
    let g := { g with num_satellites := 0 }
    { g with timestamp := to_timestamp mktime (hnr_pvt_year pvt_data) (hnr_pvt_month pvt_data)
                            (hnr_pvt_day pvt_data) (hnr_pvt_hour pvt_data)
                            (hnr_pvt_min pvt_data) (hnr_pvt_sec pvt_data) }
  else g

/-- The body of the `for` loop of `parse_ubx_hnr_pvt` at index `i`: globals afterwards and
hook calls. -/
def parse_ubx_hnr_pvt_at {σ : Type} (mktime : tm → Int) (st : HnrDriver σ) (i : Nat) :
    Except Fault (HnrDriver σ × List Event) :=
  match match_bytes st.ring_buffer i [0xB5, 0x62, 0x28, 0x00, 0x48, 0x00] with
  | .error f => .error f
  | .ok false => .ok (st, [])
  | .ok true =>
    let message_len := 80
    if i + message_len > st.ring_buffer.length then .error Fault.out_of_bounds
    else
      let expected_crc := calculate_checksum (st.ring_buffer.drop i) (message_len - 2)
      let actual_crc :=
        ((rd st.ring_buffer (i + 78) <<< 8) ||| rd st.ring_buffer (i + 79)) % 65536
      if expected_crc ≠ actual_crc then .ok (st, [])
      else
        let pvt_data := (st.ring_buffer.drop (i + 6)).take sizeof_ubx_hnr_pvt
        let tr_lock := if st.uart_interface_s.lock.isSome then [Event.lock] else []
        match st.ugnss_s with
        | none => .error Fault.null_deref
        | some g =>
          let g := hnr_pvt_update mktime g pvt_data
          let tr_unlock := if st.uart_interface_s.unlock.isSome then [Event.unlock] else []
          let remaining_bytes :=
            (((st.ring_buffer_len : Int) - i - message_len) % SIZE_MODULUS).toNat
          if remaining_bytes > 0 ∧ i + message_len + remaining_bytes > st.ring_buffer.length then
            .error Fault.out_of_bounds
          else
            let ring_buffer :=
              if remaining_bytes > 0 then
                memcpy st.ring_buffer i (st.ring_buffer.drop (i + message_len)) remaining_bytes
              else st.ring_buffer
            .ok ({ st with ugnss_s := some g, ring_buffer := ring_buffer,
                           ring_buffer_len :=
                             (((st.ring_buffer_len : Int) - message_len) % SIZE_MODULUS).toNat },
                 tr_lock ++ tr_unlock)

/-- The loop `for (size_t i = 0; i <= ring_buffer_len - 80; i++)` of `parse_ubx_hnr_pvt`,
from index `i`, with a recursion budget; the bound is evaluated in `size_t`. -/
def parse_ubx_hnr_pvt_loop {σ : Type} (mktime : tm → Int) :
    Nat → HnrDriver σ → Nat → List Event → Except Fault (HnrDriver σ × List Event)
  | 0, _, _, _ => .error Fault.out_of_fuel
  | fuel + 1, st, i, tr =>
    if (i : Int) ≤ ((st.ring_buffer_len : Int) - 80) % SIZE_MODULUS then
      match parse_ubx_hnr_pvt_at mktime st i with
      | .error f => .error f
      | .ok (st1, tr1) =>
        parse_ubx_hnr_pvt_loop mktime fuel st1 ((i + 1) % SIZE_MODULUS) (tr ++ tr1)
    else .ok (st, tr)

/-- The function `parse_ubx_hnr_pvt`. Every pass of the loop reads `ring_buffer[i]`, so
the loop ends or faults within `RING_BUFFER_SIZE + 1` passes. -/
def parse_ubx_hnr_pvt {σ : Type} (mktime : tm → Int) (st : HnrDriver σ) :
    Except Fault (HnrDriver σ × List Event) :=
  parse_ubx_hnr_pvt_loop mktime (st.ring_buffer.length + 2) st 0 []

/-- The append step of `process_received_data` ("Append received data to the ring
buffer"), for a positive `len`: the length is reset when `ring_buffer_len + len` (in
`size_t`) exceeds the capacity, then `len` bytes of `receive_buffer` are copied behind the
buffered bytes. A copy that leaves either array is a fault. -/
def process_received_data_append {σ : Type} (st : HnrDriver σ) (receive_buffer : List Nat)
    (len : Int) : Except Fault (HnrDriver σ) :=
  let ring_buffer_len :=
    if (((st.ring_buffer_len : Int) + len) % SIZE_MODULUS).toNat > RING_BUFFER_SIZE then 0
    else st.ring_buffer_len
  if len.toNat > receive_buffer.length ∨ ring_buffer_len + len.toNat > st.ring_buffer.length then
    .error Fault.out_of_bounds
  else
    .ok { st with ring_buffer := memcpy st.ring_buffer ring_buffer_len receive_buffer len.toNat,
                  ring_buffer_len := (((ring_buffer_len : Int) + len) % SIZE_MODULUS).toNat }

/-- The function `process_received_data`: return code, globals, environment, hook calls.
The local `receive_buffer` is handed to `recv` zero-filled. -/
def process_received_data {σ : Type} (mktime : tm → Int) (st : HnrDriver σ) (env : σ) :
    Except Fault (Int × HnrDriver σ × σ × List Event) :=
  match st.uart_interface_s.recv with
  | none => .error Fault.null_deref
  | some recv =>
    let receive_buffer := List.replicate UBLOX_RECEIVE_BUFFER_SIZE 0
    let r := recv env receive_buffer UBLOX_RECEIVE_BUFFER_SIZE
    let len := r.1
    if len ≤ 0 then .ok (-1, st, r.2.2, [Event.recv UBLOX_RECEIVE_BUFFER_SIZE])
    else
      match process_received_data_append st r.2.1 len with
      | .error f => .error f
      | .ok st1 =>
        match parse_ubx_hnr_pvt mktime st1 with
        | .error f => .error f
        | .ok (st2, tr) => .ok (0, st2, r.2.2, Event.recv UBLOX_RECEIVE_BUFFER_SIZE :: tr)

/-! ## Observations and example data -/

/-- Return code of a call of `ubx_send_and_receive`, when it has a result. -/
def rx_ret {σ : Type} (r : Except Fault (RxResult σ)) : Option Int :=
  match r with
  | .ok x => some x.ret
  | .error _ => none

/-- Hook calls of a call of `ubx_send_and_receive`, when it has a result. -/
def rx_trace {σ : Type} (r : Except Fault (RxResult σ)) : List Event :=
  match r with
  | .ok x => x.trace
  | .error _ => []

/-- Response object of a call of `ubx_send_and_receive`, when it has a result. -/
def rx_response {σ : Type} (r : Except Fault (RxResult σ)) : Option (List Nat) :=
  match r with
  | .ok x => x.response
  | .error _ => none

/-- The record returned by `ubx_m8_get_gnss_data`, when the call has a result. -/
def gnss_returned {σ : Type}
    (r : Except Fault (Option ubx_m8_gnss_t × Driver σ × σ × List Event)) :
    Option ubx_m8_gnss_t :=
  match r with
  | .ok x => x.1
  | .error _ => none

/-- A well-formed ACK-ACK frame (class 0x05, id 0x01, payload `06 00`). -/
def example_ack_frame : List Nat := [0xB5, 0x62, 0x05, 0x01, 0x02, 0x00, 0x06, 0x00, 0x0E, 0x37]

/-- Memory image of a `ubx_hnr_pvt_t` with `gnssFix = 5` (TimeOnly), `lon = 0x01020304`,
`lat = 0x00000005`, `hMSL = 6000`, `gspeed = 7000`, `headVeh = 80000`, `sec = 9`. -/
def example_time_only_pvt : List Nat :=
  List.replicate 10 0 ++ [9] ++ List.replicate 5 0 ++ [5] ++ List.replicate 3 0 ++
    [4, 3, 2, 1] ++ [5, 0, 0, 0] ++ List.replicate 4 0 ++ [0x70, 0x17, 0, 0] ++
    [0x58, 0x1B, 0, 0] ++ List.replicate 8 0 ++ [0x80, 0x38, 0x01, 0] ++ List.replicate 20 0

/-- An initialized driver over the scripted transport, with a previous fix in the cache
and no mutex hooks. -/
def example_driver : Driver (List (Int × List Nat)) where
  s_is_initialized := true
  sp_buffer := some (List.replicate UBX_M8_BUFFER_SIZE 0)
  sp_ubx_gnss := some { longitude := 70, latitude := 80, fix_quality := 3, num_satellites := 0,
                        altitude := 90, speed := 10, heading := 11, timestamp := 12 }
  sp_ubx_if := some script_if
  s_mutex_lock := none
  s_mutex_unlock := none
  s_ubx_m8_port := 1
  sp_ubx_cfg_prt := some (List.replicate 20 0)
  sp_ubx_hnr_pvt := none
  sp_ubx_nav_pvt := none
  sp_ubx_ack_ack := none
  sp_ubx_cfg_hnr := some (List.replicate 4 0)

/-- A stand-in for the C library's `mktime` in examples: seconds within the day. -/
def example_mktime (t : tm) : Int := t.tm_hour * 3600 + t.tm_min * 60 + t.tm_sec

/-- Return code of a facade call, when it has a result. -/
def op_ret {σ : Type} (r : Except Fault (Int × Driver σ × σ × List Event)) : Option Int :=
  match r with
  | .ok x => some x.1
  | .error _ => none

/-- Globals after a facade call, when it has a result. -/
def op_driver {σ : Type} (r : Except Fault (Int × Driver σ × σ × List Event)) :
    Option (Driver σ) :=
  match r with
  | .ok x => some x.2.1
  | .error _ => none

/-- Hook calls of a facade call, when it has a result. -/
def op_trace {σ : Type} (r : Except Fault (Int × Driver σ × σ × List Event)) : List Event :=
  match r with
  | .ok x => x.2.2.2
  | .error _ => []

/-- The globals of `ubx_m8.c` as initialized at program start. -/
def pristine_driver (σ : Type) : Driver σ where
  s_is_initialized := false
  sp_buffer := none
  sp_ubx_gnss := none
  sp_ubx_if := none
  s_mutex_lock := none
  s_mutex_unlock := none
  s_ubx_m8_port := UBX_M8_PORT_UART1
  sp_ubx_cfg_prt := none
  sp_ubx_hnr_pvt := none
  sp_ubx_nav_pvt := none
  sp_ubx_ack_ack := none
  sp_ubx_cfg_hnr := none

/-- The pointers of a driver state that are allocated, in the order working buffer, GNSS
record, transport copy, port config, HNR-PVT record, NAV-PVT record, ACK record, HNR
config. -/
def allocated {σ : Type} (d : Driver σ) : List Bool :=
  [d.sp_buffer.isSome, d.sp_ubx_gnss.isSome, d.sp_ubx_if.isSome, d.sp_ubx_cfg_prt.isSome,
   d.sp_ubx_hnr_pvt.isSome, d.sp_ubx_nav_pvt.isSome, d.sp_ubx_ack_ack.isSome,
   d.sp_ubx_cfg_hnr.isSome]

/-- A well-formed CFG-PRT response (class 0x06, id 0x00, 20-byte payload: UART1, 9600 baud,
input mask 0x0007, output mask 0x0023). -/
def example_cfg_prt_frame : List Nat :=
  ubx_send_message_buf UBX_CFG_CLASS UBX_CFG_PRT
    (some [1, 0, 0, 0, 0xC0, 8, 0, 0, 0x80, 0x25, 0, 0, 7, 0, 0x23, 0, 0, 0, 0, 0]) 20

/-- A well-formed CFG-HNR response (class 0x06, id 0x5C, rate 10 Hz). -/
def example_cfg_hnr_frame : List Nat :=
  ubx_send_message_buf UBX_CFG_CLASS UBX_CFG_HNR (some [10, 0, 0, 0]) 4

/-- An initialized driver whose transport refuses every `send`. -/
def example_driver_send_fails : Driver Unit where
  s_is_initialized := true
  sp_buffer := some (List.replicate UBX_M8_BUFFER_SIZE 0)
  sp_ubx_gnss := some { longitude := 70, latitude := 80, fix_quality := 3, num_satellites := 0,
                        altitude := 90, speed := 10, heading := 11, timestamp := 12 }
  sp_ubx_if := some failing_send_if
  s_mutex_lock := none
  s_mutex_unlock := none
  s_ubx_m8_port := 1
  sp_ubx_cfg_prt := some (List.replicate 20 0)
  sp_ubx_hnr_pvt := none
  sp_ubx_nav_pvt := none
  sp_ubx_ack_ack := none
  sp_ubx_cfg_hnr := some (List.replicate 4 0)

/-- The driver `example_driver` with the port configuration of `example_cfg_prt_frame` in
its cache (output mask 0x0023: UBX, NMEA and RTCM3). -/
def example_driver_nmea : Driver (List (Int × List Nat)) :=
  { example_driver with
    sp_ubx_cfg_prt := some [1, 0, 0, 0, 0xC0, 8, 0, 0, 0x80, 0x25, 0, 0, 7, 0, 0x23, 0,
                            0, 0, 0, 0] }

/-- The driver `example_driver` after an acknowledged configuration push: the ACK record
is allocated. -/
def example_driver_acked : Driver (List (Int × List Nat)) :=
  { example_driver with sp_ubx_ack_ack := some [6, 0] }

/-- GNSS record of a passive-decoder result, when there is one. -/
def hnr_gnss {σ : Type} (r : Except Fault (HnrDriver σ × List Event)) : Option ublox_m8u_gnss :=
  match r with
  | .ok x => x.1.ugnss_s
  | .error _ => none

/-- Buffer length of a passive-decoder result, when there is one. -/
def hnr_len {σ : Type} (r : Except Fault (HnrDriver σ × List Event)) : Option Nat :=
  match r with
  | .ok x => some x.1.ring_buffer_len
  | .error _ => none

/-- The 80-byte HNR-PVT frame carrying `example_time_only_pvt`. -/
def example_time_only_frame : List Nat :=
  ubx_send_message_buf UBX_HNR_CLASS UBX_HNR_PVT (some example_time_only_pvt) 72

/-- The 80-byte HNR-PVT frame carrying `example_time_only_pvt` with `gnssFix` set to `fix`. -/
def example_fix_frame (fix : Nat) : List Nat :=
  ubx_send_message_buf UBX_HNR_CLASS UBX_HNR_PVT (some (example_time_only_pvt.set 16 fix)) 72

/-- Globals of the legacy driver with a previous fix in the cache, no hooks, and a frame
followed by 80 further bytes in the working buffer. -/
def example_hnr_driver (frame : List Nat) : HnrDriver Unit where
  ugnss_s := some { longitude := 70, latitude := 80, fix_quality := 3, num_satellites := 4,
                    hdop := 13, altitude := 90, speed := 10, heading := 11, timestamp := 12 }
  uart_interface_s := { send := none, recv := none, delay_ms := none, lock := none,
                        unlock := none }
  ring_buffer := frame ++ List.replicate (RING_BUFFER_SIZE - 80) 0
  ring_buffer_len := 160
  is_initialized := true

/-- The fault of a passive-decoder result, when it has no value. -/
def hnr_fault {σ : Type} (r : Except Fault (HnrDriver σ × List Event)) : Option Fault :=
  match r with
  | .ok _ => none
  | .error f => some f

/-- Working buffer of a passive-decoder result, when there is one. -/
def hnr_buffer {σ : Type} (r : Except Fault (HnrDriver σ × List Event)) : Option (List Nat) :=
  match r with
  | .ok x => some x.1.ring_buffer
  | .error _ => none

/-- Globals of the legacy driver right after `ublox_m8u_hnr_init`: zeroed GNSS record,
empty zero-filled working buffer, and a transport whose `recv` delivers the scripted
chunks. -/
def example_hnr_fresh : HnrDriver (List (Int × List Nat)) where
  ugnss_s := some { longitude := 0, latitude := 0, fix_quality := 0, num_satellites := 0,
                    hdop := 0, altitude := 0, speed := 0, heading := 0, timestamp := 0 }
  uart_interface_s := { send := some script_if.send, recv := some script_if.recv,
                        delay_ms := some script_if.delay_ms, lock := none, unlock := none }
  ring_buffer := List.replicate RING_BUFFER_SIZE 0
  ring_buffer_len := 0
  is_initialized := true

/-- Globals of the legacy driver with a previous fix in the cache and two frames back to
back at the start of the working buffer (160 bytes buffered). -/
def example_hnr_two_frames (frame1 frame2 : List Nat) : HnrDriver Unit where
  ugnss_s := some { longitude := 70, latitude := 80, fix_quality := 3, num_satellites := 4,
                    hdop := 13, altitude := 90, speed := 10, heading := 11, timestamp := 12 }
  uart_interface_s := { send := none, recv := none, delay_ms := none, lock := none,
                        unlock := none }
  ring_buffer := frame1 ++ frame2 ++ List.replicate (RING_BUFFER_SIZE - 160) 0
  ring_buffer_len := 160
  is_initialized := true

/-- Return code, GNSS record, working buffer and buffer length after a call of
`process_received_data`, when it has a result. -/
def prd_globals {σ : Type} (r : Except Fault (Int × HnrDriver σ × σ × List Event)) :
    Option (Int × Option ublox_m8u_gnss × List Nat × Nat) :=
  match r with
  | .ok x => some (x.1, x.2.1.ugnss_s, x.2.1.ring_buffer, x.2.1.ring_buffer_len)
  | .error _ => none

/-- The globals `example_hnr_fresh` with 10 bytes buffered (the array is still zeroed). -/
def example_hnr_short : HnrDriver (List (Int × List Nat)) :=
  { example_hnr_fresh with ring_buffer_len := 10 }

/-- The calls of the two mutex hooks in a hook trace, in order. -/
def lock_calls (tr : List Event) : List Event :=
  tr.filter (fun e => decide (e = Event.lock ∨ e = Event.unlock))

/-- The driver `example_driver` with a lock pair installed. -/
def example_driver_locked : Driver (List (Int × List Nat)) :=
  { example_driver with s_mutex_lock := some 1, s_mutex_unlock := some 2 }

/-- Hook calls of a call of `ubx_m8_get_gnss_data`, when it has a result. -/
def gnss_trace {σ : Type}
    (r : Except Fault (Option ubx_m8_gnss_t × Driver σ × σ × List Event)) : List Event :=
  match r with
  | .ok x => x.2.2.2
  | .error _ => []

/-! ## The codec in the words of the specification -/

/-- The running-sum pair in the words of the specification (§4.1): start from
`ck_a = ck_b = 0`; for each covered byte `b`, `ck_a = (ck_a + b) mod 256` and then
`ck_b = (ck_b + ck_a) mod 256`. -/
def spec_checksum (covered : List Nat) : Nat × Nat :=
  covered.foldl (fun ck b => ((ck.1 + b) % 256, (ck.2 + (ck.1 + b) % 256) % 256)) (0, 0)

/-- The frame in the words of the specification (§6): header, class, id, little-endian
length, payload, then `ck_a`, `ck_b` over class .. payload. -/
def spec_frame (c i : Nat) (p : List Nat) : List Nat :=
  [0xB5, 0x62, c, i, p.length % 256, p.length / 256] ++ p ++
    [(spec_checksum ([c, i, p.length % 256, p.length / 256] ++ p)).1,
     (spec_checksum ([c, i, p.length % 256, p.length / 256] ++ p)).2]

/-- The acceptance condition of a candidate frame: enough bytes, magic header, class and
id (0xFF accepts any), little-endian length field equal to `n`, and the two bytes after
the payload equal to the running-sum pair of the cells `2 .. 6 + n`. -/
def accepts (buffer : List Nat) (ec ei n : Nat) : Prop :=
  buffer.length ≥ 8 + n ∧ rd buffer 0 = 0xB5 ∧ rd buffer 1 = 0x62 ∧
  (ec = 0xFF ∨ rd buffer 2 = ec) ∧ (ei = 0xFF ∨ rd buffer 3 = ei) ∧
  rd buffer 4 + 256 * rd buffer 5 = n ∧
  rd buffer (6 + n) = (spec_checksum ((buffer.drop 2).take (4 + n))).1 ∧
  rd buffer (7 + n) = (spec_checksum ((buffer.drop 2).take (4 + n))).2

instance (buffer : List Nat) (ec ei n : Nat) : Decidable (accepts buffer ec ei n) := by
  unfold accepts
  infer_instance

/-! # Theorems -/

/-! ## Lemmas on the checksum -/

theorem checksum_loop_succ (data : List Nat) (n : Nat) :
    checksum_loop data (n + 1) = checksum_step data (checksum_loop data n) n := by
  simp [checksum_loop, List.range_succ, List.foldl_append]

theorem spec_checksum_snoc (l : List Nat) (b : Nat) :
    spec_checksum (l ++ [b]) =
      (((spec_checksum l).1 + b) % 256,
        ((spec_checksum l).2 + ((spec_checksum l).1 + b) % 256) % 256) := by
  simp [spec_checksum, List.foldl_append]

/-- The loop of `calculate_checksum` over the first `n` cells computes the running-sum
pair of the cells `2 .. n`. -/
theorem checksum_loop_eq_spec (data : List Nat) (n : Nat) (hn : n ≤ data.length) :
    checksum_loop data n = spec_checksum ((data.drop 2).take (n - 2)) := by
  induction n with
  | zero => simp [checksum_loop, spec_checksum]
  | succ n ih =>
    rw [checksum_loop_succ, ih (by omega)]
    by_cases h : n > 1
    · have e : n + 1 - 2 = (n - 2) + 1 := by omega
      have hlt : n - 2 < (data.drop 2).length := by simp; omega
      rw [e, List.take_succ, List.getElem?_eq_getElem hlt]
      simp only [Option.toList, spec_checksum_snoc, checksum_step, h, if_true]
      have : (data.drop 2)[n - 2] = rd data n := by
        have hn2 : n < data.length := by omega
        simp [rd, List.getD, List.getElem?_eq_getElem hn2]
        congr 1
        omega
      rw [this]
    · have e : n + 1 - 2 = 0 := by omega
      have e2 : n - 2 = 0 := by omega
      simp [checksum_step, h, e, e2]

theorem spec_checksum_lt (l : List Nat) :
    (spec_checksum l).1 < 256 ∧ (spec_checksum l).2 < 256 := by
  induction l using List.reverseRecOn with
  | nil => simp [spec_checksum]
  | append_singleton l b _ =>
    rw [spec_checksum_snoc]
    exact ⟨Nat.mod_lt _ (by norm_num), Nat.mod_lt _ (by norm_num)⟩

theorem checksum_loop_lt (data : List Nat) (n : Nat) :
    (checksum_loop data n).1 < 256 ∧ (checksum_loop data n).2 < 256 := by
  induction n with
  | zero => simp [checksum_loop]
  | succ n ih =>
    rw [checksum_loop_succ]
    unfold checksum_step
    split
    · exact ⟨Nat.mod_lt _ (by norm_num), Nat.mod_lt _ (by norm_num)⟩
    · exact ih

theorem shl8_or (a b : Nat) (hb : b < 256) : (a <<< 8) ||| b = a * 256 + b := by
  have h : 2 ^ 8 * a + b = 2 ^ 8 * a ||| b := Nat.mul_add_lt_is_or (by simpa using hb) a
  rw [Nat.shiftLeft_eq, Nat.mul_comm a (2 ^ 8), ← h]

/-- The two bytes stored after the payload: `htons` of the `uint16_t` returned by
`calculate_checksum`, copied as a little-endian object, is `ck_a` then `ck_b`. -/
theorem crc_bytes (data : List Nat) (n : Nat) :
    u16_bytes (htons (calculate_checksum data n)) =
      [(checksum_loop data n).1, (checksum_loop data n).2] := by
  obtain ⟨ha, hb⟩ := checksum_loop_lt data n
  simp only [calculate_checksum, htons, u16_bytes]
  generalize (checksum_loop data n) = ck at ha hb ⊢
  rw [shl8_or _ _ hb]
  have e1 : (ck.1 * 256 + ck.2) % 65536 = ck.1 * 256 + ck.2 := Nat.mod_eq_of_lt (by omega)
  rw [e1, Nat.shiftRight_eq_div_pow]
  have e2 : (ck.1 * 256 + ck.2) / 2 ^ 8 = ck.1 := by omega
  rw [e2, shl8_or _ _ ha]
  have e3 : ((ck.1 * 256 + ck.2) * 256 + ck.1) % 65536 = ck.2 * 256 + ck.1 := by omega
  have e4 : (ck.2 * 256 + ck.1) % 256 = ck.1 := by omega
  have e5 : (ck.2 * 256 + ck.1) / 256 % 256 = ck.2 := by omega
  rw [e3, e4, e5]

/-! ## Lemmas on the encoder -/

theorem memcpy_all (src : List Nat) (pre post old : List Nat) (n : Nat)
    (hs : src.length = n) (ho : old.length = n) :
    memcpy (pre ++ old ++ post) pre.length src n = pre ++ src ++ post := by
  subst hs
  simp [memcpy, List.take_append_eq_append_take, List.drop_append_eq_append_drop, ho]

/-- The buffer built by `ubx_send_message` is the frame of the specification. -/
theorem ubx_send_message_buf_eq (c i : Nat) (p : List Nat) (hn : p.length ≤ 65535) :
    ubx_send_message_buf c i (some p) p.length = spec_frame c i p := by
  have hhi : p.length / 256 % 256 = p.length / 256 := by omega
  have e : 2 + 2 + 2 + p.length + 2 = p.length + 8 := by omega
  -- the buffer before the checksum is stored
  have body : (if p.length > 0 then
          memcpy (memcpy (((memcpy (List.replicate (2 + 2 + 2 + p.length + 2) 0) 0
            [UBX_HEADER_0, UBX_HEADER_1] 2).set 2 c).set 3 i) 4 (u16_bytes p.length) 2) 6 p p.length
          else memcpy (((memcpy (List.replicate (2 + 2 + 2 + p.length + 2) 0) 0
            [UBX_HEADER_0, UBX_HEADER_1] 2).set 2 c).set 3 i) 4 (u16_bytes p.length) 2) =
      [0xB5, 0x62, c, i, p.length % 256, p.length / 256] ++ p ++ [0, 0] := by
    have h4 : memcpy (((memcpy (List.replicate (2 + 2 + 2 + p.length + 2) 0) 0
            [UBX_HEADER_0, UBX_HEADER_1] 2).set 2 c).set 3 i) 4 (u16_bytes p.length) 2 =
        [0xB5, 0x62, c, i, p.length % 256, p.length / 256] ++ List.replicate p.length 0
          ++ [0, 0] := by
      simp [memcpy, e, List.replicate_succ, u16_bytes, hhi, UBX_HEADER_0, UBX_HEADER_1]
      rw [← List.replicate_succ, ← List.replicate_succ]
      simp [List.replicate_add]
    simp only [h4]
    by_cases hz : p.length > 0
    · simp only [hz, if_true]
      exact memcpy_all p [0xB5, 0x62, c, i, p.length % 256, p.length / 256] [0, 0]
        (List.replicate p.length 0) p.length rfl (by simp)
    · have : p = [] := by
        cases p with
        | nil => rfl
        | cons x xs => simp at hz
      subst this
      simp
  unfold ubx_send_message_buf
  simp only [body]
  rw [crc_bytes]
  have hck : checksum_loop ([0xB5, 0x62, c, i, p.length % 256, p.length / 256] ++ p ++ [0, 0])
      (6 + p.length) = spec_checksum ([c, i, p.length % 256, p.length / 256] ++ p) := by
    rw [checksum_loop_eq_spec _ _ (by simp; omega)]
    congr 1
    have : 6 + p.length - 2 = ([c, i, p.length % 256, p.length / 256] ++ p).length := by
      simp; omega
    rw [this]
    simp
  rw [hck]
  have := memcpy_all
    [(spec_checksum ([c, i, p.length % 256, p.length / 256] ++ p)).1,
     (spec_checksum ([c, i, p.length % 256, p.length / 256] ++ p)).2]
    ([0xB5, 0x62, c, i, p.length % 256, p.length / 256] ++ p) [] [0, 0] 2 rfl rfl
  simp only [List.append_nil] at this
  have hl : ([0xB5, 0x62, c, i, p.length % 256, p.length / 256] ++ p).length = 6 + p.length := by
    simp; omega
  rw [hl] at this
  rw [this]
  rfl

/-! ## Lemmas on the validator -/

theorem rd_lt (buffer : List Nat) (hb : ∀ b ∈ buffer, b < 256) (k : Nat) :
    rd buffer k < 256 := by
  unfold rd
  by_cases h : k < buffer.length
  · rw [List.getD_eq_getElem _ _ h]
    exact hb _ (List.getElem_mem h)
  · rw [List.getD_eq_default _ _ (by omega)]
    norm_num

/-- The validator on a buffer passed with its own length: it returns 0 and copies the
payload exactly when the acceptance condition holds, and otherwise returns -1 leaving the
output untouched. -/
theorem ubx_parse_message_eq (buffer : List Nat) (ec ei n : Nat) (output : Option (List Nat))
    (hb : ∀ b ∈ buffer, b < 256) (hlen : buffer.length < 2147483648) (hn : n < 4294967296) :
    ubx_parse_message buffer (buffer.length : Nat) ec ei output n =
      if accepts buffer ec ei n then (0, output.map (fun o => memcpy o 0 (buffer.drop 6) n))
      else (-1, output) := by
  have h4 := rd_lt buffer hb 4
  have h5 := rd_lt buffer hb 5
  unfold ubx_parse_message accepts
  by_cases h1 : ((buffer.length : Nat) : Int) % 4294967296
      < (((8 + n) % 4294967296 : Nat) : Int)
  · rw [if_pos h1, if_neg]
    intro hacc
    omega
  rw [if_neg h1]
  by_cases hw : 8 + n < 4294967296
  · have hge : buffer.length ≥ 8 + n := by omega
    by_cases h2 : [rd buffer 0, rd buffer 1] ≠ [UBX_HEADER_0, UBX_HEADER_1]
    · rw [if_pos h2, if_neg]
      intro hacc
      apply h2
      simp [hacc.2.1, hacc.2.2.1, UBX_HEADER_0, UBX_HEADER_1]
    rw [if_neg h2]
    have h2a : rd buffer 0 = 0xB5 ∧ rd buffer 1 = 0x62 := by
      simpa [UBX_HEADER_0, UBX_HEADER_1] using h2
    by_cases h3 : ec ≠ 0xFF ∧ rd buffer 2 ≠ ec
    · rw [if_pos h3, if_neg]
      intro hacc
      rcases hacc.2.2.2.1 with h | h
      · exact h3.1 h
      · exact h3.2 h
    rw [if_neg h3]
    by_cases h3b : ei ≠ 0xFF ∧ rd buffer 3 ≠ ei
    · rw [if_pos h3b, if_neg]
      intro hacc
      rcases hacc.2.2.2.2.1 with h | h
      · exact h3b.1 h
      · exact h3b.2 h
    rw [if_neg h3b]
    simp only [u16_load, Nat.reduceAdd]
    by_cases h5n : rd buffer 4 + 256 * rd buffer 5 ≠ n
    · rw [if_pos h5n, if_neg]
      intro hacc
      exact h5n hacc.2.2.2.2.2.1
    rw [if_neg h5n]
    have h5a : rd buffer 4 + 256 * rd buffer 5 = n := by
      by_contra hne
      exact h5n hne
    have e64 : 6 + n - 2 = 4 + n := by omega
    have e67 : 6 + n + 1 = 7 + n := by omega
    simp only [h5a, crc_bytes, checksum_loop_eq_spec buffer (6 + n) (by omega), e64, e67]
    by_cases h6 : [rd buffer (6 + n), rd buffer (7 + n)] ≠
        [(spec_checksum ((buffer.drop 2).take (4 + n))).1,
         (spec_checksum ((buffer.drop 2).take (4 + n))).2]
    · rw [if_pos h6, if_neg]
      intro hacc
      apply h6
      rw [hacc.2.2.2.2.2.2.1, hacc.2.2.2.2.2.2.2]
    rw [if_neg h6, if_pos]
    have h6a : rd buffer (6 + n) = (spec_checksum ((buffer.drop 2).take (4 + n))).1 ∧
        rd buffer (7 + n) = (spec_checksum ((buffer.drop 2).take (4 + n))).2 := by
      simpa using h6
    refine ⟨hge, h2a.1, h2a.2, ?_, ?_, trivial, h6a.1, h6a.2⟩
    · by_contra hc
      push_neg at hc
      exact h3 ⟨hc.1, hc.2⟩
    · by_contra hc
      push_neg at hc
      exact h3b ⟨hc.1, hc.2⟩
  · -- `8 + output_size` wraps around: the length field can never equal `output_size`
    have hne : rd buffer 4 + 256 * rd buffer 5 ≠ n := by omega
    have hrej : ¬ (buffer.length ≥ 8 + n ∧ rd buffer 0 = 0xB5 ∧ rd buffer 1 = 0x62 ∧
        (ec = 0xFF ∨ rd buffer 2 = ec) ∧ (ei = 0xFF ∨ rd buffer 3 = ei) ∧
        rd buffer 4 + 256 * rd buffer 5 = n ∧
        rd buffer (6 + n) = (spec_checksum ((buffer.drop 2).take (4 + n))).1 ∧
        rd buffer (7 + n) = (spec_checksum ((buffer.drop 2).take (4 + n))).2) := by
      intro hacc
      omega
    rw [if_neg hrej]
    simp only [u16_load, Nat.reduceAdd]
    split_ifs <;> rfl

/-! ## Lemmas on frames of the specification -/

theorem spec_frame_length (c i : Nat) (p : List Nat) :
    (spec_frame c i p).length = 8 + p.length := by
  simp [spec_frame]
  omega

theorem spec_frame_bytes (c i : Nat) (p : List Nat) (hc : c < 256) (hi : i < 256)
    (hp : ∀ b ∈ p, b < 256) (hn : p.length ≤ 65535) : ∀ b ∈ spec_frame c i p, b < 256 := by
  obtain ⟨ha, hb⟩ := spec_checksum_lt ([c, i, p.length % 256, p.length / 256] ++ p)
  intro b hmem
  simp only [spec_frame, List.mem_append, List.mem_cons, List.mem_singleton,
    List.not_mem_nil, or_false] at hmem
  by_cases hbp : b ∈ p
  · exact hp b hbp
  · simp only [hbp, or_false, false_or] at hmem
    omega

/-- Reads in `pre ++ mid ++ post` at an offset inside `mid`. -/
theorem rd_mid (pre mid post : List Nat) (k : Nat) (hk : k < mid.length) :
    rd (pre ++ mid ++ post) (pre.length + k) = rd mid k := by
  unfold rd
  rw [List.getD_eq_getElem _ _ (by simp; omega), List.getD_eq_getElem _ _ hk]
  rw [List.getElem_append_left (by simp; omega), List.getElem_append_right (by omega)]
  simp

/-- The covered span `2 .. 6 + n` of a buffer that starts with six header cells. -/
theorem covered_span (h0 h1 c i lo hi : Nat) (q post : List Nat) :
    (([h0, h1, c, i, lo, hi] ++ q ++ post).drop 2).take (4 + q.length) = [c, i, lo, hi] ++ q := by
  have e : 4 + q.length = ([c, i, lo, hi] ++ q).length := by simp; omega
  rw [e]
  simp

theorem spec_frame_accepts (c i : Nat) (p : List Nat) :
    accepts (spec_frame c i p) c i p.length := by
  have hlen := spec_frame_length c i p
  have h6 := rd_mid ([0xB5, 0x62, c, i, p.length % 256, p.length / 256] ++ p)
    [(spec_checksum ([c, i, p.length % 256, p.length / 256] ++ p)).1,
     (spec_checksum ([c, i, p.length % 256, p.length / 256] ++ p)).2] [] 0 (by simp)
  have h7 := rd_mid ([0xB5, 0x62, c, i, p.length % 256, p.length / 256] ++ p)
    [(spec_checksum ([c, i, p.length % 256, p.length / 256] ++ p)).1,
     (spec_checksum ([c, i, p.length % 256, p.length / 256] ++ p)).2] [] 1 (by simp)
  have el : ([0xB5, 0x62, c, i, p.length % 256, p.length / 256] ++ p).length = 6 + p.length := by
    simp; omega
  rw [el] at h6 h7
  simp only [List.append_nil, Nat.add_zero] at h6 h7
  have e7 : 6 + p.length + 1 = 7 + p.length := by omega
  rw [e7] at h7
  refine ⟨by omega, ?_, ?_, ?_, ?_, ?_, ?_, ?_⟩
  · simp [spec_frame, rd]
  · simp [spec_frame, rd]
  · right; simp [spec_frame, rd]
  · right; simp [spec_frame, rd]
  · simp [spec_frame, rd]; omega
  · unfold spec_frame
    rw [covered_span, h6]
    simp [rd]
  · unfold spec_frame
    rw [covered_span, h7]
    simp [rd]

theorem spec_frame_payload (c i : Nat) (p out : List Nat) (hout : out.length = p.length) :
    memcpy out 0 ((spec_frame c i p).drop 6) p.length = p := by
  simp [memcpy, spec_frame, ← hout]

/-- The first accumulator of the running-sum pair is the plain sum modulo 256. -/
theorem spec_checksum_fst (l : List Nat) : (spec_checksum l).1 = l.sum % 256 := by
  induction l using List.reverseRecOn with
  | nil => simp [spec_checksum]
  | append_singleton l b ih =>
    rw [spec_checksum_snoc]
    simp only [ih, List.sum_append, List.sum_singleton]
    omega

/-- Replacing one byte by a different byte changes the sum modulo 256. -/
theorem sum_set_ne (l : List Nat) (k v : Nat) (hk : k < l.length) (hl : l[k] < 256)
    (hv : v < 256) (hne : v ≠ l[k]) : (l.set k v).sum % 256 ≠ l.sum % 256 := by
  induction l generalizing k with
  | nil => simp at hk
  | cons x xs ih =>
    cases k with
    | zero =>
      have hl0 : x < 256 := by simpa using hl
      have hne0 : v ≠ x := by simpa using hne
      simp only [List.set_cons_zero, List.sum_cons]
      omega
    | succ k =>
      have hk1 : k < xs.length := by simpa using hk
      have hl1 : xs[k] < 256 := by simpa using hl
      have hne1 : v ≠ xs[k] := by simpa using hne
      have := ih k hk1 hl1 hne1
      simp only [List.set_cons_succ, List.sum_cons]
      omega

/-! ## Frame codec: verified properties -/

/-- C1. Round trip of the frame codec: for every class byte, id byte and payload of
length at most 65535, the buffer built by `ubx_send_message`, passed with its length
`8 + n` to `ubx_parse_message` together with the same class, the same id and expected
length `n`, is accepted (return code 0) and the output object receives the original
payload, byte for byte. -/
theorem C1_roundtrip (c i : Nat) (p out : List Nat) (hc : c < 256) (hi : i < 256)
    (hp : ∀ b ∈ p, b < 256) (hn : p.length ≤ 65535) (hout : out.length = p.length) :
    ubx_parse_message (ubx_send_message_buf c i (some p) p.length)
      ((8 + p.length : Nat) : Int) c i (some out) p.length = (0, some p) := by
  rw [ubx_send_message_buf_eq c i p hn, ← spec_frame_length c i p]
  rw [ubx_parse_message_eq _ c i p.length (some out) (spec_frame_bytes c i p hc hi hp hn)
    (by rw [spec_frame_length]; omega) (by omega)]
  rw [if_pos (spec_frame_accepts c i p)]
  simp only [Option.map_some', spec_frame_payload c i p out hout]

theorem C1_roundtrip_witness :
    ubx_parse_message (ubx_send_message_buf 0x06 0x5C (some [30, 0, 0, 0]) 4) 12 0x06 0x5C
      (some [0, 0, 0, 0]) 4 = (0, some [30, 0, 0, 0]) :=
  C1_roundtrip 0x06 0x5C [30, 0, 0, 0] [0, 0, 0, 0] (by decide) (by decide) (by decide)
    (by decide) rfl

/-- C2. Wire format of the encoder: for every class `c`, id `i` and payload `p` of length
`n ≤ 65535`, the only hook call of `ubx_send_message` is one `send` of the `8 + n` bytes
`[0xB5, 0x62, c, i, n mod 256, n / 256] ++ p ++ [ck_a, ck_b]`, where `(ck_a, ck_b)` is the
running-sum pair of the specification over `[c, i, n mod 256, n / 256] ++ p` (the two
header bytes are not covered, `ck_a` comes before `ck_b`). -/
theorem C2_wire_format {σ : Type} (ifc : ubx_if_t σ) (s : σ) (c i : Nat) (p : List Nat)
    (hn : p.length ≤ 65535) :
    (ubx_send_message ifc s c i (some p) p.length).2.2 =
      [Event.send
        ([0xB5, 0x62, c, i, p.length % 256, p.length / 256] ++ p ++
          [(spec_checksum ([c, i, p.length % 256, p.length / 256] ++ p)).1,
           (spec_checksum ([c, i, p.length % 256, p.length / 256] ++ p)).2])
        (8 + p.length)] ∧
    ([0xB5, 0x62, c, i, p.length % 256, p.length / 256] ++ p ++
          [(spec_checksum ([c, i, p.length % 256, p.length / 256] ++ p)).1,
           (spec_checksum ([c, i, p.length % 256, p.length / 256] ++ p)).2]).length
      = 8 + p.length := by
  constructor
  · simp only [ubx_send_message, ubx_send_message_buf_eq c i p hn, spec_frame]
  · exact spec_frame_length c i p

theorem C2_wire_format_witness :
    (ubx_send_message script_if [] 0x06 0x5C (some [30, 0, 0, 0]) 4).2.2 =
      [Event.send [0xB5, 0x62, 0x06, 0x5C, 4, 0, 30, 0, 0, 0, 0x84, 0x44] 12] :=
  (C2_wire_format script_if [] 0x06 0x5C [30, 0, 0, 0] (by decide)).1

/-- C3, as the code behaves. The poll request for class 0x28, id 0x00 with an empty
payload is encoded as the eight bytes `B5 62 28 00 00 00 28 A0`: the running sums over
the four covered bytes `28 00 00 00` are `ck_a = 0x28` and `ck_b = 0xA0`. This holds for
the generic encoder `ubx_send_message` (called with `NULL, 0` as `ubx_get_hnr_pvt` does,
or with an empty payload object) and for the legacy `send_request_message`. -/
theorem C3_poll_request_bytes :
    ubx_send_message_buf UBX_HNR_CLASS UBX_HNR_PVT none 0
        = [0xB5, 0x62, 0x28, 0x00, 0x00, 0x00, 0x28, 0xA0] ∧
    ubx_send_message_buf UBX_HNR_CLASS UBX_HNR_PVT (some []) 0
        = [0xB5, 0x62, 0x28, 0x00, 0x00, 0x00, 0x28, 0xA0] ∧
    send_request_message_buf = [0xB5, 0x62, 0x28, 0x00, 0x00, 0x00, 0x28, 0xA0] ∧
    spec_checksum [0x28, 0x00, 0x00, 0x00] = (0x28, 0xA0) := by
  decide

/-- C3, as stated, fails: neither encoder produces `B5 62 28 00 00 00 28 78`; the last
byte is not 0x78. -/
theorem C3_poll_request_bytes_counterexample :
    ubx_send_message_buf 0x28 0x00 none 0 ≠ [0xB5, 0x62, 0x28, 0x00, 0x00, 0x00, 0x28, 0x78] ∧
    ubx_send_message_buf 0x28 0x00 (some []) 0
        ≠ [0xB5, 0x62, 0x28, 0x00, 0x00, 0x00, 0x28, 0x78] ∧
    send_request_message_buf ≠ [0xB5, 0x62, 0x28, 0x00, 0x00, 0x00, 0x28, 0x78] := by
  decide

/-- C4. Acceptance condition of the validator: for every buffer (cells below 256, length
`len` an `int`), expected class `ec`, expected id `ei` and expected length `n` (a
`uint32_t`), `ubx_parse_message` returns 0 if and only if `len ≥ 8 + n`, the buffer starts
with `B5 62`, `ec = 0xFF` or `buffer[2] = ec`, `ei = 0xFF` or `buffer[3] = ei`, the
little-endian length at `buffer[4..5]` equals `n`, and `buffer[6+n]`, `buffer[7+n]` equal
the running-sum pair of `buffer[2 .. 6+n)`. On success the output object holds exactly
`buffer[6 .. 6+n)`; otherwise the return code is -1 and the output is not written. -/
theorem C4_acceptance (buffer : List Nat) (ec ei n : Nat) (output : Option (List Nat))
    (hb : ∀ b ∈ buffer, b < 256) (hlen : buffer.length < 2147483648) (hn : n < 4294967296) :
    ((ubx_parse_message buffer (buffer.length : Nat) ec ei output n).1 = 0 ↔
      (buffer.length ≥ 8 + n ∧ rd buffer 0 = 0xB5 ∧ rd buffer 1 = 0x62 ∧
        (ec = 0xFF ∨ rd buffer 2 = ec) ∧ (ei = 0xFF ∨ rd buffer 3 = ei) ∧
        rd buffer 4 + 256 * rd buffer 5 = n ∧
        rd buffer (6 + n) = (spec_checksum ((buffer.drop 2).take (4 + n))).1 ∧
        rd buffer (7 + n) = (spec_checksum ((buffer.drop 2).take (4 + n))).2)) ∧
    ((ubx_parse_message buffer (buffer.length : Nat) ec ei output n).1 = 0 →
      ∀ o, output = some o → o.length = n →
        (ubx_parse_message buffer (buffer.length : Nat) ec ei output n).2
          = some ((buffer.drop 6).take n)) ∧
    ((ubx_parse_message buffer (buffer.length : Nat) ec ei output n).1 ≠ 0 →
      ubx_parse_message buffer (buffer.length : Nat) ec ei output n = (-1, output)) := by
  rw [ubx_parse_message_eq buffer ec ei n output hb hlen hn]
  by_cases h : accepts buffer ec ei n
  · rw [if_pos h]
    refine ⟨⟨fun _ => h, fun _ => rfl⟩, ?_, fun hne => absurd rfl hne⟩
    intro _ o ho hol
    subst ho
    have hge : n ≤ (buffer.drop 6).length := by
      have := h.1
      simp only [List.length_drop]
      omega
    simp [memcpy, hol, List.drop_eq_nil_of_le]
  · rw [if_neg h]
    refine ⟨⟨fun h0 => by simp at h0, fun hacc => absurd hacc h⟩, fun h0 => by simp at h0,
      fun _ => rfl⟩

theorem C4_acceptance_witness :
    (ubx_parse_message [0xB5, 0x62, 0x05, 0x01, 2, 0, 0x06, 0x00, 0x0E, 0x37] 10 0xFF 0x01
        (some [0, 0]) 2).1 = 0 ∧
    (ubx_parse_message [0xB5, 0x62, 0x05, 0x01, 2, 0, 0x06, 0x00, 0x0E, 0x37] 10 0xFF 0x01
        (some [0, 0]) 2).2 = some [0x06, 0x00] := by
  have h := C4_acceptance [0xB5, 0x62, 0x05, 0x01, 2, 0, 0x06, 0x00, 0x0E, 0x37] 0xFF 0x01 2
    (some [0, 0]) (by decide) (by decide) (by decide)
  have h0 := h.1.2 (by decide)
  exact ⟨h0, h.2.1 h0 [0, 0] rfl rfl⟩

/-- A frame of the specification with payload byte `k` replaced. -/
theorem spec_frame_set (c i : Nat) (p : List Nat) (k v : Nat) (hk : k < p.length) :
    (spec_frame c i p).set (6 + k) v =
      [0xB5, 0x62, c, i, p.length % 256, p.length / 256] ++ p.set k v ++
        [(spec_checksum ([c, i, p.length % 256, p.length / 256] ++ p)).1,
         (spec_checksum ([c, i, p.length % 256, p.length / 256] ++ p)).2] := by
  have e : 6 + k = k + 1 + 1 + 1 + 1 + 1 + 1 := by omega
  simp only [spec_frame, e, List.cons_append, List.set_cons_succ, List.nil_append,
    List.set_append_left _ _ hk]

/-- C5. Single-byte corruption is detected: for every class, id and non-empty payload
`p`, every index `k < len(p)` and every byte `v` different from `p[k]`, the encoded frame
with payload byte `k` replaced by `v` is rejected by `ubx_parse_message` (return code -1,
output untouched) when validated against the same class, id and length; the length,
header, class, id and length-field checks all pass on the corrupted frame, so the
rejection is the checksum comparison. -/
theorem C5_corruption_detected (c i : Nat) (p : List Nat) (k v : Nat)
    (output : Option (List Nat)) (hc : c < 256) (hi : i < 256) (hp : ∀ b ∈ p, b < 256)
    (hn : p.length ≤ 65535) (hk : k < p.length) (hv : v < 256) (hne : v ≠ p[k]) :
    ubx_parse_message ((ubx_send_message_buf c i (some p) p.length).set (6 + k) v)
      ((8 + p.length : Nat) : Int) c i output p.length = (-1, output) ∧
    (((ubx_send_message_buf c i (some p) p.length).set (6 + k) v).length ≥ 8 + p.length ∧
      rd ((ubx_send_message_buf c i (some p) p.length).set (6 + k) v) 0 = 0xB5 ∧
      rd ((ubx_send_message_buf c i (some p) p.length).set (6 + k) v) 1 = 0x62 ∧
      rd ((ubx_send_message_buf c i (some p) p.length).set (6 + k) v) 2 = c ∧
      rd ((ubx_send_message_buf c i (some p) p.length).set (6 + k) v) 3 = i ∧
      u16_load ((ubx_send_message_buf c i (some p) p.length).set (6 + k) v) 4 = p.length) := by
  rw [ubx_send_message_buf_eq c i p hn]
  have hlen : ((spec_frame c i p).set (6 + k) v).length = 8 + p.length := by
    rw [List.length_set, spec_frame_length]
  have hbytes : ∀ b ∈ (spec_frame c i p).set (6 + k) v, b < 256 := by
    intro b hb
    rcases List.mem_or_eq_of_mem_set hb with h | h
    · exact spec_frame_bytes c i p hc hi hp hn b h
    · omega
  have hrej : ¬ accepts ((spec_frame c i p).set (6 + k) v) c i p.length := by
    intro hacc
    have h6 := hacc.2.2.2.2.2.2.1
    rw [spec_frame_set c i p k v hk] at h6
    have hl : p.length = (p.set k v).length := by simp
    have hcov := covered_span 0xB5 0x62 c i (p.length % 256) (p.length / 256) (p.set k v)
      [(spec_checksum ([c, i, p.length % 256, p.length / 256] ++ p)).1,
       (spec_checksum ([c, i, p.length % 256, p.length / 256] ++ p)).2]
    rw [← hl] at hcov
    rw [hcov] at h6
    have hrd := rd_mid ([0xB5, 0x62, c, i, p.length % 256, p.length / 256] ++ p.set k v)
      [(spec_checksum ([c, i, p.length % 256, p.length / 256] ++ p)).1,
       (spec_checksum ([c, i, p.length % 256, p.length / 256] ++ p)).2] [] 0 (by simp)
    have el : ([0xB5, 0x62, c, i, p.length % 256, p.length / 256] ++ p.set k v).length
        = 6 + p.length := by
      simp; omega
    rw [el] at hrd
    simp only [List.append_nil, Nat.add_zero] at hrd
    rw [hrd] at h6
    simp only [rd, List.getD_cons_zero, spec_checksum_fst, List.sum_append, List.sum_cons,
      List.sum_nil] at h6
    have := sum_set_ne p k v hk (hp _ (List.getElem_mem hk)) hv hne
    omega
  constructor
  · rw [← hlen, ubx_parse_message_eq _ c i p.length output hbytes (by omega) (by omega),
      if_neg hrej]
  · rw [spec_frame_set c i p k v hk]
    refine ⟨?_, ?_, ?_, ?_, ?_, ?_⟩
    · simp; omega
    · simp [rd]
    · simp [rd]
    · simp [rd]
    · simp [rd]
    · simp [u16_load, rd]; omega

theorem C5_corruption_detected_witness :
    ubx_parse_message ((ubx_send_message_buf 0x06 0x5C (some [30, 0, 0, 0]) 4).set (6 + 0) 31)
      12 0x06 0x5C (some [0, 0, 0, 0]) 4 = (-1, some [0, 0, 0, 0]) :=
  (C5_corruption_detected 0x06 0x5C [30, 0, 0, 0] 0 31 (some [0, 0, 0, 0]) (by decide)
    (by decide) (by decide) (by decide) (by decide) (by decide) (by decide)).1

/-! ## Request correlator: lemmas on the polling loop -/

theorem poll_receive_trace {σ : Type} (ifc : ubx_if_t σ) (st : PollState σ) :
    (poll_receive ifc st).trace = st.trace ++ [Event.recv (recv_buffer_size st.total_bytes)] ∧
    (poll_receive ifc st).time_elapsed = st.time_elapsed := by
  unfold poll_receive
  simp only []
  split <;> exact ⟨rfl, rfl⟩

theorem poll_scan_trace {σ : Type} (ifc : ubx_if_t σ) (ec ei rs : Nat) (st : PollState σ) :
    ((poll_scan ifc ec ei rs st).1 = true → (poll_scan ifc ec ei rs st).2.trace = st.trace) ∧
    ((poll_scan ifc ec ei rs st).1 = false →
      (poll_scan ifc ec ei rs st).2.trace = st.trace ++ [Event.delay 10] ∧
      (poll_scan ifc ec ei rs st).2.time_elapsed = st.time_elapsed + 10) := by
  unfold poll_scan
  cases memchr st.sp_buffer UBX_HEADER_0 st.total_bytes with
  | none => simp
  | some k =>
    simp only []
    split_ifs <;> simp

/-- Hook calls of one pass through the loop body: one `recv`, then `delay_ms(10)` unless
the body returns. -/
theorem poll_body_trace {σ : Type} (ifc : ubx_if_t σ) (ec ei rs : Nat) (st : PollState σ) :
    ((poll_body ifc ec ei rs st).1 = true →
      (poll_body ifc ec ei rs st).2.trace
        = st.trace ++ [Event.recv (recv_buffer_size st.total_bytes)]) ∧
    ((poll_body ifc ec ei rs st).1 = false →
      (poll_body ifc ec ei rs st).2.trace
        = st.trace ++ [Event.recv (recv_buffer_size st.total_bytes), Event.delay 10] ∧
      (poll_body ifc ec ei rs st).2.time_elapsed = st.time_elapsed + 10) := by
  obtain ⟨h1, h2⟩ := poll_receive_trace ifc st
  obtain ⟨h3, h4⟩ := poll_scan_trace ifc ec ei rs (poll_receive ifc st)
  unfold poll_body
  constructor
  · intro h
    rw [h3 h, h1]
  · intro h
    obtain ⟨h5, h6⟩ := h4 h
    rw [h5, h6, h1, h2]
    simp

/-- The polling loop returns within its budget: started at elapsed time `t` with more
fuel than the `(DEFAULT_TIMEOUT - t + 9) / 10` polls that are left, it ends with return
code 0, or with -1 after exactly that many `recv` calls and as many delays of 10 ms. -/
theorem poll_loop_spec {σ : Type} (ifc : ubx_if_t σ) (ec ei rs : Nat) :
    ∀ (fuel : Nat) (st : PollState σ), (DEFAULT_TIMEOUT - st.time_elapsed + 9) / 10 < fuel →
      ∃ res ev, poll_loop ifc ec ei rs fuel st = .ok res ∧ res.trace = st.trace ++ ev ∧
        count_send ev = 0 ∧ count_recv ev ≤ (DEFAULT_TIMEOUT - st.time_elapsed + 9) / 10 ∧
        (res.ret = 0 ∨
          (res.ret = -1 ∧ count_recv ev = (DEFAULT_TIMEOUT - st.time_elapsed + 9) / 10 ∧
            delays ev = List.replicate ((DEFAULT_TIMEOUT - st.time_elapsed + 9) / 10) 10)) := by
  intro fuel
  induction fuel with
  | zero => intro st h; omega
  | succ fuel ih =>
    intro st h
    unfold poll_loop
    by_cases ht : st.time_elapsed < DEFAULT_TIMEOUT
    · rw [if_pos ht]
      have hpos : 1 ≤ (DEFAULT_TIMEOUT - st.time_elapsed + 9) / 10 := by
        unfold DEFAULT_TIMEOUT at ht ⊢
        omega
      obtain ⟨htrue, hfalse⟩ := poll_body_trace ifc ec ei rs st
      by_cases hb : (poll_body ifc ec ei rs st).1 = true
      · simp only [hb, if_true]
        refine ⟨_, [Event.recv (recv_buffer_size st.total_bytes)], rfl, htrue hb, ?_, ?_, ?_⟩
        · simp [count_send]
        · simpa [count_recv] using hpos
        · left; rfl
      · have hb' : (poll_body ifc ec ei rs st).1 = false := by simpa using hb
        obtain ⟨htr, htime⟩ := hfalse hb'
        simp only [hb', Bool.false_eq_true, if_false]
        have hnext : (DEFAULT_TIMEOUT - (poll_body ifc ec ei rs st).2.time_elapsed + 9) / 10
            = (DEFAULT_TIMEOUT - st.time_elapsed + 9) / 10 - 1 := by
          rw [htime]
          unfold DEFAULT_TIMEOUT at ht ⊢
          omega
        obtain ⟨res, ev, hres, htrace, hsend, hle, hret⟩ :=
          ih (poll_body ifc ec ei rs st).2 (by rw [hnext]; omega)
        refine ⟨res, [Event.recv (recv_buffer_size st.total_bytes), Event.delay 10] ++ ev,
          hres, ?_, ?_, ?_, ?_⟩
        · rw [htrace, htr, List.append_assoc]
        · simpa [count_send, List.filter_cons] using hsend
        · rw [hnext] at hle
          have : count_recv ([Event.recv (recv_buffer_size st.total_bytes), Event.delay 10]
              ++ ev) = 1 + count_recv ev := by
            simp [count_recv, List.filter_cons]
            omega
          omega
        · rcases hret with h0 | ⟨hm, hcnt, hdel⟩
          · left; exact h0
          · right
            rw [hnext] at hcnt hdel
            refine ⟨hm, ?_, ?_⟩
            · have : count_recv ([Event.recv (recv_buffer_size st.total_bytes),
                  Event.delay 10] ++ ev) = 1 + count_recv ev := by
                simp [count_recv, List.filter_cons]
                omega
              omega
            · have hd : delays ([Event.recv (recv_buffer_size st.total_bytes),
                  Event.delay 10] ++ ev) = 10 :: delays ev := by
                simp [delays, List.filterMap_cons]
              rw [hd, hdel, ← List.replicate_succ]
              congr 1
              omega
    · rw [if_neg ht]
      have hz : (DEFAULT_TIMEOUT - st.time_elapsed + 9) / 10 = 0 := by
        unfold DEFAULT_TIMEOUT at ht ⊢
        omega
      refine ⟨_, [], rfl, by simp, by simp [count_send], by simp [count_recv], ?_⟩
      right
      rw [hz]
      exact ⟨rfl, by simp [count_recv], by simp [delays]⟩

/-! ## Request correlator: verified properties -/

theorem poll_receive_recv_errors {σ : Type} (ifc : ubx_if_t σ) (st : PollState σ) :
    poll_receive (recv_errors_as_empty ifc) st = poll_receive ifc st := by
  unfold poll_receive recv_errors_as_empty
  simp only []
  by_cases h : (ifc.recv st.env (List.replicate (recv_buffer_size st.total_bytes) 0)
      (recv_buffer_size st.total_bytes)).1 < 0
  · have h1 : ¬ ((ifc.recv st.env (List.replicate (recv_buffer_size st.total_bytes) 0)
        (recv_buffer_size st.total_bytes)).1 > 0 ∧ recv_buffer_size st.total_bytes ≠ 0) := by
      intro hc
      omega
    have h2 : ¬ ((0 : Int) > 0 ∧ recv_buffer_size st.total_bytes ≠ 0) := by
      intro hc
      omega
    simp only [h, if_true, if_neg h1, if_neg h2]
  · simp only [h, if_false]

theorem poll_loop_recv_errors {σ : Type} (ifc : ubx_if_t σ) (ec ei rs : Nat) :
    ∀ (fuel : Nat) (st : PollState σ),
      poll_loop (recv_errors_as_empty ifc) ec ei rs fuel st = poll_loop ifc ec ei rs fuel st := by
  intro fuel
  induction fuel with
  | zero => intro st; rfl
  | succ fuel ih =>
    intro st
    have hb : poll_body (recv_errors_as_empty ifc) ec ei rs st = poll_body ifc ec ei rs st := by
      unfold poll_body
      rw [poll_receive_recv_errors]
      rfl
    unfold poll_loop
    rw [hb]
    simp only [ih]

/-- C6, evaluated on the code. The ACK-ACK frame `example_ack_frame` is accepted by the
validator, and `ubx_send_and_receive` returns it when it arrives alone or behind a
garbage byte other than 0xB5. Behind the single garbage byte 0xB5 (11 bytes delivered by
the first `recv`) the call fails: `memchr` stops at the stray 0xB5, validation there
fails, the shift keeps that byte at the front of the buffer, and every later poll finds
it again; after 100 polls the call returns -1 and the response object is untouched. -/
theorem C6_stray_header_blocks_resync :
    ubx_parse_message example_ack_frame 10 UBX_ACK_CLASS UBX_ACK_ACK (some [0, 0]) 2
      = (0, some [0x06, 0x00]) ∧
    rx_ret (ubx_send_and_receive script_if [(10, example_ack_frame)]
      (some (List.replicate UBX_M8_BUFFER_SIZE 0)) UBX_CFG_CLASS UBX_CFG_PRT
      (some (List.replicate 20 0)) 20 UBX_ACK_CLASS UBX_ACK_ACK (some [0, 0]) 2) = some 0 ∧
    rx_response (ubx_send_and_receive script_if [(11, 0x42 :: example_ack_frame)]
      (some (List.replicate UBX_M8_BUFFER_SIZE 0)) UBX_CFG_CLASS UBX_CFG_PRT
      (some (List.replicate 20 0)) 20 UBX_ACK_CLASS UBX_ACK_ACK (some [0, 0]) 2)
      = some [0x06, 0x00] ∧
    rx_ret (ubx_send_and_receive script_if [(11, 0xB5 :: example_ack_frame)]
      (some (List.replicate UBX_M8_BUFFER_SIZE 0)) UBX_CFG_CLASS UBX_CFG_PRT
      (some (List.replicate 20 0)) 20 UBX_ACK_CLASS UBX_ACK_ACK (some [0, 0]) 2) = some (-1) ∧
    rx_response (ubx_send_and_receive script_if [(11, 0xB5 :: example_ack_frame)]
      (some (List.replicate UBX_M8_BUFFER_SIZE 0)) UBX_CFG_CLASS UBX_CFG_PRT
      (some (List.replicate 20 0)) 20 UBX_ACK_CLASS UBX_ACK_ACK (some [0, 0]) 2)
      = some [0, 0] ∧
    count_recv (rx_trace (ubx_send_and_receive script_if [(11, 0xB5 :: example_ack_frame)]
      (some (List.replicate UBX_M8_BUFFER_SIZE 0)) UBX_CFG_CLASS UBX_CFG_PRT
      (some (List.replicate 20 0)) 20 UBX_ACK_CLASS UBX_ACK_ACK (some [0, 0]) 2)) = 100 := by
  decide

/-- C8. Send failure is fatal and the request is never retransmitted: every call of
`ubx_send_and_receive` (on an allocated working buffer) has a result whose trace contains
exactly one `send`, the first hook call, carrying the encoded request; and when that
`send` returns a negative value the call returns -1 with no other hook call at all (no
`recv`, no delay), leaving the response object and the working buffer as they were. -/
theorem C8_send_once {σ : Type} (ifc : ubx_if_t σ) (s : σ) (sp_buffer : List Nat)
    (class_id msg_id : Nat) (payload : Option (List Nat)) (payload_size : Nat)
    (ec ei : Nat) (response : Option (List Nat)) (response_size : Nat) :
    ∃ res, ubx_send_and_receive ifc s (some sp_buffer) class_id msg_id payload payload_size
        ec ei response response_size = .ok res ∧
      count_send res.trace = 1 ∧
      res.trace.head? = some (Event.send
        (ubx_send_message_buf class_id msg_id payload payload_size) (8 + payload_size)) ∧
      ((ifc.send s (ubx_send_message_buf class_id msg_id payload payload_size)
          (8 + payload_size)).1 < 0 →
        res.ret = -1 ∧
        res.trace = [Event.send (ubx_send_message_buf class_id msg_id payload payload_size)
          (8 + payload_size)] ∧
        count_recv res.trace = 0 ∧ delays res.trace = [] ∧
        res.response = response ∧ res.sp_buffer = some sp_buffer) := by
  unfold ubx_send_and_receive ubx_send_message
  by_cases hs : (ifc.send s (ubx_send_message_buf class_id msg_id payload payload_size)
      (8 + payload_size)).1 < 0
  · simp only [hs, if_true]
    refine ⟨_, rfl, by simp [count_send], by simp, fun _ => ?_⟩
    simp [count_recv, delays]
  · simp only [hs, if_false, ne_eq, not_true_eq_false]
    obtain ⟨res, ev, hres, htrace, hsend, _, _⟩ :=
      poll_loop_spec ifc ec ei response_size (DEFAULT_TIMEOUT + 1)
        { env := (ifc.send s (ubx_send_message_buf class_id msg_id payload payload_size)
            (8 + payload_size)).2,
          response := response, sp_buffer := sp_buffer, total_bytes := 0, time_elapsed := 0,
          trace := [Event.send (ubx_send_message_buf class_id msg_id payload payload_size)
            (8 + payload_size)] }
        (by simp [DEFAULT_TIMEOUT])
    refine ⟨res, hres, ?_, ?_, fun h => h.elim⟩
    · rw [htrace]
      have : count_send ([Event.send (ubx_send_message_buf class_id msg_id payload
          payload_size) (8 + payload_size)] ++ ev) = 1 + count_send ev := by
        simp [count_send, List.filter_cons]
        omega
      rw [this, hsend]
    · rw [htrace]
      rfl

theorem C8_send_once_witness :
    rx_ret (ubx_send_and_receive failing_send_if () (some (List.replicate UBX_M8_BUFFER_SIZE 0))
        UBX_CFG_CLASS UBX_CFG_HNR (some [30, 0, 0, 0]) 4 UBX_ACK_CLASS UBX_ACK_ACK
        (some [0, 0]) 2) = some (-1) ∧
    rx_trace (ubx_send_and_receive failing_send_if () (some (List.replicate UBX_M8_BUFFER_SIZE 0))
        UBX_CFG_CLASS UBX_CFG_HNR (some [30, 0, 0, 0]) 4 UBX_ACK_CLASS UBX_ACK_ACK
        (some [0, 0]) 2)
      = [Event.send [0xB5, 0x62, 0x06, 0x5C, 4, 0, 30, 0, 0, 0, 0x84, 0x44] 12] := by
  obtain ⟨res, hres, _, _, h⟩ := C8_send_once failing_send_if ()
    (List.replicate UBX_M8_BUFFER_SIZE 0) UBX_CFG_CLASS UBX_CFG_HNR (some [30, 0, 0, 0]) 4
    UBX_ACK_CLASS UBX_ACK_ACK (some [0, 0]) 2
  obtain ⟨hret, htr, _⟩ := h (by decide)
  rw [hres]
  exact ⟨congrArg some hret, htr⟩

/-- C9, as the code behaves. A negative return value of `recv` does not end the call: the
polling loop only tests `bytes_read > 0`, so a failing `recv` appends nothing and the
call proceeds (header search, shift, delay, next poll) exactly as if that `recv` had
returned 0 bytes. For every transport the whole call has the same outcome — return code,
response, working buffer, environment and hook calls — as with the transport whose
negative `recv` results are replaced by 0. -/
theorem C9_recv_failure_is_no_data {σ : Type} (ifc : ubx_if_t σ) (s : σ)
    (sp_buffer : Option (List Nat)) (class_id msg_id : Nat) (payload : Option (List Nat))
    (payload_size : Nat) (ec ei : Nat) (response : Option (List Nat)) (response_size : Nat) :
    ubx_send_and_receive ifc s sp_buffer class_id msg_id payload payload_size
        ec ei response response_size =
    ubx_send_and_receive (recv_errors_as_empty ifc) s sp_buffer class_id msg_id payload
        payload_size ec ei response response_size := by
  unfold ubx_send_and_receive
  have hsend : ubx_send_message (recv_errors_as_empty ifc) s class_id msg_id payload
      payload_size = ubx_send_message ifc s class_id msg_id payload payload_size := rfl
  rw [hsend]
  simp only [poll_loop_recv_errors]

/-- C9, as stated, fails: the first `recv` returns -1, yet the call goes on, makes a
second `recv`, and the ACK-ACK frame delivered there makes the call succeed. -/
theorem C9_recv_failure_is_no_data_counterexample :
    rx_ret (ubx_send_and_receive script_if [(-1, []), (10, example_ack_frame)]
      (some (List.replicate UBX_M8_BUFFER_SIZE 0)) UBX_CFG_CLASS UBX_CFG_PRT none 0
      UBX_ACK_CLASS UBX_ACK_ACK (some [0, 0]) 2) = some 0 ∧
    rx_response (ubx_send_and_receive script_if [(-1, []), (10, example_ack_frame)]
      (some (List.replicate UBX_M8_BUFFER_SIZE 0)) UBX_CFG_CLASS UBX_CFG_PRT none 0
      UBX_ACK_CLASS UBX_ACK_ACK (some [0, 0]) 2) = some [0x06, 0x00] ∧
    rx_trace (ubx_send_and_receive script_if [(-1, []), (10, example_ack_frame)]
      (some (List.replicate UBX_M8_BUFFER_SIZE 0)) UBX_CFG_CLASS UBX_CFG_PRT none 0
      UBX_ACK_CLASS UBX_ACK_ACK (some [0, 0]) 2)
      = [Event.send [0xB5, 0x62, 0x06, 0x00, 0x00, 0x00, 0x06, 0x18] 8,
         Event.recv 128, Event.delay 10, Event.recv 128] := by
  decide

/-! ## Polled decoder: verified properties -/

/-- C10, evaluated on the code. The cache holds a previous fix (longitude 70, latitude
80, altitude 90, speed 10, heading 11); the receiver answers the HNR-PVT poll with a valid
frame whose `gnssFix` is 5 (TimeOnly). After `ubx_m8_get_gnss_data` the returned record
has longitude, latitude, altitude, speed and heading overwritten from the frame:
`ubx_get_hnr_pvt` assigns all fields whatever the fix type. -/
theorem C10_time_only_overwrites_position :
    hnr_pvt_gnssFix example_time_only_pvt = TIME_ONLY_FIX ∧
    example_driver.sp_ubx_gnss =
      some { longitude := 70, latitude := 80, fix_quality := 3, num_satellites := 0,
             altitude := 90, speed := 10, heading := 11, timestamp := 12 } ∧
    gnss_returned (ubx_m8_get_gnss_data example_mktime example_driver
        [(80, ubx_send_message_buf UBX_HNR_CLASS UBX_HNR_PVT (some example_time_only_pvt) 72)])
      = some { longitude := 16909060, latitude := 5, fix_quality := 5, num_satellites := 0,
               altitude := 6000, speed := 7, heading := 8, timestamp := 9 } := by
  decide

/-! ## Request correlator: outcome lemmas used by the facade -/

/-- The validator either accepts, or returns -1 and leaves the output object alone. -/
theorem ubx_parse_message_fail (b : List Nat) (len : Int) (ec ei : Nat)
    (out : Option (List Nat)) (rs : Nat) :
    (ubx_parse_message b len ec ei out rs).1 = 0 ∨
      ubx_parse_message b len ec ei out rs = (-1, out) := by
  unfold ubx_parse_message
  simp only []
  split_ifs <;> simp

theorem poll_receive_response {σ : Type} (ifc : ubx_if_t σ) (st : PollState σ) :
    (poll_receive ifc st).response = st.response := by
  unfold poll_receive
  simp only []
  split <;> rfl

/-- The loop body returns only after a successful validation, whose output becomes the
response; otherwise the response object is as before. -/
theorem poll_scan_response {σ : Type} (ifc : ubx_if_t σ) (ec ei rs : Nat) (st : PollState σ) :
    ((poll_scan ifc ec ei rs st).1 = true →
      ∃ b len, (ubx_parse_message b len ec ei st.response rs).1 = 0 ∧
        (poll_scan ifc ec ei rs st).2.response
          = (ubx_parse_message b len ec ei st.response rs).2) ∧
    ((poll_scan ifc ec ei rs st).1 = false →
      (poll_scan ifc ec ei rs st).2.response = st.response) := by
  unfold poll_scan
  cases memchr st.sp_buffer UBX_HEADER_0 st.total_bytes with
  | none => simp
  | some k =>
    simp only []
    by_cases hlen : st.total_bytes - k ≥ 8 + rs
    · simp only [hlen, if_true, true_and]
      rcases ubx_parse_message_fail (st.sp_buffer.drop k) ((st.total_bytes - k : Nat) : Int)
        ec ei st.response rs with h0 | hf
      · simp only [h0, if_true]
        exact ⟨fun _ => ⟨_, _, h0, rfl⟩, fun h => by simp at h⟩
      · simp [hf]
    · simp [hlen]

theorem poll_loop_response {σ : Type} (ifc : ubx_if_t σ) (ec ei rs : Nat) :
    ∀ (fuel : Nat) (st : PollState σ) (res : RxResult σ),
      poll_loop ifc ec ei rs fuel st = .ok res →
        (res.ret = 0 ∧ ∃ b len, (ubx_parse_message b len ec ei st.response rs).1 = 0 ∧
          res.response = (ubx_parse_message b len ec ei st.response rs).2) ∨
        (res.ret = -1 ∧ res.response = st.response) := by
  intro fuel
  induction fuel with
  | zero => intro st res h; simp [poll_loop] at h
  | succ fuel ih =>
    intro st res h
    unfold poll_loop at h
    by_cases ht : st.time_elapsed < DEFAULT_TIMEOUT
    · rw [if_pos ht] at h
      obtain ⟨htrue, hfalse⟩ := poll_scan_response ifc ec ei rs (poll_receive ifc st)
      rw [poll_receive_response] at htrue hfalse
      by_cases hb : (poll_body ifc ec ei rs st).1 = true
      · simp only [hb, if_true, Except.ok.injEq] at h
        obtain ⟨b, len, h0, hresp⟩ := htrue hb
        left
        subst h
        exact ⟨rfl, b, len, h0, hresp⟩
      · have hb' : (poll_body ifc ec ei rs st).1 = false := by simpa using hb
        simp only [hb', Bool.false_eq_true, if_false] at h
        have hr := hfalse hb'
        have := ih _ res h
        unfold poll_body at this
        rw [hr] at this
        exact this
    · rw [if_neg ht] at h
      simp only [Except.ok.injEq] at h
      right
      subst h
      exact ⟨rfl, rfl⟩

/-- Outcome of `ubx_send_and_receive` on an allocated working buffer: it has a result;
its first hook call is the `send` of the encoded request and no other `send` follows; at
most 100 `recv` calls are made; the return code is 0 after a successful validation, whose
output is the response, and -1 otherwise, with the response object untouched. -/
theorem ubx_send_and_receive_outcome {σ : Type} (ifc : ubx_if_t σ) (s : σ)
    (sp_buffer : List Nat) (class_id msg_id : Nat) (payload : Option (List Nat))
    (payload_size : Nat) (ec ei : Nat) (response : Option (List Nat)) (rs : Nat) :
    ∃ res ev, ubx_send_and_receive ifc s (some sp_buffer) class_id msg_id payload payload_size
        ec ei response rs = .ok res ∧
      res.trace = Event.send (ubx_send_message_buf class_id msg_id payload payload_size)
        (8 + payload_size) :: ev ∧
      count_send ev = 0 ∧ count_recv ev ≤ 100 ∧
      ((res.ret = 0 ∧ ∃ b len, (ubx_parse_message b len ec ei response rs).1 = 0 ∧
          res.response = (ubx_parse_message b len ec ei response rs).2) ∨
        (res.ret = -1 ∧ res.response = response)) := by
  unfold ubx_send_and_receive ubx_send_message
  by_cases hs : (ifc.send s (ubx_send_message_buf class_id msg_id payload payload_size)
      (8 + payload_size)).1 < 0
  · simp only [hs, if_true]
    refine ⟨_, [], rfl, rfl, by simp [count_send], by simp [count_recv], ?_⟩
    right
    exact ⟨rfl, rfl⟩
  · simp only [hs, if_false, ne_eq, not_true_eq_false]
    obtain ⟨res, ev, hres, htrace, hsend, hle, _⟩ :=
      poll_loop_spec ifc ec ei rs (DEFAULT_TIMEOUT + 1)
        { env := (ifc.send s (ubx_send_message_buf class_id msg_id payload payload_size)
            (8 + payload_size)).2,
          response := response, sp_buffer := sp_buffer, total_bytes := 0, time_elapsed := 0,
          trace := [Event.send (ubx_send_message_buf class_id msg_id payload payload_size)
            (8 + payload_size)] }
        (by simp [DEFAULT_TIMEOUT])
    have h100 : (DEFAULT_TIMEOUT - 0 + 9) / 10 = 100 := by simp [DEFAULT_TIMEOUT]
    simp only [h100] at hle
    refine ⟨res, ev, hres, by rw [htrace]; rfl, hsend, hle, ?_⟩
    exact poll_loop_response ifc ec ei rs _ _ res hres

/-! ## Device facade: verified properties -/

/-- C12, as the code behaves. When the driver is initialized and the HNR-PVT round-trip
inside `ubx_m8_get_gnss_data` fails (return code `v ≠ 0`: send failure or timeout), the
call still returns the cache pointer, with the record it held before the call: the return
code of `ubx_get_hnr_pvt` is dropped and no failure value reaches the caller. -/
theorem C12_failure_not_reported {σ : Type} (mktime : tm → Int) (d : Driver σ) (env : σ)
    (ifc : ubx_if_t σ) (g : ubx_m8_gnss_t) (v : Int)
    (hinit : d.s_is_initialized = true) (hif : d.sp_ubx_if = some ifc)
    (hg : d.sp_ubx_gnss = some g)
    (hret : rx_ret (ubx_send_and_receive ifc env d.sp_buffer UBX_HNR_CLASS UBX_HNR_PVT none 0
      UBX_HNR_CLASS UBX_HNR_PVT (some (List.replicate 72 0)) 72) = some v)
    (hv : v ≠ 0) :
    ∃ d1 env1 tr, ubx_m8_get_gnss_data mktime d env = .ok (some g, d1, env1, tr) ∧
      d1.sp_ubx_gnss = some g ∧ d1.s_is_initialized = true := by
  unfold ubx_m8_get_gnss_data ubx_get_hnr_pvt
  simp only [hinit, hif, ubx_ensure_allocated, sizeof_ubx_hnr_pvt_t]
  cases hres : ubx_send_and_receive ifc env d.sp_buffer UBX_HNR_CLASS UBX_HNR_PVT none 0
      UBX_HNR_CLASS UBX_HNR_PVT (some (List.replicate 72 0)) 72 with
  | error f => rw [hres] at hret; simp [rx_ret] at hret
  | ok r =>
    rw [hres] at hret
    have hr : r.ret = v := by simpa [rx_ret] using hret
    have hne : ¬ r.ret = 0 := by rw [hr]; exact hv
    simp [hne, hg, hinit]

theorem C12_failure_not_reported_witness :
    ∃ d1 env1 tr, ubx_m8_get_gnss_data example_mktime example_driver [] =
        .ok (some { longitude := 70, latitude := 80, fix_quality := 3, num_satellites := 0,
                    altitude := 90, speed := 10, heading := 11, timestamp := 12 },
             d1, env1, tr) ∧
      d1.sp_ubx_gnss = some { longitude := 70, latitude := 80, fix_quality := 3,
                              num_satellites := 0, altitude := 90, speed := 10, heading := 11,
                              timestamp := 12 } ∧
      d1.s_is_initialized = true :=
  C12_failure_not_reported example_mktime example_driver [] script_if _ (-1) rfl rfl rfl
    (by decide) (by decide)

/-- C12, as stated, fails: with a transport that never answers (timeout) and with a
transport whose `send` fails, the round-trip returns -1, yet `ubx_m8_get_gnss_data` on the
initialized driver returns a non-`NULL` record (the stale cache), which is what a
successful call returns as well. -/
theorem C12_failure_not_reported_counterexample :
    rx_ret (ubx_send_and_receive script_if [] example_driver.sp_buffer UBX_HNR_CLASS
      UBX_HNR_PVT none 0 UBX_HNR_CLASS UBX_HNR_PVT (some (List.replicate 72 0)) 72)
      = some (-1) ∧
    gnss_returned (ubx_m8_get_gnss_data example_mktime example_driver []) =
      some { longitude := 70, latitude := 80, fix_quality := 3, num_satellites := 0,
             altitude := 90, speed := 10, heading := 11, timestamp := 12 } ∧
    rx_ret (ubx_send_and_receive failing_send_if () example_driver_send_fails.sp_buffer
      UBX_HNR_CLASS UBX_HNR_PVT none 0 UBX_HNR_CLASS UBX_HNR_PVT
      (some (List.replicate 72 0)) 72) = some (-1) ∧
    gnss_returned (ubx_m8_get_gnss_data example_mktime example_driver_send_fails ()) =
      some { longitude := 70, latitude := 80, fix_quality := 3, num_satellites := 0,
             altitude := 90, speed := 10, heading := 11, timestamp := 12 } := by
  decide

/-- C13. Operations in the Uninitialized state fail without side effects: whenever
`s_is_initialized` is false, `ubx_m8_get_gnss_data` returns `NULL`, and
`ubx_m8_disable_nmea_output`, `ubx_m8_set_hnr_rate` (for every rate) and `ubx_m8_deinit`
return -1; each makes no hook call at all (no `send`, no `recv`) and leaves the globals
and the transport environment unchanged. A successful `ubx_m8_deinit` leaves the driver
in that state. -/
theorem C13_uninitialized_ops_fail {σ : Type} (mktime : tm → Int) (d : Driver σ) (env : σ) :
    (d.s_is_initialized = false →
      ubx_m8_get_gnss_data mktime d env = .ok (none, d, env, []) ∧
      ubx_m8_disable_nmea_output d env = .ok (-1, d, env, []) ∧
      (∀ rate, ubx_m8_set_hnr_rate d env rate = .ok (-1, d, env, [])) ∧
      ubx_m8_deinit d = (-1, d, [])) ∧
    ((ubx_m8_deinit d).1 = 0 → (ubx_m8_deinit d).2.1.s_is_initialized = false) := by
  constructor
  · intro h
    refine ⟨?_, ?_, ?_, ?_⟩
    · simp [ubx_m8_get_gnss_data, h]
    · simp [ubx_m8_disable_nmea_output, h]
    · intro rate
      simp [ubx_m8_set_hnr_rate, h]
    · simp [ubx_m8_deinit, h]
  · unfold ubx_m8_deinit
    by_cases h : d.s_is_initialized = true
    · simp [h]
    · simp [h]

theorem C13_uninitialized_ops_fail_witness :
    (ubx_m8_get_gnss_data example_mktime (pristine_driver (List (Int × List Nat))) [] =
        .ok (none, pristine_driver _, [], []) ∧
      ubx_m8_disable_nmea_output (pristine_driver (List (Int × List Nat))) [] =
        .ok (-1, pristine_driver _, [], []) ∧
      (∀ rate, ubx_m8_set_hnr_rate (pristine_driver (List (Int × List Nat))) [] rate =
        .ok (-1, pristine_driver _, [], [])) ∧
      ubx_m8_deinit (pristine_driver (List (Int × List Nat))) = (-1, pristine_driver _, [])) ∧
    (ubx_m8_deinit example_driver).2.1.s_is_initialized = false :=
  ⟨(C13_uninitialized_ops_fail example_mktime (pristine_driver (List (Int × List Nat))) []).1
      rfl,
    (C13_uninitialized_ops_fail example_mktime example_driver []).2 (by decide)⟩

/-- C15. Init parameter rejection: whenever exactly one of `lock` / `unlock` is `NULL`, and
whenever both hooks are already installed and the supplied pair differs from the
installed one, `ubx_m8_init_with_mutex` returns -1, makes no hook call (no transport
I/O) and leaves the globals, the installed lock pair included, and the environment
unchanged. -/
theorem C15_init_rejects {σ : Type} (d : Driver σ) (env : σ) (port : Nat) (ubx_if : ubx_if_t σ)
    (lock unlock : Option Nat)
    (h : lock.isSome ≠ unlock.isSome ∨
      (d.s_mutex_lock.isSome ∧ d.s_mutex_unlock.isSome ∧
        (d.s_mutex_lock ≠ lock ∨ d.s_mutex_unlock ≠ unlock))) :
    ubx_m8_init_with_mutex d env port ubx_if lock unlock = .ok (-1, d, env, []) := by
  unfold ubx_m8_init_with_mutex
  by_cases h1 : d.s_mutex_lock ≠ none ∧ d.s_mutex_unlock ≠ none ∧
      (d.s_mutex_lock ≠ lock ∨ d.s_mutex_unlock ≠ unlock)
  · rw [if_pos h1]
  · rw [if_neg h1]
    rcases h with h2 | h2
    · rw [if_pos h2]
    · exfalso
      apply h1
      refine ⟨?_, ?_, h2.2.2⟩
      · intro hn; rw [hn] at h2; simp at h2
      · intro hn; rw [hn] at h2; simp at h2

theorem C15_init_rejects_witness :
    ubx_m8_init_with_mutex example_driver [] 1 script_if (some 1) none
        = .ok (-1, example_driver, [], []) ∧
    ubx_m8_init_with_mutex { example_driver with s_mutex_lock := some 1, s_mutex_unlock := some 2 }
        [] 1 script_if (some 3) (some 2)
      = .ok (-1, { example_driver with s_mutex_lock := some 1, s_mutex_unlock := some 2 },
             [], []) :=
  ⟨C15_init_rejects example_driver [] 1 script_if (some 1) none (Or.inl (by decide)),
   C15_init_rejects { example_driver with s_mutex_lock := some 1, s_mutex_unlock := some 2 }
     [] 1 script_if (some 3) (some 2) (Or.inr (by decide))⟩

/-- C16, as the code behaves. On an initialized driver every init call that is not
rejected returns 0 and makes no `send` and no `recv` (its only hook calls are one lock and
one unlock when hooks are installed). The globals are left unchanged except for the lock
pair: when both `lock` and `unlock` are supplied they are stored before the initialized
flag is looked at. Hence the state is unchanged when a complete pair is already installed
or when no hook is supplied, and a pair supplied to an initialized driver without a
complete pair becomes installed. -/
theorem C16_reinit {σ : Type} (d : Driver σ) (env : σ) (port : Nat) (ubx_if : ubx_if_t σ)
    (lock unlock : Option Nat) (hinit : d.s_is_initialized = true)
    (hacc : ¬ (lock.isSome ≠ unlock.isSome ∨
      (d.s_mutex_lock.isSome ∧ d.s_mutex_unlock.isSome ∧
        (d.s_mutex_lock ≠ lock ∨ d.s_mutex_unlock ≠ unlock)))) :
    ∃ d1, ubx_m8_init_with_mutex d env port ubx_if lock unlock
        = .ok (0, d1, env, UBX_LOCK_MUTEX d1 ++ UBX_UNLOCK_MUTEX d1) ∧
      d1 = (if lock.isSome ∧ unlock.isSome then
              { d with s_mutex_lock := lock, s_mutex_unlock := unlock } else d) ∧
      count_send (UBX_LOCK_MUTEX d1 ++ UBX_UNLOCK_MUTEX d1) = 0 ∧
      count_recv (UBX_LOCK_MUTEX d1 ++ UBX_UNLOCK_MUTEX d1) = 0 ∧
      ((d.s_mutex_lock.isSome ∧ d.s_mutex_unlock.isSome) ∨ lock = none → d1 = d) := by
  have h1 : ¬ (d.s_mutex_lock ≠ none ∧ d.s_mutex_unlock ≠ none ∧
      (d.s_mutex_lock ≠ lock ∨ d.s_mutex_unlock ≠ unlock)) := by
    intro hc
    apply hacc
    right
    refine ⟨?_, ?_, hc.2.2⟩
    · cases hl : d.s_mutex_lock with
      | none => exact absurd hl hc.1
      | some _ => rfl
    · cases hl : d.s_mutex_unlock with
      | none => exact absurd hl hc.2.1
      | some _ => rfl
  have h2 : ¬ (lock.isSome ≠ unlock.isSome) := fun hc => hacc (Or.inl hc)
  have hcnt : ∀ x : Driver σ, count_send (UBX_LOCK_MUTEX x ++ UBX_UNLOCK_MUTEX x) = 0 ∧
      count_recv (UBX_LOCK_MUTEX x ++ UBX_UNLOCK_MUTEX x) = 0 := by
    intro x
    unfold UBX_LOCK_MUTEX UBX_UNLOCK_MUTEX count_send count_recv
    split <;> split <;> simp
  unfold ubx_m8_init_with_mutex
  rw [if_neg h1, if_neg h2]
  cases lock with
  | none =>
    cases unlock with
    | some b => simp at h2
    | none =>
      refine ⟨d, ?_, by simp, (hcnt _).1, (hcnt _).2, fun _ => rfl⟩
      simp [hinit]
  | some a =>
    cases unlock with
    | none => simp at h2
    | some b =>
      refine ⟨{ d with s_mutex_lock := some a, s_mutex_unlock := some b }, ?_, by simp,
        (hcnt _).1, (hcnt _).2, ?_⟩
      · simp [hinit]
      · intro hor
        rcases hor with hpair | hnone
        · have hsame : d.s_mutex_lock = some a ∧ d.s_mutex_unlock = some b := by
            by_contra hc
            apply hacc
            right
            refine ⟨hpair.1, hpair.2, ?_⟩
            by_contra hc2
            push_neg at hc2
            exact hc ⟨hc2.1, hc2.2⟩
          cases d
          simp only at hsame
          obtain ⟨ha, hb⟩ := hsame
          subst ha hb
          rfl
        · simp at hnone

theorem C16_reinit_witness :
    ∃ d1, ubx_m8_init_with_mutex example_driver [] 1 script_if none none
        = .ok (0, d1, [], UBX_LOCK_MUTEX d1 ++ UBX_UNLOCK_MUTEX d1) ∧ d1 = example_driver := by
  obtain ⟨d1, h1, _, _, _, h5⟩ := C16_reinit example_driver [] 1 script_if none none rfl
    (by decide)
  exact ⟨d1, h1, h5 (Or.inr rfl)⟩

/-- C16, as stated, fails: `example_driver` is initialized and has no lock pair; an init
call supplying the hooks 1 and 2 is accepted, returns 0, and afterwards the hooks are
installed, so the driver state has changed. -/
theorem C16_reinit_counterexample :
    example_driver.s_is_initialized = true ∧
    example_driver.s_mutex_lock = none ∧ example_driver.s_mutex_unlock = none ∧
    op_ret (ubx_m8_init_with_mutex example_driver [] 1 script_if (some 1) (some 2)) = some 0 ∧
    (op_driver (ubx_m8_init_with_mutex example_driver [] 1 script_if (some 1) (some 2))).map
      (fun d => (d.s_mutex_lock, d.s_mutex_unlock)) = some (some 1, some 2) ∧
    op_trace (ubx_m8_init_with_mutex example_driver [] 1 script_if (some 1) (some 2))
      = [Event.lock, Event.unlock] := by
  decide

/-- C17, evaluated on the code. Init is called on the pristine (Uninitialized) driver
with the hooks 1 and 2 and a transport that never answers, so the CFG-PRT round-trip
times out; and again with a transport that answers the CFG-PRT poll only, so the CFG-HNR
round-trip times out. Both calls return -1 and leave the driver Uninitialized, but the
`ubx_m8_deinit` they call returns at once (the driver is not initialized): the working
buffer, the GNSS record, the transport copy and the port configuration (in the second
case the HNR configuration too) stay allocated and the lock pair stays installed. -/
theorem C17_failed_init_not_torn_down :
    allocated (pristine_driver (List (Int × List Nat)))
      = [false, false, false, false, false, false, false, false] ∧
    op_ret (ubx_m8_init_with_mutex (pristine_driver _) [] UBX_M8_PORT_UART1 script_if
      (some 1) (some 2)) = some (-1) ∧
    (op_driver (ubx_m8_init_with_mutex (pristine_driver _) [] UBX_M8_PORT_UART1 script_if
      (some 1) (some 2))).map
        (fun d => (d.s_is_initialized, allocated d, d.s_mutex_lock, d.s_mutex_unlock))
      = some (false, [true, true, true, true, false, false, false, false], some 1, some 2) ∧
    op_ret (ubx_m8_init_with_mutex (pristine_driver _) [(28, example_cfg_prt_frame)]
      UBX_M8_PORT_UART1 script_if (some 1) (some 2)) = some (-1) ∧
    (op_driver (ubx_m8_init_with_mutex (pristine_driver _) [(28, example_cfg_prt_frame)]
      UBX_M8_PORT_UART1 script_if (some 1) (some 2))).map
        (fun d => (d.s_is_initialized, allocated d, d.s_mutex_lock, d.s_mutex_unlock))
      = some (false, [true, true, true, true, false, false, false, true], some 1, some 2) := by
  decide

/-- C18, evaluated on the code. The pristine driver is initialized successfully (hooks 1
and 2, the transport answers both configuration polls) and then deinitialized:
`ubx_m8_deinit` returns 0, the driver is Uninitialized, both hooks are cleared and the
working buffer, GNSS record, transport copy, port configuration and HNR-PVT / NAV-PVT
records are released, but the HNR configuration record is still allocated (with the
rate 10 read at init): `ubx_m8_deinit` has no release for `sp_ubx_cfg_hnr` nor for
`sp_ubx_ack_ack`, so the state is not the pristine one. -/
theorem C18_deinit_keeps_cfg_hnr :
    op_ret (ubx_m8_init_with_mutex (pristine_driver _)
      [(28, example_cfg_prt_frame), (12, example_cfg_hnr_frame)] UBX_M8_PORT_UART1 script_if
      (some 1) (some 2)) = some 0 ∧
    (op_driver (ubx_m8_init_with_mutex (pristine_driver _)
      [(28, example_cfg_prt_frame), (12, example_cfg_hnr_frame)] UBX_M8_PORT_UART1 script_if
      (some 1) (some 2))).map (fun d => (d.s_is_initialized, allocated d))
      = some (true, [true, true, true, true, false, false, false, true]) ∧
    (op_driver (ubx_m8_init_with_mutex (pristine_driver _)
      [(28, example_cfg_prt_frame), (12, example_cfg_hnr_frame)] UBX_M8_PORT_UART1 script_if
      (some 1) (some 2))).map (fun d => (ubx_m8_deinit d).1) = some 0 ∧
    (op_driver (ubx_m8_init_with_mutex (pristine_driver _)
      [(28, example_cfg_prt_frame), (12, example_cfg_hnr_frame)] UBX_M8_PORT_UART1 script_if
      (some 1) (some 2))).map
        (fun d => ((ubx_m8_deinit d).2.1.s_is_initialized, allocated (ubx_m8_deinit d).2.1,
          (ubx_m8_deinit d).2.1.s_mutex_lock, (ubx_m8_deinit d).2.1.s_mutex_unlock))
      = some (false, [false, false, false, false, false, false, false, true], none, none) ∧
    (op_driver (ubx_m8_init_with_mutex (pristine_driver _)
      [(28, example_cfg_prt_frame), (12, example_cfg_hnr_frame)] UBX_M8_PORT_UART1 script_if
      (some 1) (some 2))).map (fun d => (ubx_m8_deinit d).2.1.sp_ubx_cfg_hnr)
      = some (some [10, 0, 0, 0]) ∧
    (ubx_m8_deinit example_driver_acked).1 = 0 ∧
    allocated (ubx_m8_deinit example_driver_acked).2.1
      = [false, false, false, false, false, false, true, true] := by
  decide

theorem spec_frame_rd_payload (c i : Nat) (p : List Nat) (k : Nat) (hk : k < p.length) :
    rd (spec_frame c i p) (6 + k) = rd p k := by
  have h := rd_mid [0xB5, 0x62, c, i, p.length % 256, p.length / 256] p
    [(spec_checksum ([c, i, p.length % 256, p.length / 256] ++ p)).1,
     (spec_checksum ([c, i, p.length % 256, p.length / 256] ++ p)).2] k hk
  simpa [spec_frame] using h

/-- C14. Rate validation precedes any I/O. For every rate outside 1..30,
`ubx_m8_set_hnr_rate` returns -1 with no hook call at all (nothing sent, nothing
received) and leaves the globals, the cached HNR configuration included, unchanged. For
every rate in 1..30 on an initialized driver (configuration record, transport copy and
working buffer allocated) the rate is stored in `highNavRate` of the cached record and
the call makes exactly one `send`: the CFG-HNR frame (class 0x06, id 0x5C, 4-byte
payload) built from that record, whose first payload byte is the rate. -/
theorem C14_rate_validation {σ : Type} (d : Driver σ) (env : σ) (rate : Nat) :
    ((rate < 1 ∨ rate > 30) → ubx_m8_set_hnr_rate d env rate = .ok (-1, d, env, [])) ∧
    (1 ≤ rate → rate ≤ 30 → d.s_is_initialized = true →
      ∀ (c : List Nat) (ifc : ubx_if_t σ) (buf : List Nat),
        d.sp_ubx_cfg_hnr = some c → c.length = 4 → d.sp_ubx_if = some ifc →
        d.sp_buffer = some buf →
        ∃ ret d1 env1 ev,
          ubx_m8_set_hnr_rate d env rate = .ok (ret, d1, env1,
            UBX_LOCK_MUTEX d ++ (Event.send (spec_frame 0x06 0x5C (c.set 0 rate)) 12 :: ev)
              ++ UBX_UNLOCK_MUTEX d) ∧
          d1.sp_ubx_cfg_hnr = some (c.set 0 rate) ∧
          cfg_hnr_highNavRate (c.set 0 rate) = rate ∧
          count_send ev = 0 ∧
          rd (spec_frame 0x06 0x5C (c.set 0 rate)) 2 = 0x06 ∧
          rd (spec_frame 0x06 0x5C (c.set 0 rate)) 3 = 0x5C ∧
          u16_load (spec_frame 0x06 0x5C (c.set 0 rate)) 4 = 4 ∧
          rd (spec_frame 0x06 0x5C (c.set 0 rate)) 6 = rate) := by
  constructor
  · intro h
    unfold ubx_m8_set_hnr_rate
    by_cases hi : ¬ d.s_is_initialized = true
    · rw [if_pos hi]
    · rw [if_neg hi, if_pos h]
  · intro h1 h30 hinit c ifc buf hc hlen hif hbuf
    have hrate : ¬ (rate < 1 ∨ rate > 30) := by omega
    have hlen' : (c.set 0 rate).length = 4 := by simp [hlen]
    obtain ⟨res, ev, hres, htrace, hsend, _, _⟩ :=
      ubx_send_and_receive_outcome ifc env buf UBX_CFG_CLASS UBX_CFG_HNR
        (some (c.set 0 rate)) sizeof_ubx_cfg_hnr_t UBX_ACK_CLASS UBX_ACK_ACK
        d.sp_ubx_ack_ack sizeof_ubx_ack_ack_t
    have hframe : ubx_send_message_buf UBX_CFG_CLASS UBX_CFG_HNR (some (c.set 0 rate))
        sizeof_ubx_cfg_hnr_t = spec_frame 0x06 0x5C (c.set 0 rate) := by
      have := ubx_send_message_buf_eq 0x06 0x5C (c.set 0 rate) (by omega)
      rw [hlen'] at this
      exact this
    rw [hframe] at htrace
    have hrd0 : rd (c.set 0 rate) 0 = rate := by
      cases c with
      | nil => simp at hlen
      | cons x xs => simp [rd]
    refine ⟨res.ret, { d with sp_ubx_cfg_hnr := some (c.set 0 rate), sp_buffer := res.sp_buffer,
                              sp_ubx_ack_ack := res.response },
      res.env, ev, ?_, ?_, hrd0, hsend, ?_, ?_, ?_, ?_⟩
    · unfold ubx_m8_set_hnr_rate
      simp only [hinit, hrate, hc, hif, hbuf, hres, htrace, not_true_eq_false, if_false]
      rfl
    · rfl
    · simp [spec_frame, rd]
    · simp [spec_frame, rd]
    · simp [spec_frame, rd, u16_load, hlen]
    · have := spec_frame_rd_payload 0x06 0x5C (c.set 0 rate) 0 (by omega)
      simpa [hrd0] using this

theorem C14_rate_validation_witness :
    ubx_m8_set_hnr_rate example_driver [] 0 = .ok (-1, example_driver, [], []) ∧
    ubx_m8_set_hnr_rate example_driver [] 31 = .ok (-1, example_driver, [], []) ∧
    ∃ ret d1 env1 ev,
      ubx_m8_set_hnr_rate example_driver [(10, example_ack_frame)] 30 = .ok (ret, d1, env1,
        UBX_LOCK_MUTEX example_driver
          ++ (Event.send (spec_frame 0x06 0x5C ([0, 0, 0, 0].set 0 30)) 12 :: ev)
          ++ UBX_UNLOCK_MUTEX example_driver) ∧
      d1.sp_ubx_cfg_hnr = some ([0, 0, 0, 0].set 0 30) ∧
      rd (spec_frame 0x06 0x5C ([0, 0, 0, 0].set 0 30)) 6 = 30 := by
  refine ⟨(C14_rate_validation example_driver [] 0).1 (by decide),
    (C14_rate_validation example_driver [] 31).1 (by decide), ?_⟩
  obtain ⟨ret, d1, env1, ev, h1, h2, _, _, _, _, _, h8⟩ :=
    (C14_rate_validation example_driver [(10, example_ack_frame)] 30).2 (by decide)
      (by decide) rfl [0, 0, 0, 0] script_if (List.replicate UBX_M8_BUFFER_SIZE 0) rfl rfl rfl
      rfl
  exact ⟨ret, d1, env1, ev, h1, h2, h8⟩

/-- The store `outProtoMask = 0x01` into the image of a `ubx_cfg_prt_t`. -/
theorem cfg_prt_store_mask (c : List Nat) (hlen : c.length = 20) :
    (memcpy c 14 (u16_bytes 0x01) 2).length = 20 ∧
    cfg_prt_outProtoMask (memcpy c 14 (u16_bytes 0x01) 2) = 0x0001 ∧
    (∀ k, k ≠ 14 → k ≠ 15 → rd (memcpy c 14 (u16_bytes 0x01) 2) k = rd c k) := by
  have h14 : (c.take 14).length = 14 := by simp [hlen]
  have hm : memcpy c 14 (u16_bytes 0x01) 2 = c.take 14 ++ [1, 0] ++ c.drop 16 := by
    simp [memcpy, u16_bytes]
  refine ⟨?_, ?_, ?_⟩
  · rw [hm]; simp [hlen]
  · rw [hm]
    have e0 := rd_mid (c.take 14) [1, 0] (c.drop 16) 0 (by simp)
    have e1 := rd_mid (c.take 14) [1, 0] (c.drop 16) 1 (by simp)
    rw [h14] at e0 e1
    simp only [cfg_prt_outProtoMask, u16_load]
    simp only [Nat.add_zero, Nat.reduceAdd] at e0 e1 ⊢
    rw [e0, e1]
    simp [rd]
  · intro k hk14 hk15
    rw [hm]
    unfold rd
    by_cases hlt : k < 14
    · rw [List.append_assoc, List.getD_append _ _ _ _ (by omega)]
      simp only [List.getD_eq_getElem?_getD, List.getElem?_take]
      simp [hlt]
    · have hge : 16 ≤ k := by omega
      have hl : (c.take 14 ++ [1, 0]).length = 16 := by simp [hlen]
      rw [List.getD_append_right _ _ _ _ (by omega), hl]
      simp only [List.getD_eq_getElem?_getD, List.getElem?_drop]
      congr 2
      omega

/-- C19, as the code behaves. On an initialized driver (port configuration of 20 bytes in
the cache, transport copy and working buffer allocated) `ubx_m8_disable_nmea_output`
stores the constant 0x0001 in `outProtoMask` of the cached port configuration, whatever
the previous mask (only the UBX bit remains; every other field of the record is as it
was), and the single frame it sends is the CFG-PRT frame (class 0x06, id 0x00) built from
that record, which carries the mask 0x0001 at payload offset 14. -/
theorem C19_disable_nmea_sets_ubx_only {σ : Type} (d : Driver σ) (env : σ) (c : List Nat)
    (ifc : ubx_if_t σ) (buf : List Nat) (hinit : d.s_is_initialized = true)
    (hc : d.sp_ubx_cfg_prt = some c) (hlen : c.length = 20) (hif : d.sp_ubx_if = some ifc)
    (hbuf : d.sp_buffer = some buf) :
    ∃ ret d1 env1 ev,
      ubx_m8_disable_nmea_output d env = .ok (ret, d1, env1,
        UBX_LOCK_MUTEX d
          ++ (Event.send (spec_frame 0x06 0x00 (memcpy c 14 (u16_bytes 0x01) 2)) 28 :: ev)
          ++ UBX_UNLOCK_MUTEX d) ∧
      count_send ev = 0 ∧
      d1.sp_ubx_cfg_prt = some (memcpy c 14 (u16_bytes 0x01) 2) ∧
      cfg_prt_outProtoMask (memcpy c 14 (u16_bytes 0x01) 2) = 0x0001 ∧
      (∀ k, k ≠ 14 → k ≠ 15 → rd (memcpy c 14 (u16_bytes 0x01) 2) k = rd c k) ∧
      u16_load (spec_frame 0x06 0x00 (memcpy c 14 (u16_bytes 0x01) 2)) (6 + 14) = 0x0001 := by
  obtain ⟨hl, hmask, hrest⟩ := cfg_prt_store_mask c hlen
  obtain ⟨res, ev, hres, htrace, hsend, _, _⟩ :=
    ubx_send_and_receive_outcome ifc env buf UBX_CFG_CLASS UBX_CFG_PRT
      (some (memcpy c 14 (u16_bytes 0x01) 2)) sizeof_ubx_cfg_prt_t UBX_ACK_CLASS UBX_ACK_ACK
      (some (List.replicate sizeof_ubx_ack_ack_t 0)) sizeof_ubx_ack_ack_t
  have hframe : ubx_send_message_buf UBX_CFG_CLASS UBX_CFG_PRT
      (some (memcpy c 14 (u16_bytes 0x01) 2)) sizeof_ubx_cfg_prt_t
      = spec_frame 0x06 0x00 (memcpy c 14 (u16_bytes 0x01) 2) := by
    have := ubx_send_message_buf_eq 0x06 0x00 (memcpy c 14 (u16_bytes 0x01) 2) (by omega)
    rw [hl] at this
    exact this
  rw [hframe] at htrace
  have hload : u16_load (spec_frame 0x06 0x00 (memcpy c 14 (u16_bytes 0x01) 2)) (6 + 14)
      = 0x0001 := by
    have e0 := spec_frame_rd_payload 0x06 0x00 (memcpy c 14 (u16_bytes 0x01) 2) 14 (by omega)
    have e1 := spec_frame_rd_payload 0x06 0x00 (memcpy c 14 (u16_bytes 0x01) 2) 15 (by omega)
    simp only [cfg_prt_outProtoMask, u16_load] at hmask ⊢
    simp only [Nat.reduceAdd] at e0 e1 hmask ⊢
    rw [e0, e1]
    exact hmask
  have hnot : ¬ ¬ d.s_is_initialized = true := by simp [hinit]
  unfold ubx_m8_disable_nmea_output ubx_set_cfg_prt
  simp only [hnot, if_false, hc, hif, hbuf, ubx_ensure_allocated, hres, htrace]
  by_cases h0 : res.ret = 0
  · simp only [h0, if_true]
    cases hresp : res.response with
    | none =>
      exfalso
      rename_i hout
      rcases hout with ⟨_, b, len, hp, hr⟩ | ⟨hm1, _⟩
      · rw [hresp] at hr
        rcases ubx_parse_message_fail b len UBX_ACK_CLASS UBX_ACK_ACK
          (some (List.replicate sizeof_ubx_ack_ack_t 0)) sizeof_ubx_ack_ack_t with h | h
        · unfold ubx_parse_message at hr hp
          simp only [] at hr hp
          split_ifs at hr hp
          simp at hr
        · rw [h] at hp
          simp at hp
      · omega
    | some ack =>
      simp only []
      exact ⟨_, _, _, ev, rfl, hsend, rfl, hmask, hrest, hload⟩
  · simp only [h0, if_false]
    exact ⟨_, _, _, ev, rfl, hsend, rfl, hmask, hrest, hload⟩

theorem C19_disable_nmea_sets_ubx_only_witness :
    ∃ ret d1 env1 ev,
      ubx_m8_disable_nmea_output example_driver_nmea [(10, example_ack_frame)] =
        .ok (ret, d1, env1,
          UBX_LOCK_MUTEX example_driver_nmea
            ++ (Event.send (spec_frame 0x06 0x00
                (memcpy [1, 0, 0, 0, 0xC0, 8, 0, 0, 0x80, 0x25, 0, 0, 7, 0, 0x23, 0, 0, 0, 0, 0]
                  14 (u16_bytes 0x01) 2)) 28 :: ev)
            ++ UBX_UNLOCK_MUTEX example_driver_nmea) ∧
      d1.sp_ubx_cfg_prt =
        some (memcpy [1, 0, 0, 0, 0xC0, 8, 0, 0, 0x80, 0x25, 0, 0, 7, 0, 0x23, 0, 0, 0, 0, 0]
          14 (u16_bytes 0x01) 2) := by
  obtain ⟨ret, d1, env1, ev, h1, _, h3, _⟩ :=
    C19_disable_nmea_sets_ubx_only example_driver_nmea [(10, example_ack_frame)]
      [1, 0, 0, 0, 0xC0, 8, 0, 0, 0x80, 0x25, 0, 0, 7, 0, 0x23, 0, 0, 0, 0, 0] script_if
      (List.replicate UBX_M8_BUFFER_SIZE 0) rfl rfl rfl rfl rfl
  exact ⟨ret, d1, env1, ev, h1, h3⟩

/-- C19, as stated, fails: the cached output mask is 0x0023 (UBX, NMEA and RTCM3). Clearing
the NMEA bit 0x0002 would give 0x0021; after `ubx_m8_disable_nmea_output` the cached mask
is 0x0001 and the frame sent carries `01 00` at payload offset 14, so the RTCM3 bit has
been cleared as well. -/
theorem C19_disable_nmea_sets_ubx_only_counterexample :
    example_driver_nmea.sp_ubx_cfg_prt.map cfg_prt_outProtoMask = some 0x0023 ∧
    (0x0023 &&& 0xFFFD : Nat) = 0x0021 ∧
    (op_driver (ubx_m8_disable_nmea_output example_driver_nmea [(10, example_ack_frame)])).map
      (fun d => d.sp_ubx_cfg_prt.map cfg_prt_outProtoMask) = some (some 0x0001) ∧
    (op_trace (ubx_m8_disable_nmea_output example_driver_nmea [(10, example_ack_frame)])).head?
      = some (Event.send [0xB5, 0x62, 0x06, 0x00, 20, 0, 1, 0, 0, 0, 0xC0, 8, 0, 0, 0x80, 0x25,
          0, 0, 7, 0, 0x01, 0, 0, 0, 0, 0, 0x90, 0xA9] 28) := by
  decide

/-- On acceptance the validator copies `output_size` bytes from offset 6 into the
output object. -/
theorem ubx_parse_message_ok (b : List Nat) (len : Int) (ec ei : Nat)
    (out : Option (List Nat)) (rs : Nat)
    (h : (ubx_parse_message b len ec ei out rs).1 = 0) :
    (ubx_parse_message b len ec ei out rs).2 = out.map (fun o => memcpy o 0 (b.drop 6) rs) := by
  unfold ubx_parse_message at h ⊢
  simp only [] at h ⊢
  split_ifs at h ⊢ with h1 h2 h3 h4 h5 h6
  all_goals first
    | (exfalso; simp at h; done)
    | (have e : u16_load b 4 = rs := by
         by_contra hne
         exact h5 hne
       simp only [e])

theorem rd_payload_copy (b : List Nat) :
    rd (memcpy [0, 0] 0 (b.drop 6) 2) 0 = rd b 6 ∧ rd (memcpy [0, 0] 0 (b.drop 6) 2) 1 = rd b 7 := by
  simp only [memcpy, rd, List.take_zero, List.nil_append, Nat.zero_add, List.drop_succ_cons,
    List.drop_zero, List.append_nil, List.getD_eq_getElem?_getD, List.getElem?_take,
    List.getElem?_drop]
  simp

/-- C20. Acknowledgment matching. On an initialized driver (port configuration, transport
copy and working buffer allocated) `ubx_m8_disable_nmea_output` returns 0 or -1, and it
returns 0 if and only if the round-trip for the ACK-ACK frame (expected class 0x05, id
0x01, 2-byte payload) returns 0 and the two payload bytes it delivered are (0x06, 0x00).
A successful round-trip means that `ubx_parse_message` accepted a buffer `b` as such a
frame, and the delivered bytes are its payload `b[6], b[7]`; so an accepted ACK-ACK
naming another class or id yields -1. -/
theorem C20_ack_matching {σ : Type} (d : Driver σ) (env : σ) (c : List Nat)
    (ifc : ubx_if_t σ) (buf : List Nat) (hinit : d.s_is_initialized = true)
    (hc : d.sp_ubx_cfg_prt = some c) (hif : d.sp_ubx_if = some ifc)
    (hbuf : d.sp_buffer = some buf) :
    ∃ res, ubx_send_and_receive ifc env (some buf) UBX_CFG_CLASS UBX_CFG_PRT
        (some (memcpy c 14 (u16_bytes 0x01) 2)) 20 UBX_ACK_CLASS UBX_ACK_ACK (some [0, 0]) 2
        = .ok res ∧
      ∃ ret d1 tr, ubx_m8_disable_nmea_output d env = .ok (ret, d1, res.env, tr) ∧
        (ret = 0 ∨ ret = -1) ∧
        (ret = 0 ↔
          res.ret = 0 ∧ ∃ ack, res.response = some ack ∧ rd ack 0 = 0x06 ∧ rd ack 1 = 0x00) ∧
        (res.ret = 0 →
          ∃ b len ack, (ubx_parse_message b len 0x05 0x01 (some [0, 0]) 2).1 = 0 ∧
            res.response = some ack ∧ rd ack 0 = rd b 6 ∧ rd ack 1 = rd b 7) := by
  obtain ⟨res, ev, hres, _, _, _, hout⟩ :=
    ubx_send_and_receive_outcome ifc env buf UBX_CFG_CLASS UBX_CFG_PRT
      (some (memcpy c 14 (u16_bytes 0x01) 2)) 20 UBX_ACK_CLASS UBX_ACK_ACK (some [0, 0]) 2
  refine ⟨res, hres, ?_⟩
  have hvalid : res.ret = 0 →
      ∃ b len ack, (ubx_parse_message b len 0x05 0x01 (some [0, 0]) 2).1 = 0 ∧
        res.response = some ack ∧ rd ack 0 = rd b 6 ∧ rd ack 1 = rd b 7 := by
    intro h0
    rcases hout with ⟨_, b, len, hp, hr⟩ | ⟨hm1, _⟩
    · rw [ubx_parse_message_ok b len _ _ _ _ hp] at hr
      exact ⟨b, len, _, hp, hr, (rd_payload_copy b).1, (rd_payload_copy b).2⟩
    · omega
  have hnot : ¬ ¬ d.s_is_initialized = true := by simp [hinit]
  have hres' : ubx_send_and_receive ifc env (some buf) UBX_CFG_CLASS UBX_CFG_PRT
      (some (memcpy c 14 (u16_bytes 0x01) 2)) sizeof_ubx_cfg_prt_t UBX_ACK_CLASS UBX_ACK_ACK
      (some (List.replicate sizeof_ubx_ack_ack_t 0)) sizeof_ubx_ack_ack_t = .ok res := hres
  unfold ubx_m8_disable_nmea_output ubx_set_cfg_prt
  simp only [hnot, if_false, hc, hif, hbuf, ubx_ensure_allocated, hres']
  by_cases h0 : res.ret = 0
  · obtain ⟨b, len, ack, hp, hresp, ha0, ha1⟩ := hvalid h0
    simp only [h0, if_true, hresp]
    by_cases hm : ack_ack_class_id ack ≠ UBX_CFG_CLASS ∨ ack_ack_msg_id ack ≠ UBX_CFG_PRT
    · simp only [hm, if_true]
      refine ⟨_, _, _, rfl, Or.inr rfl, ?_, fun _ => ⟨b, len, ack, hp, rfl, ha0, ha1⟩⟩
      constructor
      · intro h; simp at h
      · rintro ⟨_, ack', hsome, h6, h00⟩
        exfalso
        simp only [Option.some.injEq] at hsome
        subst hsome
        rcases hm with hm | hm
        · exact hm h6
        · exact hm h00
    · simp only [hm, if_false]
      refine ⟨_, _, _, rfl, Or.inl rfl, ?_, fun _ => ⟨b, len, ack, hp, rfl, ha0, ha1⟩⟩
      constructor
      · intro _
        push_neg at hm
        exact ⟨trivial, ack, rfl, hm.1, hm.2⟩
      · intro _; rfl
  · have hm1 : res.ret = -1 := by
      rcases hout with ⟨h, _⟩ | ⟨h, _⟩
      · exact absurd h h0
      · exact h
    simp only [h0, if_false]
    refine ⟨_, _, _, rfl, Or.inr hm1, ?_, fun h => h.elim⟩
    constructor
    · intro h; exact absurd h h0
    · intro h; exact h.1.elim

theorem C20_ack_matching_witness :
    (∃ res, ubx_send_and_receive script_if [(10, example_ack_frame)]
        (some (List.replicate UBX_M8_BUFFER_SIZE 0)) UBX_CFG_CLASS UBX_CFG_PRT
        (some (memcpy (List.replicate 20 0) 14 (u16_bytes 0x01) 2)) 20 UBX_ACK_CLASS UBX_ACK_ACK
        (some [0, 0]) 2 = .ok res ∧
      ∃ ret d1 tr, ubx_m8_disable_nmea_output example_driver [(10, example_ack_frame)]
          = .ok (ret, d1, res.env, tr) ∧
        (ret = 0 ↔
          res.ret = 0 ∧ ∃ ack, res.response = some ack ∧ rd ack 0 = 0x06 ∧ rd ack 1 = 0x00)) ∧
    op_ret (ubx_m8_disable_nmea_output example_driver [(10, example_ack_frame)]) = some 0 ∧
    rx_ret (ubx_send_and_receive script_if
        [(10, ubx_send_message_buf UBX_ACK_CLASS UBX_ACK_ACK (some [0x06, 0x5C]) 2)]
        (some (List.replicate UBX_M8_BUFFER_SIZE 0)) UBX_CFG_CLASS UBX_CFG_PRT
        (some (memcpy (List.replicate 20 0) 14 (u16_bytes 0x01) 2)) 20 UBX_ACK_CLASS UBX_ACK_ACK
        (some [0, 0]) 2) = some 0 ∧
    op_ret (ubx_m8_disable_nmea_output example_driver
        [(10, ubx_send_message_buf UBX_ACK_CLASS UBX_ACK_ACK (some [0x06, 0x5C]) 2)])
      = some (-1) := by
  refine ⟨?_, by decide, by decide, by decide⟩
  obtain ⟨res, hres, ret, d1, tr, h1, _, h3, _⟩ :=
    C20_ack_matching example_driver [(10, example_ack_frame)] (List.replicate 20 0) script_if
      (List.replicate UBX_M8_BUFFER_SIZE 0) rfl rfl rfl rfl
  exact ⟨res, hres, ret, d1, tr, h1, h3⟩

/-! ## Passive decoder: verified properties -/

theorem match_bytes_header (b : List Nat) (i : Nat) (hin : i + 6 ≤ b.length)
    (h0 : rd b i = 0xB5) (h1 : rd b (i + 1) = 0x62) (h2 : rd b (i + 2) = 0x28)
    (h3 : rd b (i + 3) = 0x00) (h4 : rd b (i + 4) = 0x48) (h5 : rd b (i + 5) = 0x00) :
    match_bytes b i [0xB5, 0x62, 0x28, 0x00, 0x48, 0x00] = .ok true := by
  have l0 : i < b.length := by omega
  have l1 : i + 1 < b.length := by omega
  have l2 : i + 1 + 1 < b.length := by omega
  have l3 : i + 1 + 1 + 1 < b.length := by omega
  have l4 : i + 1 + 1 + 1 + 1 < b.length := by omega
  have l5 : i + 1 + 1 + 1 + 1 + 1 < b.length := by omega
  have e2 : i + 1 + 1 = i + 2 := by omega
  have e3 : i + 1 + 1 + 1 = i + 3 := by omega
  have e4 : i + 1 + 1 + 1 + 1 = i + 4 := by omega
  have e5 : i + 1 + 1 + 1 + 1 + 1 = i + 5 := by omega
  simp only [match_bytes, l0, l1, l2, l3, l4, l5, if_true, h0, h1, e2, e3, e4, e5, h2, h3,
    h4, h5]

/-- Within the `uint16_t` range the heading is the truncated quotient. -/
theorem heading_of_headVeh_in_range (h : Int) (h0 : 0 ≤ h) (h1 : h < 655360000) :
    (heading_of_headVeh h : Int) = h / 10000 := by
  unfold heading_of_headVeh
  rw [Int.tdiv_eq_ediv h0 (by norm_num)]
  omega

/-- C11. Update rule in the passive decoder. Let the working buffer of
`parse_ubx_hnr_pvt` hold at index `i` a complete frame (`i + 80 ≤ ring_buffer_len ≤ 800`)
with the HNR-PVT header `B5 62 28 00 48 00` and a checksum that the code accepts. Then the
loop body at `i` consumes it (the buffer length drops by 80) and the GNSS record
afterwards follows the rule, with the fields read from the frame's payload `m`:
the fix quality is `gnssFix`; if `gnssFix = 5` (TimeOnly) only the timestamp is changed
besides; if `gnssFix ≥ 1` and is not 5, longitude, latitude, altitude (`hMSL`), speed
(`gspeed / 1000` truncated toward zero), heading (`headVeh / 10000` truncated, in the
`uint16_t` range) and timestamp are all taken from the frame (and `num_satellites` is
set to 0); if `gnssFix = 0` none of these fields changes. `hdop` is never touched. -/
theorem C11_passive_update_rule {σ : Type} (mktime : tm → Int) (st : HnrDriver σ) (i : Nat)
    (g : ublox_m8u_gnss) (hg : st.ugnss_s = some g)
    (hcap : st.ring_buffer.length = RING_BUFFER_SIZE)
    (hlen : st.ring_buffer_len ≤ RING_BUFFER_SIZE) (hi : i + 80 ≤ st.ring_buffer_len)
    (h0 : rd st.ring_buffer i = 0xB5) (h1 : rd st.ring_buffer (i + 1) = 0x62)
    (h2 : rd st.ring_buffer (i + 2) = 0x28) (h3 : rd st.ring_buffer (i + 3) = 0x00)
    (h4 : rd st.ring_buffer (i + 4) = 0x48) (h5 : rd st.ring_buffer (i + 5) = 0x00)
    (hck : calculate_checksum (st.ring_buffer.drop i) 78 =
      ((rd st.ring_buffer (i + 78) <<< 8) ||| rd st.ring_buffer (i + 79)) % 65536) :
    ∃ st1 tr g1, parse_ubx_hnr_pvt_at mktime st i = .ok (st1, tr) ∧
      st1.ring_buffer_len = st.ring_buffer_len - 80 ∧ st1.ugnss_s = some g1 ∧
      g1.fix_quality = hnr_pvt_gnssFix ((st.ring_buffer.drop (i + 6)).take 68) ∧
      g1.hdop = g.hdop ∧
      (hnr_pvt_gnssFix ((st.ring_buffer.drop (i + 6)).take 68) = 5 →
        g1.timestamp = to_timestamp mktime
          (hnr_pvt_year ((st.ring_buffer.drop (i + 6)).take 68))
          (hnr_pvt_month ((st.ring_buffer.drop (i + 6)).take 68))
          (hnr_pvt_day ((st.ring_buffer.drop (i + 6)).take 68))
          (hnr_pvt_hour ((st.ring_buffer.drop (i + 6)).take 68))
          (hnr_pvt_min ((st.ring_buffer.drop (i + 6)).take 68))
          (hnr_pvt_sec ((st.ring_buffer.drop (i + 6)).take 68)) ∧
        g1.longitude = g.longitude ∧ g1.latitude = g.latitude ∧ g1.altitude = g.altitude ∧
        g1.speed = g.speed ∧ g1.heading = g.heading ∧
        g1.num_satellites = g.num_satellites) ∧
      (hnr_pvt_gnssFix ((st.ring_buffer.drop (i + 6)).take 68) ≥ 1 →
        hnr_pvt_gnssFix ((st.ring_buffer.drop (i + 6)).take 68) ≠ 5 →
        g1.longitude = hnr_pvt_lon ((st.ring_buffer.drop (i + 6)).take 68) ∧
        g1.latitude = hnr_pvt_lat ((st.ring_buffer.drop (i + 6)).take 68) ∧
        g1.altitude = hnr_pvt_hMSL ((st.ring_buffer.drop (i + 6)).take 68) ∧
        g1.speed = (hnr_pvt_gspeed ((st.ring_buffer.drop (i + 6)).take 68)).tdiv 1000 ∧
        g1.heading = heading_of_headVeh (hnr_pvt_headVeh ((st.ring_buffer.drop (i + 6)).take 68)) ∧
        (0 ≤ hnr_pvt_headVeh ((st.ring_buffer.drop (i + 6)).take 68) →
          hnr_pvt_headVeh ((st.ring_buffer.drop (i + 6)).take 68) < 655360000 →
          (g1.heading : Int) = hnr_pvt_headVeh ((st.ring_buffer.drop (i + 6)).take 68) / 10000) ∧
        g1.num_satellites = 0 ∧
        g1.timestamp = to_timestamp mktime
          (hnr_pvt_year ((st.ring_buffer.drop (i + 6)).take 68))
          (hnr_pvt_month ((st.ring_buffer.drop (i + 6)).take 68))
          (hnr_pvt_day ((st.ring_buffer.drop (i + 6)).take 68))
          (hnr_pvt_hour ((st.ring_buffer.drop (i + 6)).take 68))
          (hnr_pvt_min ((st.ring_buffer.drop (i + 6)).take 68))
          (hnr_pvt_sec ((st.ring_buffer.drop (i + 6)).take 68))) ∧
      (hnr_pvt_gnssFix ((st.ring_buffer.drop (i + 6)).take 68) = 0 →
        g1.longitude = g.longitude ∧ g1.latitude = g.latitude ∧ g1.altitude = g.altitude ∧
        g1.speed = g.speed ∧ g1.heading = g.heading ∧
        g1.num_satellites = g.num_satellites ∧ g1.timestamp = g.timestamp) := by
  unfold RING_BUFFER_SIZE at hcap hlen
  have hhdr := match_bytes_header st.ring_buffer i (by omega) h0 h1 h2 h3 h4 h5
  have hin : ¬ (i + 80 > st.ring_buffer.length) := by omega
  have hck' : ¬ (calculate_checksum (st.ring_buffer.drop i) (80 - 2) ≠
      ((rd st.ring_buffer (i + 78) <<< 8) ||| rd st.ring_buffer (i + 79)) % 65536) := by
    simpa using hck
  have hrem : ((((st.ring_buffer_len : Nat) : Int) - (i : Nat) - ((80 : Nat) : Int))
      % (SIZE_MODULUS : Nat)).toNat = st.ring_buffer_len - i - 80 := by
    unfold SIZE_MODULUS
    omega
  have hnew : ((((st.ring_buffer_len : Nat) : Int) - ((80 : Nat) : Int))
      % (SIZE_MODULUS : Nat)).toNat = st.ring_buffer_len - 80 := by
    unfold SIZE_MODULUS
    omega
  have hfit : ¬ (st.ring_buffer_len - i - 80 > 0 ∧
      i + 80 + (st.ring_buffer_len - i - 80) > st.ring_buffer.length) := by omega
  unfold parse_ubx_hnr_pvt_at
  simp only [hhdr, hin, if_false, hck', hg, hrem, hnew, hfit, sizeof_ubx_hnr_pvt]
  refine ⟨_, _, _, rfl, rfl, rfl, ?_, ?_, ?_, ?_, ?_⟩
  · unfold hnr_pvt_update
    simp only []
    split_ifs <;> rfl
  · unfold hnr_pvt_update
    simp only []
    split_ifs <;> rfl
  · intro h5fix
    have hupd : hnr_pvt_update mktime g ((st.ring_buffer.drop (i + 6)).take 68) =
        { g with fix_quality := 5,
                 timestamp := to_timestamp mktime
                   (hnr_pvt_year ((st.ring_buffer.drop (i + 6)).take 68))
                   (hnr_pvt_month ((st.ring_buffer.drop (i + 6)).take 68))
                   (hnr_pvt_day ((st.ring_buffer.drop (i + 6)).take 68))
                   (hnr_pvt_hour ((st.ring_buffer.drop (i + 6)).take 68))
                   (hnr_pvt_min ((st.ring_buffer.drop (i + 6)).take 68))
                   (hnr_pvt_sec ((st.ring_buffer.drop (i + 6)).take 68)) } := by
      unfold hnr_pvt_update
      simp only [h5fix, TIME_ONLY_FIX, if_true]
    rw [hupd]
    exact ⟨rfl, rfl, rfl, rfl, rfl, rfl, rfl⟩
  · intro hge hne
    have hupd : hnr_pvt_update mktime g ((st.ring_buffer.drop (i + 6)).take 68) =
        { g with fix_quality := hnr_pvt_gnssFix ((st.ring_buffer.drop (i + 6)).take 68),
                 longitude := hnr_pvt_lon ((st.ring_buffer.drop (i + 6)).take 68),
                 latitude := hnr_pvt_lat ((st.ring_buffer.drop (i + 6)).take 68),
                 altitude := hnr_pvt_hMSL ((st.ring_buffer.drop (i + 6)).take 68),
                 speed := (hnr_pvt_gspeed ((st.ring_buffer.drop (i + 6)).take 68)).tdiv 1000,
                 heading := heading_of_headVeh
                   (hnr_pvt_headVeh ((st.ring_buffer.drop (i + 6)).take 68)),
                 num_satellites := 0,
                 timestamp := to_timestamp mktime
                   (hnr_pvt_year ((st.ring_buffer.drop (i + 6)).take 68))
                   (hnr_pvt_month ((st.ring_buffer.drop (i + 6)).take 68))
                   (hnr_pvt_day ((st.ring_buffer.drop (i + 6)).take 68))
                   (hnr_pvt_hour ((st.ring_buffer.drop (i + 6)).take 68))
                   (hnr_pvt_min ((st.ring_buffer.drop (i + 6)).take 68))
                   (hnr_pvt_sec ((st.ring_buffer.drop (i + 6)).take 68)) } := by
      unfold hnr_pvt_update
      simp only [TIME_ONLY_FIX, hne, if_false, hge, if_true]
    rw [hupd]
    exact ⟨rfl, rfl, rfl, rfl, rfl,
      fun hh0 hh1 => heading_of_headVeh_in_range _ hh0 hh1, rfl, rfl⟩
  · intro hz
    have hupd : hnr_pvt_update mktime g ((st.ring_buffer.drop (i + 6)).take 68) =
        { g with fix_quality := 0 } := by
      unfold hnr_pvt_update
      simp [hz, TIME_ONLY_FIX]
    rw [hupd]
    exact ⟨rfl, rfl, rfl, rfl, rfl, rfl, rfl⟩

theorem C11_passive_update_rule_witness :
    (∃ st1 tr g1,
      parse_ubx_hnr_pvt_at example_mktime (example_hnr_driver example_time_only_frame) 0
        = .ok (st1, tr) ∧
      st1.ring_buffer_len = 160 - 80 ∧ st1.ugnss_s = some g1 ∧
      g1.fix_quality = 5 ∧ g1.timestamp = 9 ∧ g1.longitude = 70 ∧ g1.latitude = 80 ∧
      g1.altitude = 90 ∧ g1.speed = 10 ∧ g1.heading = 11 ∧ g1.num_satellites = 4) ∧
    hnr_gnss (parse_ubx_hnr_pvt example_mktime (example_hnr_driver (example_fix_frame 3))) =
      some { longitude := 16909060, latitude := 5, fix_quality := 3, num_satellites := 0,
             hdop := 13, altitude := 6000, speed := 7, heading := 8, timestamp := 9 } ∧
    hnr_gnss (parse_ubx_hnr_pvt example_mktime (example_hnr_driver (example_fix_frame 0))) =
      some { longitude := 70, latitude := 80, fix_quality := 0, num_satellites := 4,
             hdop := 13, altitude := 90, speed := 10, heading := 11, timestamp := 12 } := by
  refine ⟨?_, by decide, by decide⟩
  obtain ⟨st1, tr, g1, h1, h2, h3, h4, _, h6, _⟩ :=
    C11_passive_update_rule example_mktime (example_hnr_driver example_time_only_frame) 0
      { longitude := 70, latitude := 80, fix_quality := 3, num_satellites := 4,
        hdop := 13, altitude := 90, speed := 10, heading := 11, timestamp := 12 }
      rfl (by decide) (by decide) (by decide) (by decide) (by decide) (by decide) (by decide)
      (by decide) (by decide) (by decide)
  have hfix : hnr_pvt_gnssFix (((example_hnr_driver example_time_only_frame).ring_buffer.drop
      (0 + 6)).take 68) = 5 := by decide
  obtain ⟨t, a, b, c, d, e, f⟩ := h6 hfix
  refine ⟨st1, tr, g1, h1, h2, h3, ?_, ?_, a, b, c, d, e, f⟩
  · rw [h4, hfix]
  · rw [t]
    decide

/-! ## Bounds of `memcpy` -/

/-- A copy that stays inside both arrays keeps the size of the destination and writes the
cells `off .. off + n`. -/
theorem memcpy_in_bounds (dst : List Nat) (off : Nat) (src : List Nat) (n : Nat)
    (hsrc : n ≤ src.length) (hdst : off + n ≤ dst.length) :
    (memcpy dst off src n).length = dst.length ∧
    (memcpy dst off src n).take (off + n) = dst.take off ++ src.take n := by
  have h1 : (dst.take off).length = off := by simp; omega
  have h2 : (src.take n).length = n := by simp; omega
  constructor
  · simp only [memcpy, List.length_append, h1, h2, List.length_drop]
    omega
  · have hl : (dst.take off ++ src.take n).length = off + n := by simp [h1, h2]
    unfold memcpy
    rw [← hl, List.take_left']
    rfl

/-! ## Passive reassembler: verified properties -/

/-- C21. Passive-mode overflow policy: for every working buffer of capacity 800 holding
`L ≤ 800` bytes and every received chunk of `n` bytes with `0 < n ≤ 256`, the append
step of `process_received_data` succeeds and leaves a buffer length of at most 800. If
`L + n > 800` the prior content is dropped and the buffer consists of exactly the chunk
(length `n`); otherwise it is the old content followed by the chunk (length `L + n`). -/
theorem C21_overflow_policy {σ : Type} (st : HnrDriver σ) (receive_buffer : List Nat) (n : Nat)
    (hcap : st.ring_buffer.length = RING_BUFFER_SIZE) (hL : st.ring_buffer_len ≤ RING_BUFFER_SIZE)
    (hrb : receive_buffer.length = UBLOX_RECEIVE_BUFFER_SIZE) (hn0 : 0 < n)
    (hn : n ≤ UBLOX_RECEIVE_BUFFER_SIZE) :
    ∃ st1, process_received_data_append st receive_buffer (n : Int) = .ok st1 ∧
      st1.ring_buffer_len ≤ RING_BUFFER_SIZE ∧ st1.ring_buffer.length = RING_BUFFER_SIZE ∧
      (st.ring_buffer_len + n > RING_BUFFER_SIZE →
        st1.ring_buffer_len = n ∧
        st1.ring_buffer.take st1.ring_buffer_len = receive_buffer.take n) ∧
      (st.ring_buffer_len + n ≤ RING_BUFFER_SIZE →
        st1.ring_buffer_len = st.ring_buffer_len + n ∧
        st1.ring_buffer.take st1.ring_buffer_len
          = st.ring_buffer.take st.ring_buffer_len ++ receive_buffer.take n) := by
  unfold RING_BUFFER_SIZE at hcap hL ⊢
  unfold UBLOX_RECEIVE_BUFFER_SIZE at hrb hn
  have htn : ((n : Nat) : Int).toNat = n := by omega
  unfold process_received_data_append
  simp only [htn, RING_BUFFER_SIZE, SIZE_MODULUS]
  by_cases hov : st.ring_buffer_len + n > 800
  · have h1 : ((((st.ring_buffer_len : Nat) : Int) + ((n : Nat) : Int))
        % ((4294967296 : Nat) : Int)).toNat > 800 := by omega
    have h2 : ¬ (n > receive_buffer.length ∨ 0 + n > st.ring_buffer.length) := by omega
    have h3 : ((((0 : Nat) : Int) + ((n : Nat) : Int)) % ((4294967296 : Nat) : Int)).toNat = n := by
      omega
    rw [if_pos h1, if_neg h2, h3]
    obtain ⟨hlen, htake⟩ := memcpy_in_bounds st.ring_buffer 0 receive_buffer n (by omega)
      (by omega)
    refine ⟨_, rfl, ?_, ?_, fun _ => ⟨rfl, ?_⟩, fun h => ?_⟩
    · dsimp only
      omega
    · dsimp only
      rw [hlen, hcap]
    · dsimp only
      simpa using htake
    · omega
  · have h1 : ¬ ((((st.ring_buffer_len : Nat) : Int) + ((n : Nat) : Int))
        % ((4294967296 : Nat) : Int)).toNat > 800 := by omega
    have h2 : ¬ (n > receive_buffer.length ∨
        st.ring_buffer_len + n > st.ring_buffer.length) := by omega
    have h3 : ((((st.ring_buffer_len : Nat) : Int) + ((n : Nat) : Int))
        % ((4294967296 : Nat) : Int)).toNat = st.ring_buffer_len + n := by omega
    rw [if_neg h1, if_neg h2, h3]
    obtain ⟨hlen, htake⟩ := memcpy_in_bounds st.ring_buffer st.ring_buffer_len receive_buffer n
      (by omega) (by omega)
    refine ⟨_, rfl, ?_, ?_, fun h => absurd h hov, fun _ => ⟨rfl, htake⟩⟩
    · dsimp only
      omega
    · dsimp only
      rw [hlen, hcap]

theorem C21_overflow_policy_witness :
    ∃ st1, process_received_data_append
        (example_hnr_two_frames (example_fix_frame 3) (example_fix_frame 4))
        (List.replicate 256 7) ((200 : Nat) : Int) = .ok st1 ∧
      st1.ring_buffer_len = 160 + 200 ∧
      st1.ring_buffer.take st1.ring_buffer_len
        = (example_hnr_two_frames (example_fix_frame 3) (example_fix_frame 4)).ring_buffer.take 160
            ++ (List.replicate 256 7).take 200 := by
  obtain ⟨st1, h1, _, _, _, h5⟩ := C21_overflow_policy
    (example_hnr_two_frames (example_fix_frame 3) (example_fix_frame 4))
    (List.replicate 256 7) 200 (by decide) (by decide) (by decide) (by decide) (by decide)
  exact ⟨st1, h1, h5 (by decide)⟩

/-! ## Record cache: verified properties -/

/-- C22. The GNSS cache is mutated only by successful decodes. On an initialized driver
(transport copy, working buffer and GNSS record allocated) `ubx_m8_get_gnss_data` returns a
record `g1`; if the round-trip inside `ubx_get_hnr_pvt` fails (return code other than 0:
send failure, timeout, or only frames that fail validation), `g1` is the record `g` the
cache held before the call, field for field. A returned record that differs from `g`
implies that the round-trip returned 0, which only happens after `ubx_parse_message`
accepted a buffer as an HNR-PVT frame (class 0x28, id 0x00, 72-byte payload). -/
theorem C22_cache_only_on_success {σ : Type} (mktime : tm → Int) (d : Driver σ) (env : σ)
    (ifc : ubx_if_t σ) (g : ubx_m8_gnss_t) (buf : List Nat)
    (hinit : d.s_is_initialized = true) (hif : d.sp_ubx_if = some ifc)
    (hg : d.sp_ubx_gnss = some g) (hbuf : d.sp_buffer = some buf) :
    ∃ res, ubx_send_and_receive ifc env (some buf) UBX_HNR_CLASS UBX_HNR_PVT none 0
        UBX_HNR_CLASS UBX_HNR_PVT (some (List.replicate 72 0)) 72 = .ok res ∧
      ∃ g1 d1 tr, ubx_m8_get_gnss_data mktime d env = .ok (some g1, d1, res.env, tr) ∧
        d1.sp_ubx_gnss = some g1 ∧
        (res.ret ≠ 0 → g1 = g) ∧
        (g1 ≠ g → res.ret = 0 ∧
          ∃ b len, (ubx_parse_message b len 0x28 0x00 (some (List.replicate 72 0)) 72).1 = 0) := by
  obtain ⟨res, ev, hres, _, _, _, hout⟩ :=
    ubx_send_and_receive_outcome ifc env buf UBX_HNR_CLASS UBX_HNR_PVT none 0
      UBX_HNR_CLASS UBX_HNR_PVT (some (List.replicate 72 0)) 72
  refine ⟨res, hres, ?_⟩
  have hnot : ¬ ¬ d.s_is_initialized = true := by simp [hinit]
  unfold ubx_m8_get_gnss_data ubx_get_hnr_pvt
  simp only [hnot, if_false, hif, hbuf, ubx_ensure_allocated, sizeof_ubx_hnr_pvt_t, hres]
  by_cases h0 : res.ret = 0
  · rcases hout with ⟨_, b, len, hp, hr⟩ | ⟨hm1, _⟩
    · rw [ubx_parse_message_ok b len _ _ _ _ hp] at hr
      simp only [Option.map_some'] at hr
      simp only [h0, if_true, hg, hr]
      exact ⟨_, _, _, rfl, rfl, fun h => absurd rfl h, fun _ => ⟨trivial, b, len, hp⟩⟩
    · omega
  · simp only [h0, if_false, hg]
    exact ⟨g, _, _, rfl, rfl, fun _ => rfl, fun h => absurd rfl h⟩

theorem C22_cache_only_on_success_witness :
    ∃ res, ubx_send_and_receive script_if [(11, 0xB5 :: example_ack_frame)]
        (some (List.replicate UBX_M8_BUFFER_SIZE 0)) UBX_HNR_CLASS UBX_HNR_PVT none 0
        UBX_HNR_CLASS UBX_HNR_PVT (some (List.replicate 72 0)) 72 = .ok res ∧
      ∃ g1 d1 tr, ubx_m8_get_gnss_data example_mktime example_driver
          [(11, 0xB5 :: example_ack_frame)] = .ok (some g1, d1, res.env, tr) ∧
        (res.ret ≠ 0 →
          g1 = { longitude := 70, latitude := 80, fix_quality := 3, num_satellites := 0,
                 altitude := 90, speed := 10, heading := 11, timestamp := 12 }) := by
  obtain ⟨res, hres, g1, d1, tr, h1, _, h3, _⟩ :=
    C22_cache_only_on_success example_mktime example_driver [(11, 0xB5 :: example_ack_frame)]
      script_if _ (List.replicate UBX_M8_BUFFER_SIZE 0) rfl rfl rfl rfl
  exact ⟨res, hres, g1, d1, tr, h1, h3⟩

/-! ## Request correlator: bounds of the working buffer -/

theorem recv_buffer_size_eq (total_bytes : Nat) (h : total_bytes ≤ UBX_M8_BUFFER_SIZE) :
    recv_buffer_size total_bytes = min 128 (UBX_M8_BUFFER_SIZE - total_bytes) := by
  unfold recv_buffer_size
  unfold UBX_M8_BUFFER_SIZE at h ⊢
  split_ifs <;> omega

/-- A match of `memchr(b, c, n)` lies among the first `n` cells of `b`. -/
theorem memchr_lt (b : List Nat) (c : Nat) :
    ∀ (n k : Nat), memchr b c n = some k → k < n ∧ k < b.length := by
  induction b with
  | nil =>
    intro n k h
    cases n <;> simp [memchr] at h
  | cons x xs ih =>
    intro n k h
    cases n with
    | zero => simp [memchr] at h
    | succ n =>
      unfold memchr at h
      by_cases hx : x = c
      · simp only [hx, if_true, Option.some.injEq] at h
        subst h
        simp
      · simp only [hx, if_false, Option.map_eq_some'] at h
        obtain ⟨j, hj, hk⟩ := h
        obtain ⟨h1, h2⟩ := ih n j hj
        subst hk
        simp
        omega

/-- The receive half of a pass keeps the working buffer at its size and the byte count
within it, for a transport that returns at most the requested maximum and hands back a
buffer of the size it was given. -/
theorem poll_receive_bound {σ : Type} (ifc : ubx_if_t σ)
    (hret : ∀ s n, (ifc.recv s (List.replicate n 0) n).1 ≤ (n : Int))
    (hsame : ∀ s n, (ifc.recv s (List.replicate n 0) n).2.1.length = n)
    (st : PollState σ) (hsz : st.sp_buffer.length = UBX_M8_BUFFER_SIZE)
    (htot : st.total_bytes ≤ UBX_M8_BUFFER_SIZE) :
    (poll_receive ifc st).sp_buffer.length = UBX_M8_BUFFER_SIZE ∧
    (poll_receive ifc st).total_bytes ≤ UBX_M8_BUFFER_SIZE ∧
    ((ifc.recv st.env (List.replicate (recv_buffer_size st.total_bytes) 0)
        (recv_buffer_size st.total_bytes)).1 > 0 ∧ recv_buffer_size st.total_bytes ≠ 0 →
      (ifc.recv st.env (List.replicate (recv_buffer_size st.total_bytes) 0)
          (recv_buffer_size st.total_bytes)).1.toNat
        ≤ (ifc.recv st.env (List.replicate (recv_buffer_size st.total_bytes) 0)
          (recv_buffer_size st.total_bytes)).2.1.length ∧
      st.total_bytes + (ifc.recv st.env (List.replicate (recv_buffer_size st.total_bytes) 0)
          (recv_buffer_size st.total_bytes)).1.toNat ≤ st.sp_buffer.length) := by
  have hbs := recv_buffer_size_eq st.total_bytes htot
  have hr := hret st.env (recv_buffer_size st.total_bytes)
  have hl := hsame st.env (recv_buffer_size st.total_bytes)
  have hcopy : (ifc.recv st.env (List.replicate (recv_buffer_size st.total_bytes) 0)
        (recv_buffer_size st.total_bytes)).1.toNat
        ≤ (ifc.recv st.env (List.replicate (recv_buffer_size st.total_bytes) 0)
          (recv_buffer_size st.total_bytes)).2.1.length ∧
      st.total_bytes + (ifc.recv st.env (List.replicate (recv_buffer_size st.total_bytes) 0)
          (recv_buffer_size st.total_bytes)).1.toNat ≤ st.sp_buffer.length := by
    rw [hl, hsz]
    unfold UBX_M8_BUFFER_SIZE at hbs htot ⊢
    omega
  unfold poll_receive
  simp only []
  split
  · refine ⟨?_, ?_, fun _ => hcopy⟩
    · dsimp only
      rw [(memcpy_in_bounds _ _ _ _ hcopy.1 hcopy.2).1, hsz]
    · dsimp only
      rw [← hsz]
      exact hcopy.2
  · exact ⟨hsz, htot, fun _ => hcopy⟩

/-- The scan half of a pass: the header search, the validated span and the shift stay
inside the working buffer, which keeps its size. -/
theorem poll_scan_bound {σ : Type} (ifc : ubx_if_t σ) (ec ei rs : Nat) (st : PollState σ)
    (hsz : st.sp_buffer.length = UBX_M8_BUFFER_SIZE)
    (htot : st.total_bytes ≤ UBX_M8_BUFFER_SIZE) :
    (poll_scan ifc ec ei rs st).2.sp_buffer.length = UBX_M8_BUFFER_SIZE ∧
    (poll_scan ifc ec ei rs st).2.total_bytes ≤ UBX_M8_BUFFER_SIZE ∧
    (∀ j, memchr st.sp_buffer UBX_HEADER_0 st.total_bytes = some j →
      j < st.total_bytes ∧ st.total_bytes - j ≤ (st.sp_buffer.drop j).length ∧
      0 + (st.total_bytes - j) ≤ st.sp_buffer.length) := by
  have hspan : ∀ j, memchr st.sp_buffer UBX_HEADER_0 st.total_bytes = some j →
      j < st.total_bytes ∧ st.total_bytes - j ≤ (st.sp_buffer.drop j).length ∧
      0 + (st.total_bytes - j) ≤ st.sp_buffer.length := by
    intro j hj
    obtain ⟨h1, h2⟩ := memchr_lt _ _ _ _ hj
    rw [List.length_drop, hsz]
    omega
  refine ⟨?_, ?_, hspan⟩
  · unfold poll_scan
    cases hm : memchr st.sp_buffer UBX_HEADER_0 st.total_bytes with
    | none => exact hsz
    | some k =>
      obtain ⟨_, h2, h3⟩ := hspan k hm
      have hlen := (memcpy_in_bounds st.sp_buffer 0 (st.sp_buffer.drop k)
        (st.total_bytes - k) h2 h3).1
      simp only []
      split_ifs <;> first
        | exact hsz
        | (dsimp only; rw [hlen, hsz])
  · unfold poll_scan
    cases hm : memchr st.sp_buffer UBX_HEADER_0 st.total_bytes with
    | none => simp
    | some k =>
      simp only []
      split_ifs <;> first
        | exact htot
        | (dsimp only; omega)

theorem poll_body_bound {σ : Type} (ifc : ubx_if_t σ)
    (hret : ∀ s n, (ifc.recv s (List.replicate n 0) n).1 ≤ (n : Int))
    (hsame : ∀ s n, (ifc.recv s (List.replicate n 0) n).2.1.length = n)
    (ec ei rs : Nat) (st : PollState σ) (hsz : st.sp_buffer.length = UBX_M8_BUFFER_SIZE)
    (htot : st.total_bytes ≤ UBX_M8_BUFFER_SIZE) :
    (poll_body ifc ec ei rs st).2.sp_buffer.length = UBX_M8_BUFFER_SIZE ∧
    (poll_body ifc ec ei rs st).2.total_bytes ≤ UBX_M8_BUFFER_SIZE := by
  obtain ⟨h1, h2, _⟩ := poll_receive_bound ifc hret hsame st hsz htot
  obtain ⟨h3, h4, _⟩ := poll_scan_bound ifc ec ei rs (poll_receive ifc st) h1 h2
  exact ⟨h3, h4⟩

theorem poll_iterate_bound {σ : Type} (ifc : ubx_if_t σ)
    (hret : ∀ s n, (ifc.recv s (List.replicate n 0) n).1 ≤ (n : Int))
    (hsame : ∀ s n, (ifc.recv s (List.replicate n 0) n).2.1.length = n)
    (ec ei rs : Nat) :
    ∀ (k : Nat) (st : PollState σ), st.sp_buffer.length = UBX_M8_BUFFER_SIZE →
      st.total_bytes ≤ UBX_M8_BUFFER_SIZE →
      (poll_iterate ifc ec ei rs k st).sp_buffer.length = UBX_M8_BUFFER_SIZE ∧
      (poll_iterate ifc ec ei rs k st).total_bytes ≤ UBX_M8_BUFFER_SIZE := by
  intro k
  induction k with
  | zero => intro st hsz htot; exact ⟨hsz, htot⟩
  | succ k ih =>
    intro st hsz htot
    obtain ⟨h1, h2⟩ := poll_body_bound ifc hret hsame ec ei rs st hsz htot
    exact ih _ h1 h2

/-- The working buffer that the loop leaves behind is the one of some pass. -/
theorem poll_loop_final_buffer {σ : Type} (ifc : ubx_if_t σ) (ec ei rs : Nat) :
    ∀ (fuel : Nat) (st : PollState σ) (res : RxResult σ),
      poll_loop ifc ec ei rs fuel st = .ok res →
        ∃ k, res.sp_buffer = some (poll_iterate ifc ec ei rs k st).sp_buffer := by
  intro fuel
  induction fuel with
  | zero => intro st res h; simp [poll_loop] at h
  | succ fuel ih =>
    intro st res h
    unfold poll_loop at h
    by_cases ht : st.time_elapsed < DEFAULT_TIMEOUT
    · rw [if_pos ht] at h
      by_cases hb : (poll_body ifc ec ei rs st).1 = true
      · simp only [hb, if_true, Except.ok.injEq] at h
        subst h
        exact ⟨1, rfl⟩
      · have hb' : (poll_body ifc ec ei rs st).1 = false := by simpa using hb
        simp only [hb', Bool.false_eq_true, if_false] at h
        obtain ⟨k, hk⟩ := ih _ res h
        exact ⟨k + 1, hk⟩
    · rw [if_neg ht] at h
      simp only [Except.ok.injEq] at h
      subst h
      exact ⟨0, rfl⟩

theorem stream_if_ret (s : List Nat) (n : Nat) :
    (stream_if.recv s (List.replicate n 0) n).1 ≤ (n : Int) := by
  simp only [stream_if, List.length_take]
  omega

theorem stream_if_same (s : List Nat) (n : Nat) :
    (stream_if.recv s (List.replicate n 0) n).2.1.length = n := by
  simp only [stream_if]
  rw [(memcpy_in_bounds (List.replicate n 0) 0 (s.take n) (s.take n).length (le_refl _)
    (by simp [List.length_take])).1]
  simp

/-- C25. Synchronous-mode buffer bound. Let the transport never return more than the
requested maximum from `recv` (and hand back a buffer of the size it was given), and let
the polling loop of `ubx_send_and_receive` start on a working buffer of
`UBX_M8_BUFFER_SIZE` = 1024 bytes with `total_bytes = 0`. Then at every pass `k` of the
loop: `total_bytes ≤ 1024`; the `recv` of the pass requests exactly
`min(128, 1024 - total_bytes)` bytes; when received bytes are copied, they are read inside
the temporary buffer and written inside the working buffer; the header search covers
`total_bytes ≤ 1024` cells; and for a header found at offset `j`, the validated span and
the shifted span of `total_bytes - j` bytes lie inside the working buffer. The buffer
keeps its 1024 bytes, also in the result of every call. -/
theorem C25_sync_buffer_bound {σ : Type} (ifc : ubx_if_t σ)
    (hret : ∀ s n, (ifc.recv s (List.replicate n 0) n).1 ≤ (n : Int))
    (hsame : ∀ s n, (ifc.recv s (List.replicate n 0) n).2.1.length = n)
    (ec ei rs : Nat) (st0 : PollState σ)
    (hsz : st0.sp_buffer.length = UBX_M8_BUFFER_SIZE) (htot : st0.total_bytes = 0) :
    (∀ k : Nat,
      (poll_iterate ifc ec ei rs k st0).total_bytes ≤ UBX_M8_BUFFER_SIZE ∧
      (poll_iterate ifc ec ei rs k st0).sp_buffer.length = UBX_M8_BUFFER_SIZE ∧
      recv_buffer_size (poll_iterate ifc ec ei rs k st0).total_bytes
        = min 128 (UBX_M8_BUFFER_SIZE - (poll_iterate ifc ec ei rs k st0).total_bytes) ∧
      ((ifc.recv (poll_iterate ifc ec ei rs k st0).env
            (List.replicate (recv_buffer_size (poll_iterate ifc ec ei rs k st0).total_bytes) 0)
            (recv_buffer_size (poll_iterate ifc ec ei rs k st0).total_bytes)).1 > 0 ∧
          recv_buffer_size (poll_iterate ifc ec ei rs k st0).total_bytes ≠ 0 →
        (ifc.recv (poll_iterate ifc ec ei rs k st0).env
            (List.replicate (recv_buffer_size (poll_iterate ifc ec ei rs k st0).total_bytes) 0)
            (recv_buffer_size (poll_iterate ifc ec ei rs k st0).total_bytes)).1.toNat
          ≤ (ifc.recv (poll_iterate ifc ec ei rs k st0).env
            (List.replicate (recv_buffer_size (poll_iterate ifc ec ei rs k st0).total_bytes) 0)
            (recv_buffer_size (poll_iterate ifc ec ei rs k st0).total_bytes)).2.1.length ∧
        (poll_iterate ifc ec ei rs k st0).total_bytes
          + (ifc.recv (poll_iterate ifc ec ei rs k st0).env
            (List.replicate (recv_buffer_size (poll_iterate ifc ec ei rs k st0).total_bytes) 0)
            (recv_buffer_size (poll_iterate ifc ec ei rs k st0).total_bytes)).1.toNat
          ≤ (poll_iterate ifc ec ei rs k st0).sp_buffer.length) ∧
      (poll_receive ifc (poll_iterate ifc ec ei rs k st0)).total_bytes
        ≤ (poll_receive ifc (poll_iterate ifc ec ei rs k st0)).sp_buffer.length ∧
      (poll_receive ifc (poll_iterate ifc ec ei rs k st0)).sp_buffer.length
        = UBX_M8_BUFFER_SIZE ∧
      (∀ j, memchr (poll_receive ifc (poll_iterate ifc ec ei rs k st0)).sp_buffer UBX_HEADER_0
            (poll_receive ifc (poll_iterate ifc ec ei rs k st0)).total_bytes = some j →
        j < (poll_receive ifc (poll_iterate ifc ec ei rs k st0)).total_bytes ∧
        (poll_receive ifc (poll_iterate ifc ec ei rs k st0)).total_bytes - j
          ≤ ((poll_receive ifc (poll_iterate ifc ec ei rs k st0)).sp_buffer.drop j).length ∧
        0 + ((poll_receive ifc (poll_iterate ifc ec ei rs k st0)).total_bytes - j)
          ≤ (poll_receive ifc (poll_iterate ifc ec ei rs k st0)).sp_buffer.length)) ∧
    (∀ (s : σ) (class_id msg_id : Nat) (payload : Option (List Nat)) (payload_size : Nat)
        (response : Option (List Nat)) (res : RxResult σ),
      ubx_send_and_receive ifc s (some st0.sp_buffer) class_id msg_id payload payload_size
          ec ei response rs = .ok res →
        ∃ b, res.sp_buffer = some b ∧ b.length = UBX_M8_BUFFER_SIZE) := by
  have htot' : st0.total_bytes ≤ UBX_M8_BUFFER_SIZE := by rw [htot]; exact Nat.zero_le _
  constructor
  · intro k
    obtain ⟨h1, h2⟩ := poll_iterate_bound ifc hret hsame ec ei rs k st0 hsz htot'
    obtain ⟨h3, h4, h5⟩ := poll_receive_bound ifc hret hsame _ h1 h2
    obtain ⟨_, _, h8⟩ := poll_scan_bound ifc ec ei rs _ h3 h4
    refine ⟨h2, h1, recv_buffer_size_eq _ h2, h5, ?_, h3, h8⟩
    rw [h3]
    exact h4
  · intro s class_id msg_id payload payload_size response res hres
    unfold ubx_send_and_receive at hres
    by_cases hs : (ubx_send_message ifc s class_id msg_id payload payload_size).1 ≠ 0
    · rw [if_pos hs] at hres
      simp only [Except.ok.injEq] at hres
      subst hres
      exact ⟨_, rfl, hsz⟩
    · rw [if_neg hs] at hres
      obtain ⟨k, hk⟩ := poll_loop_final_buffer ifc ec ei rs _ _ res hres
      refine ⟨_, hk, ?_⟩
      exact (poll_iterate_bound ifc hret hsame ec ei rs k
        { env := (ubx_send_message ifc s class_id msg_id payload payload_size).2.1,
          response := response, sp_buffer := st0.sp_buffer, total_bytes := 0,
          time_elapsed := 0,
          trace := (ubx_send_message ifc s class_id msg_id payload payload_size).2.2 }
        hsz (Nat.zero_le _)).1

theorem C25_sync_buffer_bound_witness :
    example_stream_state.sp_buffer.length = UBX_M8_BUFFER_SIZE ∧
    example_stream_state.total_bytes = 0 ∧
    (poll_iterate stream_if UBX_ACK_CLASS UBX_ACK_ACK 2 10 example_stream_state).total_bytes
      ≤ UBX_M8_BUFFER_SIZE ∧
    recv_buffer_size
        (poll_iterate stream_if UBX_ACK_CLASS UBX_ACK_ACK 2 10 example_stream_state).total_bytes
      = min 128 (UBX_M8_BUFFER_SIZE
        - (poll_iterate stream_if UBX_ACK_CLASS UBX_ACK_ACK 2 10
            example_stream_state).total_bytes) :=
  ⟨by simp [example_stream_state, UBX_M8_BUFFER_SIZE], rfl,
   ((C25_sync_buffer_bound stream_if stream_if_ret stream_if_same UBX_ACK_CLASS UBX_ACK_ACK 2
      example_stream_state (by simp [example_stream_state, UBX_M8_BUFFER_SIZE]) rfl).1 10).1,
   ((C25_sync_buffer_bound stream_if stream_if_ret stream_if_same UBX_ACK_CLASS UBX_ACK_ACK 2
      example_stream_state (by simp [example_stream_state, UBX_M8_BUFFER_SIZE]) rfl).1
      10).2.2.1⟩

/-! ## Lemmas on the hook calls of `ubx_m8_init_with_mutex` -/

/-- A call of `ubx_send_and_receive` on an allocated working buffer has a result, and the
buffer pointer is still set afterwards. -/
theorem ubx_send_and_receive_total {σ : Type} (ifc : ubx_if_t σ) (s : σ)
    (sp_buffer : List Nat) (class_id msg_id : Nat) (payload : Option (List Nat))
    (payload_size : Nat) (ec ei : Nat) (response : Option (List Nat)) (rs : Nat) :
    ∃ res b, ubx_send_and_receive ifc s (some sp_buffer) class_id msg_id payload payload_size
        ec ei response rs = .ok res ∧ res.sp_buffer = some b := by
  obtain ⟨res, _, hres, _⟩ := ubx_send_and_receive_outcome ifc s sp_buffer class_id msg_id
    payload payload_size ec ei response rs
  refine ⟨res, ?_⟩
  have hres2 := hres
  unfold ubx_send_and_receive at hres2
  by_cases hs : (ubx_send_message ifc s class_id msg_id payload payload_size).1 ≠ 0
  · rw [if_pos hs] at hres2
    simp only [Except.ok.injEq] at hres2
    subst hres2
    exact ⟨_, hres, rfl⟩
  · rw [if_neg hs] at hres2
    obtain ⟨k, hk⟩ := poll_loop_final_buffer ifc ec ei rs _ _ res hres2
    exact ⟨_, hres, hk⟩

/-- The function `ubx_get_cfg_prt` on a driver with transport and working buffer has a
result; its hook calls begin with those of `UBX_LOCK_MUTEX`, and transport and working
buffer are still set afterwards. -/
theorem ubx_get_cfg_prt_total {σ : Type} (d : Driver σ) (env : σ) (ifc : ubx_if_t σ)
    (buf : List Nat) (hif : d.sp_ubx_if = some ifc) (hbuf : d.sp_buffer = some buf) :
    ∃ res rest b, ubx_get_cfg_prt d env = .ok res ∧ res.2.2.2 = UBX_LOCK_MUTEX d ++ rest ∧
      res.2.1.sp_ubx_if = some ifc ∧ res.2.1.sp_buffer = some b := by
  obtain ⟨r, b, hr, hb⟩ := ubx_send_and_receive_total ifc env buf UBX_CFG_CLASS UBX_CFG_PRT
    none 0 UBX_CFG_CLASS UBX_CFG_PRT (ubx_ensure_allocated d.sp_ubx_cfg_prt sizeof_ubx_cfg_prt_t)
    sizeof_ubx_cfg_prt_t
  unfold ubx_get_cfg_prt
  simp only [hif, hbuf, hr]
  exact ⟨_, _, b, rfl, List.append_assoc _ _ _, rfl, hb⟩

/-- The function `ubx_get_cfg_hnr` on a driver with transport and working buffer has a
result. -/
theorem ubx_get_cfg_hnr_total {σ : Type} (d : Driver σ) (env : σ) (ifc : ubx_if_t σ)
    (buf : List Nat) (hif : d.sp_ubx_if = some ifc) (hbuf : d.sp_buffer = some buf) :
    ∃ res, ubx_get_cfg_hnr d env = .ok res := by
  obtain ⟨r, b, hr, hb⟩ := ubx_send_and_receive_total ifc env buf UBX_CFG_CLASS UBX_CFG_HNR
    none 0 UBX_CFG_CLASS UBX_CFG_HNR (ubx_ensure_allocated d.sp_ubx_cfg_hnr sizeof_ubx_cfg_hnr_t)
    sizeof_ubx_cfg_hnr_t
  unfold ubx_get_cfg_hnr
  simp only [hif, hbuf, hr]
  exact ⟨_, rfl⟩

/-! ## Claims on the passive scan and the lock hooks, evaluated on the code -/

/-- C23, evaluated on the code. The working buffer holds two complete, checksum-valid
HNR-PVT frames back to back (the first with `gnssFix = 3`, the second with `gnssFix = 4`),
160 bytes buffered. `parse_ubx_hnr_pvt` returns with 80 bytes still buffered: it has
decoded and removed the first frame only. The cache shows the first frame
(`fix_quality = 3`), and the second frame, complete and valid, is left at the head of the
buffer: after the compaction moves it to index 0 the loop still increments `i` to 1 and
the bound `ring_buffer_len - 80` is 0. The same happens when the two frames arrive in one
chunk through `process_received_data` on the freshly initialized driver. -/
theorem C23_second_frame_left_behind :
    accepts (example_fix_frame 3) UBX_HNR_CLASS UBX_HNR_PVT 72 ∧
    accepts (example_fix_frame 4) UBX_HNR_CLASS UBX_HNR_PVT 72 ∧
    (example_fix_frame 3).length = 80 ∧ (example_fix_frame 4).length = 80 ∧
    hnr_pvt_gnssFix ((example_fix_frame 4).drop 6) = 4 ∧
    (example_hnr_two_frames (example_fix_frame 3) (example_fix_frame 4)).ring_buffer.take 160
      = example_fix_frame 3 ++ example_fix_frame 4 ∧
    (example_hnr_two_frames (example_fix_frame 3) (example_fix_frame 4)).ring_buffer_len = 160 ∧
    hnr_fault (parse_ubx_hnr_pvt example_mktime
      (example_hnr_two_frames (example_fix_frame 3) (example_fix_frame 4))) = none ∧
    hnr_len (parse_ubx_hnr_pvt example_mktime
      (example_hnr_two_frames (example_fix_frame 3) (example_fix_frame 4))) = some 80 ∧
    (hnr_gnss (parse_ubx_hnr_pvt example_mktime
      (example_hnr_two_frames (example_fix_frame 3) (example_fix_frame 4)))).map
        (fun g => g.fix_quality) = some 3 ∧
    (hnr_buffer (parse_ubx_hnr_pvt example_mktime
      (example_hnr_two_frames (example_fix_frame 3) (example_fix_frame 4)))).map
        (fun b => b.take 80) = some (example_fix_frame 4) ∧
    (prd_globals (process_received_data example_mktime example_hnr_fresh
      [(160, example_fix_frame 3 ++ example_fix_frame 4)])).map
        (fun x => (x.1, x.2.1.map (fun g => g.fix_quality), x.2.2.1.take 80, x.2.2.2))
      = some (0, some 3, example_fix_frame 4, 80) := by
  decide

/-- A header comparison whose first cell differs from the first expected byte is false
without reading further. -/
theorem match_bytes_first_differs (b : List Nat) (i e : Nat) (es : List Nat)
    (hi : i < b.length) (h : rd b i ≠ e) : match_bytes b i (e :: es) = .ok false := by
  simp only [match_bytes, hi, if_true, h, if_false]

/-- A header comparison that starts outside the array is an out-of-bounds read. -/
theorem match_bytes_outside (b : List Nat) (i e : Nat) (es : List Nat)
    (hi : b.length ≤ i) : match_bytes b i (e :: es) = .error Fault.out_of_bounds := by
  have hn : ¬ i < b.length := Nat.not_lt.mpr hi
  simp only [match_bytes, hn, if_false]

/-- With fewer than 80 bytes buffered the (wrapped) loop bound of `parse_ubx_hnr_pvt`
admits every index up to the array size. -/
theorem short_buffer_guard (len i : Nat) (hlen : len < 80) (hi : i ≤ RING_BUFFER_SIZE) :
    (i : Int) ≤ ((len : Int) - 80) % SIZE_MODULUS := by
  simp only [RING_BUFFER_SIZE] at hi
  simp only [SIZE_MODULUS]
  push_cast
  omega

/-- With fewer than 80 bytes buffered and no byte 0xB5 anywhere in the array, the loop of
`parse_ubx_hnr_pvt` started at `i` walks to the end of the array and reads the cell behind
it. -/
theorem parse_ubx_hnr_pvt_loop_short {σ : Type} (mktime : tm → Int) (st : HnrDriver σ)
    (hsz : st.ring_buffer.length = RING_BUFFER_SIZE) (hlen : st.ring_buffer_len < 80)
    (hno : ∀ j, j < st.ring_buffer.length → rd st.ring_buffer j ≠ 0xB5) :
    ∀ (n i fuel : Nat) (tr : List Event), i + n = st.ring_buffer.length → n < fuel →
      parse_ubx_hnr_pvt_loop mktime fuel st i tr = .error Fault.out_of_bounds := by
  intro n
  induction n with
  | zero =>
    intro i fuel tr hi hf
    obtain ⟨f, rfl⟩ : ∃ f, fuel = f + 1 := ⟨fuel - 1, by omega⟩
    have hg := short_buffer_guard st.ring_buffer_len i hlen (by omega)
    have hm : parse_ubx_hnr_pvt_at mktime st i = .error Fault.out_of_bounds := by
      unfold parse_ubx_hnr_pvt_at
      rw [match_bytes_outside _ _ _ _ (by omega)]
    rw [parse_ubx_hnr_pvt_loop, if_pos hg, hm]
  | succ n ih =>
    intro i fuel tr hi hf
    obtain ⟨f, rfl⟩ : ∃ f, fuel = f + 1 := ⟨fuel - 1, by omega⟩
    have hg := short_buffer_guard st.ring_buffer_len i hlen (by omega)
    have hm : parse_ubx_hnr_pvt_at mktime st i = .ok (st, []) := by
      unfold parse_ubx_hnr_pvt_at
      rw [match_bytes_first_differs _ _ _ _ (by omega) (hno i (by omega))]
    have hmod : (i + 1) % SIZE_MODULUS = i + 1 := by
      simp only [RING_BUFFER_SIZE] at hsz
      simp only [SIZE_MODULUS]
      omega
    rw [parse_ubx_hnr_pvt_loop, if_pos hg, hm]
    dsimp only
    rw [hmod]
    exact ih (i + 1) f (tr ++ []) (by omega) (by omega)

/-- Every byte of an array after `memcpy` was in the array before or is in the source. -/
theorem memcpy_mem (dst : List Nat) (off : Nat) (src : List Nat) (n x : Nat)
    (h : x ∈ memcpy dst off src n) : x ∈ dst ∨ x ∈ src := by
  unfold memcpy at h
  rcases List.mem_append.mp h with h1 | h1
  · rcases List.mem_append.mp h1 with h2 | h2
    · exact Or.inl (List.mem_of_mem_take h2)
    · exact Or.inr (List.mem_of_mem_take h2)
  · exact Or.inl (List.mem_of_mem_drop h1)

/-- With fewer than 80 bytes buffered and no byte 0xB5 in the array, `parse_ubx_hnr_pvt`
ends in a read outside the array. -/
theorem parse_ubx_hnr_pvt_short {σ : Type} (mktime : tm → Int) (st : HnrDriver σ)
    (hsz : st.ring_buffer.length = RING_BUFFER_SIZE) (hlen : st.ring_buffer_len < 80)
    (hno : ∀ x ∈ st.ring_buffer, x ≠ 0xB5) :
    parse_ubx_hnr_pvt mktime st = .error Fault.out_of_bounds := by
  have hno2 : ∀ j, j < st.ring_buffer.length → rd st.ring_buffer j ≠ 0xB5 := by
    intro j hj
    have hmem : rd st.ring_buffer j ∈ st.ring_buffer := by
      unfold rd
      rw [List.getD_eq_getElem _ _ hj]
      exact List.getElem_mem hj
    exact hno _ hmem
  unfold parse_ubx_hnr_pvt
  exact parse_ubx_hnr_pvt_loop_short mktime st hsz hlen hno2 st.ring_buffer.length 0 _ []
    (by omega) (by omega)

/-- A call of `process_received_data` that receives `n > 0` bytes and has fewer than 80
bytes buffered afterwards, with no byte 0xB5 in the array nor in the receive buffer, ends
in a read outside the array. -/
theorem process_received_data_short {σ : Type} (mktime : tm → Int) (st : HnrDriver σ) (env : σ)
    (recv : σ → List Nat → Nat → Int × List Nat × σ) (n : Nat)
    (hrecv : st.uart_interface_s.recv = some recv)
    (hsz : st.ring_buffer.length = RING_BUFFER_SIZE)
    (hno : ∀ x ∈ st.ring_buffer, x ≠ 0xB5)
    (hret : (recv env (List.replicate UBLOX_RECEIVE_BUFFER_SIZE 0)
      UBLOX_RECEIVE_BUFFER_SIZE).1 = (n : Int))
    (hn : 0 < n) (hshort : st.ring_buffer_len + n < 80)
    (hrb : n ≤ (recv env (List.replicate UBLOX_RECEIVE_BUFFER_SIZE 0)
      UBLOX_RECEIVE_BUFFER_SIZE).2.1.length)
    (hnorb : ∀ x ∈ (recv env (List.replicate UBLOX_RECEIVE_BUFFER_SIZE 0)
      UBLOX_RECEIVE_BUFFER_SIZE).2.1, x ≠ 0xB5) :
    process_received_data mktime st env = .error Fault.out_of_bounds := by
  unfold process_received_data
  rw [hrecv]
  dsimp only
  rw [hret]
  have hpos : ¬ ((n : Nat) : Int) ≤ 0 := by omega
  rw [if_neg hpos]
  unfold process_received_data_append
  have htn : ((n : Nat) : Int).toNat = n := by omega
  simp only [RING_BUFFER_SIZE] at hsz
  have h1 : ¬ ((((st.ring_buffer_len : Nat) : Int) + ((n : Nat) : Int))
      % ((SIZE_MODULUS : Nat) : Int)).toNat > RING_BUFFER_SIZE := by
    simp only [SIZE_MODULUS, RING_BUFFER_SIZE]
    omega
  have h3 : ((((st.ring_buffer_len : Nat) : Int) + ((n : Nat) : Int))
      % ((SIZE_MODULUS : Nat) : Int)).toNat = st.ring_buffer_len + n := by
    simp only [SIZE_MODULUS]
    omega
  simp only [htn]
  rw [if_neg h1]
  have h2 : ¬ (n > (recv env (List.replicate UBLOX_RECEIVE_BUFFER_SIZE 0)
      UBLOX_RECEIVE_BUFFER_SIZE).2.1.length ∨
      st.ring_buffer_len + n > st.ring_buffer.length) := by omega
  rw [if_neg h2, h3]
  dsimp only
  rw [parse_ubx_hnr_pvt_short mktime _ ?_ ?_ ?_]
  · dsimp only
    rw [(memcpy_in_bounds _ _ _ _ hrb (by omega)).1]
    simp only [RING_BUFFER_SIZE]
    exact hsz
  · exact hshort
  · intro x hx
    rcases memcpy_mem _ _ _ _ _ hx with h | h
    · exact hno x h
    · exact hnorb x h

/-- C24, on the code. Let the 800-byte array hold fewer than 80 buffered bytes when
`parse_ubx_hnr_pvt` runs, and no byte 0xB5 anywhere (for instance the zeroed array of the
freshly initialized driver with a few received bytes). The loop bound
`ring_buffer_len - 80` is computed in `size_t` and wraps, so the loop condition holds at
every index up to 800: the scan does not stop at the buffered bytes, it walks the whole
array and then reads `ring_buffer[800]`, outside the array; the call ends in that
out-of-bounds read. So does every call of `process_received_data` that receives `n > 0`
bytes free of 0xB5 and has fewer than 80 bytes buffered after the append. -/
theorem C24_short_buffer_scanned_past_end {σ : Type} (mktime : tm → Int) (st : HnrDriver σ)
    (hsz : st.ring_buffer.length = RING_BUFFER_SIZE) (hlen : st.ring_buffer_len < 80)
    (hno : ∀ x ∈ st.ring_buffer, x ≠ 0xB5) :
    (∀ i : Nat, i ≤ RING_BUFFER_SIZE →
      (i : Int) ≤ ((st.ring_buffer_len : Int) - 80) % SIZE_MODULUS) ∧
    (∀ i : Nat, i < RING_BUFFER_SIZE → parse_ubx_hnr_pvt_at mktime st i = .ok (st, [])) ∧
    parse_ubx_hnr_pvt_at mktime st RING_BUFFER_SIZE = .error Fault.out_of_bounds ∧
    parse_ubx_hnr_pvt mktime st = .error Fault.out_of_bounds ∧
    (∀ (env : σ) (recv : σ → List Nat → Nat → Int × List Nat × σ) (n : Nat),
      st.uart_interface_s.recv = some recv →
      (recv env (List.replicate UBLOX_RECEIVE_BUFFER_SIZE 0) UBLOX_RECEIVE_BUFFER_SIZE).1
        = (n : Int) →
      0 < n → st.ring_buffer_len + n < 80 →
      n ≤ (recv env (List.replicate UBLOX_RECEIVE_BUFFER_SIZE 0)
        UBLOX_RECEIVE_BUFFER_SIZE).2.1.length →
      (∀ x ∈ (recv env (List.replicate UBLOX_RECEIVE_BUFFER_SIZE 0)
        UBLOX_RECEIVE_BUFFER_SIZE).2.1, x ≠ 0xB5) →
      process_received_data mktime st env = .error Fault.out_of_bounds) := by
  have hno2 : ∀ j, j < st.ring_buffer.length → rd st.ring_buffer j ≠ 0xB5 := by
    intro j hj
    have hmem : rd st.ring_buffer j ∈ st.ring_buffer := by
      unfold rd
      rw [List.getD_eq_getElem _ _ hj]
      exact List.getElem_mem hj
    exact hno _ hmem
  refine ⟨fun i hi => short_buffer_guard _ i hlen hi, ?_, ?_,
    parse_ubx_hnr_pvt_short mktime st hsz hlen hno, ?_⟩
  · intro i hi
    unfold parse_ubx_hnr_pvt_at
    rw [match_bytes_first_differs _ _ _ _ (by omega) (hno2 i (by omega))]
  · unfold parse_ubx_hnr_pvt_at
    rw [match_bytes_outside _ _ _ _ (by omega)]
  · intro env recv n hrecv hret hn hshort hrb hnorb
    exact process_received_data_short mktime st env recv n hrecv hsz hno hret hn hshort hrb
      hnorb

theorem C24_short_buffer_scanned_past_end_witness :
    example_hnr_short.ring_buffer.length = RING_BUFFER_SIZE ∧
    example_hnr_short.ring_buffer_len = 10 ∧
    ((10 : Nat) : Int) ≤ ((example_hnr_short.ring_buffer_len : Int) - 80) % SIZE_MODULUS ∧
    parse_ubx_hnr_pvt example_mktime example_hnr_short = .error Fault.out_of_bounds ∧
    process_received_data example_mktime example_hnr_short
      [(10, [1, 2, 3, 4, 5, 6, 7, 8, 9, 10])] = .error Fault.out_of_bounds :=
  ⟨by decide, by decide,
   (C24_short_buffer_scanned_past_end example_mktime example_hnr_short (by decide) (by decide)
      (fun x hx => by rw [List.eq_of_mem_replicate hx]; decide)).1 10 (by decide),
   (C24_short_buffer_scanned_past_end example_mktime example_hnr_short (by decide) (by decide)
      (fun x hx => by rw [List.eq_of_mem_replicate hx]; decide)).2.2.2.1,
   (C24_short_buffer_scanned_past_end example_mktime example_hnr_short (by decide) (by decide)
      (fun x hx => by rw [List.eq_of_mem_replicate hx]; decide)).2.2.2.2
      [(10, [1, 2, 3, 4, 5, 6, 7, 8, 9, 10])] script_if.recv 10 rfl (by decide) (by decide)
      (by decide) (by decide) (by decide)⟩

/-- C26, on the code. For every transport and environment, `ubx_m8_init_with_mutex` on the
pristine driver with a lock pair returns, and its hook calls begin with `lock`, `lock`:
init takes the lock and then calls `ubx_get_cfg_prt`, which takes it again while it is
held. With a transport that answers both configuration polls the calls of the two hooks
are lock, lock, unlock, lock, unlock, unlock (return 0); with a transport that never
answers they are lock, lock, unlock, unlock (return -1). On an initialized driver with a
lock pair installed, deinit, re-init, get_gnss_data, disable_nmea_output and set_hnr_rate
each make exactly the calls lock, unlock. -/
theorem C26_init_locks_while_held {σ : Type} (ifc : ubx_if_t σ) (env : σ) (port l u : Nat) :
    (∃ res rest,
      ubx_m8_init_with_mutex (pristine_driver σ) env port ifc (some l) (some u) = .ok res ∧
      res.2.2.2 = Event.lock :: Event.lock :: rest) ∧
    op_ret (ubx_m8_init_with_mutex (pristine_driver _)
      [(28, example_cfg_prt_frame), (12, example_cfg_hnr_frame)] UBX_M8_PORT_UART1 script_if
      (some 1) (some 2)) = some 0 ∧
    lock_calls (op_trace (ubx_m8_init_with_mutex (pristine_driver _)
      [(28, example_cfg_prt_frame), (12, example_cfg_hnr_frame)] UBX_M8_PORT_UART1 script_if
      (some 1) (some 2)))
      = [Event.lock, Event.lock, Event.unlock, Event.lock, Event.unlock, Event.unlock] ∧
    op_ret (ubx_m8_init_with_mutex (pristine_driver _) [] UBX_M8_PORT_UART1 script_if
      (some 1) (some 2)) = some (-1) ∧
    lock_calls (op_trace (ubx_m8_init_with_mutex (pristine_driver _) [] UBX_M8_PORT_UART1
      script_if (some 1) (some 2)))
      = [Event.lock, Event.lock, Event.unlock, Event.unlock] ∧
    lock_calls (ubx_m8_deinit example_driver_locked).2.2 = [Event.lock, Event.unlock] ∧
    lock_calls (op_trace (ubx_m8_init_with_mutex example_driver_locked [] UBX_M8_PORT_UART1
      script_if (some 1) (some 2))) = [Event.lock, Event.unlock] ∧
    lock_calls (gnss_trace (ubx_m8_get_gnss_data example_mktime example_driver_locked
      [(80, example_fix_frame 3)])) = [Event.lock, Event.unlock] ∧
    lock_calls (gnss_trace (ubx_m8_get_gnss_data example_mktime example_driver_locked []))
      = [Event.lock, Event.unlock] ∧
    lock_calls (op_trace (ubx_m8_disable_nmea_output example_driver_locked
      [(10, example_ack_frame)])) = [Event.lock, Event.unlock] ∧
    lock_calls (op_trace (ubx_m8_set_hnr_rate example_driver_locked
      [(10, example_ack_frame)] 10)) = [Event.lock, Event.unlock] := by
  refine ⟨?_, by decide, by decide, by decide, by decide, by decide, by decide, by decide,
    by decide, by decide, by decide⟩
  unfold ubx_m8_init_with_mutex
  simp only [pristine_driver, ne_eq, not_true_eq_false, false_and, if_false, Option.isSome_some,
    reduceCtorEq, not_false_eq_true, and_self, if_true, UBX_LOCK_MUTEX, Bool.false_eq_true]
  obtain ⟨res1, rest1, b1, h1, ht1, hif1, hb1⟩ := ubx_get_cfg_prt_total
    { s_is_initialized := false, sp_buffer := ubx_ensure_allocated none UBX_M8_BUFFER_SIZE,
      sp_ubx_gnss := some gnss_zero, sp_ubx_if := some ifc, s_mutex_lock := some l,
      s_mutex_unlock := some u, s_ubx_m8_port := port, sp_ubx_cfg_prt := none,
      sp_ubx_hnr_pvt := none, sp_ubx_nav_pvt := none, sp_ubx_ack_ack := none,
      sp_ubx_cfg_hnr := none } env ifc (List.replicate UBX_M8_BUFFER_SIZE 0) rfl rfl
  obtain ⟨r1, d1, env1, tr1⟩ := res1
  simp only [UBX_LOCK_MUTEX, Option.isSome_some, if_true] at ht1
  dsimp only at ht1 hif1 hb1
  obtain ⟨res2, h2⟩ := ubx_get_cfg_hnr_total d1 env1 ifc b1 hif1 hb1
  obtain ⟨r2, d2, env2, tr2⟩ := res2
  rw [h1]
  dsimp only
  rw [h2, ht1]
  dsimp only
  split_ifs <;>
  · simp only [List.append_assoc, List.singleton_append, List.cons_append]
    exact ⟨_, _, rfl, rfl⟩

/-! ## Request correlator: timeout when nothing is validated -/

/-- After a successful `send`, `ubx_send_and_receive` is its polling loop started in
`poll_entry`. -/
theorem ubx_send_and_receive_polls {σ : Type} (ifc : ubx_if_t σ) (s : σ) (sp_buffer : List Nat)
    (class_id msg_id : Nat) (payload : Option (List Nat)) (payload_size : Nat)
    (ec ei : Nat) (response : Option (List Nat)) (rs : Nat)
    (hsend : 0 ≤ (ifc.send s (ubx_send_message_buf class_id msg_id payload payload_size)
      (8 + payload_size)).1) :
    ubx_send_and_receive ifc s (some sp_buffer) class_id msg_id payload payload_size
        ec ei response rs
      = poll_loop ifc ec ei rs (DEFAULT_TIMEOUT + 1)
          (poll_entry ifc s sp_buffer class_id msg_id payload payload_size response) := by
  have hs : ¬ (ifc.send s (ubx_send_message_buf class_id msg_id payload payload_size)
      (8 + payload_size)).1 < 0 := by omega
  unfold ubx_send_and_receive poll_entry ubx_send_message
  simp only [hs, if_false, ne_eq, not_true_eq_false]

/-- The polling loop returns 0 only from a pass whose body validated a frame, and that
pass starts before the timeout. -/
theorem poll_loop_ret_zero {σ : Type} (ifc : ubx_if_t σ) (ec ei rs : Nat) :
    ∀ (fuel : Nat) (st : PollState σ) (res : RxResult σ),
      poll_loop ifc ec ei rs fuel st = .ok res → res.ret = 0 →
        ∃ k, st.time_elapsed + 10 * k < DEFAULT_TIMEOUT ∧
          (poll_body ifc ec ei rs (poll_iterate ifc ec ei rs k st)).1 = true := by
  intro fuel
  induction fuel with
  | zero => intro st res h; simp [poll_loop] at h
  | succ fuel ih =>
    intro st res h h0
    unfold poll_loop at h
    by_cases ht : st.time_elapsed < DEFAULT_TIMEOUT
    · rw [if_pos ht] at h
      by_cases hb : (poll_body ifc ec ei rs st).1 = true
      · exact ⟨0, by omega, hb⟩
      · have hb' : (poll_body ifc ec ei rs st).1 = false := by simpa using hb
        simp only [hb', Bool.false_eq_true, if_false] at h
        obtain ⟨k, hk, hv⟩ := ih _ res h h0
        rw [((poll_body_trace ifc ec ei rs st).2 hb').2] at hk
        exact ⟨k + 1, by omega, hv⟩
    · rw [if_neg ht] at h
      simp only [Except.ok.injEq] at h
      subst h
      simp at h0

/-- A search for a byte that does not occur among the first cells finds nothing there. -/
theorem memchr_none_of_not_mem (c : Nat) (ys : List Nat) :
    ∀ xs : List Nat, c ∉ xs → memchr (xs ++ ys) c xs.length = none := by
  intro xs
  induction xs with
  | nil => intro _; simp [memchr]
  | cons x xs ih =>
    intro h
    have hx : ¬ x = c := fun e => h (by simp [e])
    have hxs : c ∉ xs := fun e => h (List.mem_cons_of_mem _ e)
    have hi := ih hxs
    simp only [List.cons_append, List.length_cons, memchr, hx, if_false]
    show Option.map (fun x => x + 1) (memchr (xs ++ ys) c xs.length) = none
    rw [hi]
    rfl

/-- A pass whose header search finds nothing does not return and empties the buffer. -/
theorem poll_scan_none {σ : Type} (ifc : ubx_if_t σ) (ec ei rs : Nat) (st : PollState σ)
    (h : memchr st.sp_buffer UBX_HEADER_0 st.total_bytes = none) :
    (poll_scan ifc ec ei rs st).1 = false ∧ (poll_scan ifc ec ei rs st).2.total_bytes = 0 := by
  unfold poll_scan
  rw [h]
  exact ⟨rfl, rfl⟩

/-- On a transport whose `recv` never reports a byte, a pass that starts with an empty
buffer does not return and leaves the buffer empty. -/
theorem poll_body_silent {σ : Type} (ifc : ubx_if_t σ) (ec ei rs : Nat)
    (hsil : ∀ s buf n, (ifc.recv s buf n).1 ≤ 0) (st : PollState σ) (h0 : st.total_bytes = 0) :
    (poll_body ifc ec ei rs st).1 = false ∧ (poll_body ifc ec ei rs st).2.total_bytes = 0 := by
  unfold poll_body
  apply poll_scan_none
  have hr := hsil st.env (List.replicate (recv_buffer_size st.total_bytes) 0)
    (recv_buffer_size st.total_bytes)
  have hc : ¬ ((ifc.recv st.env (List.replicate (recv_buffer_size st.total_bytes) 0)
      (recv_buffer_size st.total_bytes)).1 > 0 ∧ recv_buffer_size st.total_bytes ≠ 0) := by
    omega
  unfold poll_receive
  dsimp only
  rw [if_neg hc]
  dsimp only
  rw [h0]
  simp [memchr]

/-- On a transport that returns at most the requested maximum and never delivers the
header byte 0xB5, a pass that starts with an empty buffer does not return and leaves the
buffer empty. -/
theorem poll_body_noise {σ : Type} (ifc : ubx_if_t σ) (ec ei rs : Nat)
    (hret : ∀ s n, (ifc.recv s (List.replicate n 0) n).1 ≤ (n : Int))
    (hsame : ∀ s n, (ifc.recv s (List.replicate n 0) n).2.1.length = n)
    (hnoise : ∀ s n, ∀ x ∈ (ifc.recv s (List.replicate n 0) n).2.1, x ≠ UBX_HEADER_0)
    (st : PollState σ) (h0 : st.total_bytes = 0) :
    (poll_body ifc ec ei rs st).1 = false ∧ (poll_body ifc ec ei rs st).2.total_bytes = 0 := by
  unfold poll_body
  apply poll_scan_none
  have hr := hret st.env (recv_buffer_size st.total_bytes)
  have hl := hsame st.env (recv_buffer_size st.total_bytes)
  have hn := hnoise st.env (recv_buffer_size st.total_bytes)
  unfold poll_receive
  by_cases hc : (ifc.recv st.env (List.replicate (recv_buffer_size st.total_bytes) 0)
      (recv_buffer_size st.total_bytes)).1 > 0 ∧ recv_buffer_size st.total_bytes ≠ 0
  · dsimp only
    rw [if_pos hc]
    dsimp only
    rw [h0] at hr hl hn ⊢
    have hlen : ((ifc.recv st.env (List.replicate (recv_buffer_size 0) 0)
        (recv_buffer_size 0)).2.1.take
          (ifc.recv st.env (List.replicate (recv_buffer_size 0) 0)
            (recv_buffer_size 0)).1.toNat).length
        = (ifc.recv st.env (List.replicate (recv_buffer_size 0) 0)
            (recv_buffer_size 0)).1.toNat := by
      rw [List.length_take]
      omega
    have hnm : UBX_HEADER_0 ∉ (ifc.recv st.env (List.replicate (recv_buffer_size 0) 0)
        (recv_buffer_size 0)).2.1.take
          (ifc.recv st.env (List.replicate (recv_buffer_size 0) 0)
            (recv_buffer_size 0)).1.toNat :=
      fun hm => hn _ (List.mem_of_mem_take hm) rfl
    have hm := memchr_none_of_not_mem UBX_HEADER_0
      (st.sp_buffer.drop (0 + (ifc.recv st.env (List.replicate (recv_buffer_size 0) 0)
        (recv_buffer_size 0)).1.toNat)) _ hnm
    rw [hlen] at hm
    unfold memcpy
    simpa using hm
  · dsimp only
    rw [if_neg hc]
    dsimp only
    rw [h0]
    simp [memchr]

/-- If every pass that starts with an empty buffer ends without returning and with an
empty buffer, no pass of the loop validates a frame. -/
theorem poll_iterate_quiet {σ : Type} (ifc : ubx_if_t σ) (ec ei rs : Nat)
    (hq : ∀ st : PollState σ, st.total_bytes = 0 →
      (poll_body ifc ec ei rs st).1 = false ∧ (poll_body ifc ec ei rs st).2.total_bytes = 0) :
    ∀ (k : Nat) (st : PollState σ), st.total_bytes = 0 →
      (poll_body ifc ec ei rs (poll_iterate ifc ec ei rs k st)).1 = false := by
  intro k
  induction k with
  | zero => intro st h0; exact (hq st h0).1
  | succ k ih => intro st h0; exact ih _ (hq st h0).2

/-- C7. Bounded timeout. For every transport, environment, working buffer and request
whose `send` succeeds, `ubx_send_and_receive` terminates (the model has a result) with
return code 0 or -1 after at most 100 `recv` calls. It returns 0 only if one of the first
100 passes of the loop validated a frame; and whenever no pass validates a frame it
returns -1 (timeout) after exactly 100 `recv` calls and 100 delays of 10 ms, 1000 ms in
total. In particular it times out in this way on every transport whose `recv` returns 0
bytes (or an error) forever, and on every transport that delivers only noise without the
header byte 0xB5. -/
theorem C7_bounded_timeout {σ : Type} (ifc : ubx_if_t σ) (s : σ) (sp_buffer : List Nat)
    (class_id msg_id : Nat) (payload : Option (List Nat)) (payload_size : Nat)
    (ec ei : Nat) (response : Option (List Nat)) (response_size : Nat)
    (hsend : 0 ≤ (ifc.send s (ubx_send_message_buf class_id msg_id payload payload_size)
      (8 + payload_size)).1) :
    ∃ res, ubx_send_and_receive ifc s (some sp_buffer) class_id msg_id payload payload_size
        ec ei response response_size = .ok res ∧
      count_recv res.trace ≤ 100 ∧
      (res.ret = 0 ∨
        (res.ret = -1 ∧ count_recv res.trace = 100 ∧
          delays res.trace = List.replicate 100 10 ∧ (delays res.trace).sum = 1000)) ∧
      (res.ret = 0 → ∃ k, k < 100 ∧
        (poll_body ifc ec ei response_size (poll_iterate ifc ec ei response_size k
          (poll_entry ifc s sp_buffer class_id msg_id payload payload_size response))).1
          = true) ∧
      ((∀ k, k < 100 →
          (poll_body ifc ec ei response_size (poll_iterate ifc ec ei response_size k
            (poll_entry ifc s sp_buffer class_id msg_id payload payload_size response))).1
            = false) →
        res.ret = -1 ∧ count_recv res.trace = 100 ∧
          delays res.trace = List.replicate 100 10 ∧ (delays res.trace).sum = 1000) ∧
      ((∀ s1 buf n, (ifc.recv s1 buf n).1 ≤ 0) →
        res.ret = -1 ∧ count_recv res.trace = 100 ∧
          delays res.trace = List.replicate 100 10 ∧ (delays res.trace).sum = 1000) ∧
      ((∀ s1 n, (ifc.recv s1 (List.replicate n 0) n).1 ≤ (n : Int)) →
        (∀ s1 n, (ifc.recv s1 (List.replicate n 0) n).2.1.length = n) →
        (∀ s1 n, ∀ x ∈ (ifc.recv s1 (List.replicate n 0) n).2.1, x ≠ UBX_HEADER_0) →
        res.ret = -1 ∧ count_recv res.trace = 100 ∧
          delays res.trace = List.replicate 100 10 ∧ (delays res.trace).sum = 1000) := by
  rw [ubx_send_and_receive_polls ifc s sp_buffer class_id msg_id payload payload_size ec ei
    response response_size hsend]
  obtain ⟨res, ev, hres, htrace, _, hle, hret⟩ :=
    poll_loop_spec ifc ec ei response_size (DEFAULT_TIMEOUT + 1)
      (poll_entry ifc s sp_buffer class_id msg_id payload payload_size response)
      (by simp [DEFAULT_TIMEOUT, poll_entry])
  have h100 : (DEFAULT_TIMEOUT - (poll_entry ifc s sp_buffer class_id msg_id payload
      payload_size response).time_elapsed + 9) / 10 = 100 := by
    simp [DEFAULT_TIMEOUT, poll_entry]
  simp only [h100] at hle hret
  have hcr : count_recv res.trace = count_recv ev := by
    rw [htrace]
    simp [count_recv, List.filter_cons, poll_entry, ubx_send_message]
  have hdl : delays res.trace = delays ev := by
    rw [htrace]
    simp [delays, List.filterMap_cons, poll_entry, ubx_send_message]
  have hzero : res.ret = 0 → ∃ k, k < 100 ∧
      (poll_body ifc ec ei response_size (poll_iterate ifc ec ei response_size k
        (poll_entry ifc s sp_buffer class_id msg_id payload payload_size response))).1
        = true := by
    intro h0
    obtain ⟨k, hk, hv⟩ := poll_loop_ret_zero ifc ec ei response_size _ _ res hres h0
    have ht0 : (poll_entry ifc s sp_buffer class_id msg_id payload payload_size
        response).time_elapsed = 0 := rfl
    rw [ht0] at hk
    unfold DEFAULT_TIMEOUT at hk
    exact ⟨k, by omega, hv⟩
  have hout : res.ret = 0 ∨
      (res.ret = -1 ∧ count_recv res.trace = 100 ∧
        delays res.trace = List.replicate 100 10 ∧ (delays res.trace).sum = 1000) := by
    rcases hret with h0 | ⟨hm, hcnt, hdel⟩
    · left; exact h0
    · right
      refine ⟨hm, by omega, by rw [hdl, hdel], ?_⟩
      rw [hdl, hdel]
      simp
  have hnone : (∀ k, k < 100 →
      (poll_body ifc ec ei response_size (poll_iterate ifc ec ei response_size k
        (poll_entry ifc s sp_buffer class_id msg_id payload payload_size response))).1
        = false) →
      res.ret = -1 ∧ count_recv res.trace = 100 ∧
        delays res.trace = List.replicate 100 10 ∧ (delays res.trace).sum = 1000 := by
    intro hq
    rcases hout with h0 | h1
    · obtain ⟨k, hk, hv⟩ := hzero h0
      rw [hq k hk] at hv
      exact absurd hv (by simp)
    · exact h1
  refine ⟨res, hres, by omega, hout, hzero, hnone, ?_, ?_⟩
  · intro hsil
    exact hnone (fun k _ => poll_iterate_quiet ifc ec ei response_size
      (poll_body_silent ifc ec ei response_size hsil) k _ rfl)
  · intro hr hl hn
    exact hnone (fun k _ => poll_iterate_quiet ifc ec ei response_size
      (poll_body_noise ifc ec ei response_size hr hl hn) k _ rfl)

theorem C7_bounded_timeout_witness :
    (∃ res, ubx_send_and_receive silent_if () (some (List.replicate UBX_M8_BUFFER_SIZE 0))
        UBX_HNR_CLASS UBX_HNR_PVT none 0 UBX_HNR_CLASS UBX_HNR_PVT
        (some (List.replicate 72 0)) 72 = .ok res ∧
      res.ret = -1 ∧ count_recv res.trace = 100 ∧
      delays res.trace = List.replicate 100 10 ∧ (delays res.trace).sum = 1000) ∧
    (∃ res, ubx_send_and_receive noise_if () (some (List.replicate UBX_M8_BUFFER_SIZE 0))
        UBX_HNR_CLASS UBX_HNR_PVT none 0 UBX_HNR_CLASS UBX_HNR_PVT
        (some (List.replicate 72 0)) 72 = .ok res ∧
      res.ret = -1 ∧ count_recv res.trace = 100 ∧
      delays res.trace = List.replicate 100 10 ∧ (delays res.trace).sum = 1000) := by
  constructor
  · obtain ⟨res, hres, _, _, _, _, hsil, _⟩ :=
      C7_bounded_timeout silent_if () (List.replicate UBX_M8_BUFFER_SIZE 0)
        UBX_HNR_CLASS UBX_HNR_PVT none 0 UBX_HNR_CLASS UBX_HNR_PVT
        (some (List.replicate 72 0)) 72 (by decide)
    exact ⟨res, hres, hsil (fun _ _ _ => le_refl _)⟩
  · obtain ⟨res, hres, _, _, _, _, _, hnoise⟩ :=
      C7_bounded_timeout noise_if () (List.replicate UBX_M8_BUFFER_SIZE 0)
        UBX_HNR_CLASS UBX_HNR_PVT none 0 UBX_HNR_CLASS UBX_HNR_PVT
        (some (List.replicate 72 0)) 72 (by decide)
    exact ⟨res, hres, hnoise (fun _ _ => le_refl _) (fun _ n => List.length_replicate n _)
      (fun _ n x hx => by rw [List.eq_of_mem_replicate hx]; decide)⟩

end UbxM8

